import Mathlib

/-!
# Secure boot chain, isolation boundaries and the soil moisture sensor

A shallow embedding of

* `Middleware/ARM/mcuboot/boot/espressif/port/esp_loader.c`
  (`load_segment`, `esp_app_image_load`),
* `Middleware/ARM/mcuboot/boot/espressif/hal/src/esp32s3/bootloader_init.c`
  (`bootloader_init` and the steps it sequences),
* `Middleware/ARM/trusted-firmware-m/platform/ext/target/arm/musca_s1/tfm_hal_isolation.c`
  (`tfm_hal_set_up_static_boundaries`, `tfm_hal_bind_boundaries`,
  `tfm_hal_update_boundaries`), and
* `Common/app/soilMoisture_sensor_publish.c` (`xUpdateSensorData`),

followed by the properties established about them.

Conventions of the embedding.

* Machine words are natural numbers; every `uint32_t` sum the C code computes is
  reduced modulo `2^32` at the place where the C code computes it.
* The address space is a total map from addresses to bytes.  A pointer is an
  address; the null pointer is address `0`.  The C code of `esp_app_image_load`
  reads through pointers it never tests, and the embedding reads the same bytes.
* Calls that leave the translation unit are recorded, in order, in a trace.
* What the external environment decides (flash content, whether a mapping or an
  open succeeds, whether the application entry ever returns) is a field of `World`.
  Constants of headers that the sources include are fields of `Platform`.
  `BootWorld` and `Config` play these parts for `bootloader_init.c`, `TfmWorld` and
  `TfmConfig` for `tfm_hal_isolation.c`, `AdcWorld` for `soilMoisture_sensor_publish.c`.
* The values of type `float` are rational numbers; every operation on them rounds its
  exact result to the nearest `float` (`SoilMoisture.float_of_rat`).
* A loop that waits for the hardware runs on fuel; it returns nothing when the fuel
  runs out.
-/

namespace EspLoader

/-- The modulus of `uint32_t` arithmetic, `2^32`. -/
abbrev U32 : Nat := 4294967296

/-- The address space (or the flash), byte by byte. -/
abbrev Mem := Nat → Nat

/-- The `struct flash_area` of the flash map backend; `esp_loader.c` reads `fa_off` only. -/
structure flash_area where
  fa_id : Nat
  fa_device_id : Nat
  fa_off : Nat
  fa_size : Nat
deriving DecidableEq, Repr

/-- The `esp_image_load_header_t` of `esp_mcuboot_image.h`: eight `uint32_t` fields,
all of which `esp_app_image_load` reads. -/
structure esp_image_load_header_t where
  header_magic : Nat
  entry_addr : Nat
  iram_dest_addr : Nat
  iram_flash_offset : Nat
  iram_size : Nat
  dram_dest_addr : Nat
  dram_flash_offset : Nat
  dram_size : Nat
deriving DecidableEq, Repr

/-- The constants `esp_loader.c` takes from headers: the load header magic and the
bounds of the instruction RAM and data RAM address windows used by
`esp_ptr_in_iram` and `esp_ptr_in_dram`. -/
structure Platform where
  ESP_LOAD_HEADER_MAGIC : Nat
  SOC_IRAM_LOW : Nat
  SOC_IRAM_HIGH : Nat
  SOC_DRAM_LOW : Nat
  SOC_DRAM_HIGH : Nat
deriving DecidableEq, Repr

/-- The error messages of `esp_loader.c`, one per `BOOT_LOG_ERR` call site. -/
inductive ErrMsg where
  | flash_area_open_failed
  | mmap_failed
  | magic_verification_failed
  | iram_region_not_valid
  | dram_region_not_valid
  | entry_not_in_iram
deriving DecidableEq, Repr

/-- The calls of `esp_loader.c` that leave the translation unit, and the writes to
destination memory. -/
inductive Event where
  | flash_area_open (area_id : Int) (rc : Int)
  | log_err (msg : ErrMsg)
  | log_inf
  | bootloader_mmap (src_addr : Nat) (size : Nat) (ok : Bool)
  | bootloader_munmap
  | read_header
  | load_segment (data_addr : Nat) (data_len : Nat) (load_addr : Nat)
  | memcpy (load_addr : Nat) (data_len : Nat)
  | uart_tx_wait_idle
  | call (entry_addr : Nat)
deriving DecidableEq, Repr

/-- What the environment of the loader decides. -/
structure World where
  /-- The flash content, by flash address. -/
  flash : Mem
  /-- The result of `flash_area_id_from_image_slot`. -/
  flash_area_id_from_image_slot : Int → Int
  /-- The return code of `flash_area_open` and the area that `fap` designates after
  the call (when the open failed: whatever is read through `fap`). -/
  flash_area_open : Int → Int × flash_area
  /-- Whether `bootloader_mmap (src_addr, size)` returns a mapping (rather than null). -/
  bootloader_mmap : Nat → Nat → Bool
  /-- The call of the application entry: `none` when the application never returns,
  `some mem` when it returns and leaves the memory `mem` behind. -/
  entry : Nat → Mem → Option Mem

/-- The state the loader works on: the writable address space and the calls so far. -/
structure State where
  mem : Mem
  trace : List Event

/-- How a run of `esp_app_image_load` ends. -/
inductive Result where
  /-- The function returned to its caller. -/
  | returned (s : State)
  /-- The function reached `FIH_PANIC`, which does not return. -/
  | panic (s : State)
  /-- The application entry was called and never returned. -/
  | running (s : State)

/-- The state at the end of a run. -/
def Result.state : Result → State
  | .returned s => s
  | .panic s => s
  | .running s => s

/-- Whether a run ended in `FIH_PANIC`. -/
def Result.isPanic : Result → Bool
  | .panic _ => true
  | _ => false

/-- Whether a run ended with the application running. -/
def Result.isRunning : Result → Bool
  | .running _ => true
  | _ => false

/-- Whether a run ended by returning to the caller. -/
def Result.isReturned : Result → Bool
  | .returned _ => true
  | _ => false

/-- Record one call. -/
def State.emit (s : State) (e : Event) : State :=
  { s with trace := s.trace ++ [e] }

/-- The segment copies of a trace: the `memcpy` calls of `load_segment`. -/
def segment_copies (t : List Event) : List Event :=
  t.filter fun e => match e with
    | .memcpy _ _ => true
    | _ => false

/-- The `load_segment` calls of a trace. -/
def load_segment_calls (t : List Event) : List Event :=
  t.filter fun e => match e with
    | .load_segment _ _ _ => true
    | _ => false

/-- The addresses control was transferred to, in order. -/
def jumps (t : List Event) : List Nat :=
  t.filterMap fun e => match e with
    | .call a => some a
    | _ => none

/-- The header reads of a trace. -/
def header_reads (t : List Event) : List Event :=
  t.filter fun e => match e with
    | .read_header => true
    | _ => false

/-- A pointer returned by `bootloader_mmap`: null, or a view of the flash starting
at flash address `src_addr`. -/
inductive Ptr where
  | null
  | mapped (src_addr : Nat)
deriving DecidableEq, Repr

/-- The byte at offset `i` behind a pointer: flash bytes behind a mapping, the bytes
at address `0 + i` behind the null pointer. -/
def Ptr.read (w : World) (mem : Mem) : Ptr → Nat → Nat
  | .null, i => mem i
  | .mapped src_addr, i => w.flash (src_addr + i)

/-- The call `bootloader_mmap (src_addr, size)`. -/
def bootloader_mmap (w : World) (src_addr size : Nat) (s : State) : Ptr × State :=
  if w.bootloader_mmap src_addr size then
    (.mapped src_addr, s.emit (.bootloader_mmap src_addr size true))
  else
    (.null, s.emit (.bootloader_mmap src_addr size false))

/-- The C `memcpy (dst, src, n)` into the address space: byte `i < n` of the source
lands at address `dst + i`, addresses being 32 bits wide. -/
def memcpy (mem : Mem) (dst : Nat) (src : Nat → Nat) (n : Nat) : Mem :=
  fun a =>
    if a < U32 ∧ (a + U32 - dst % U32) % U32 < n then src ((a + U32 - dst % U32) % U32)
    else mem a

/-- A little-endian `uint32_t` at byte offset `off` of a byte view. -/
def le32 (v : Nat → Nat) (off : Nat) : Nat :=
  v off % 256 + 256 * (v (off + 1) % 256) + 65536 * (v (off + 2) % 256)
    + 16777216 * (v (off + 3) % 256)

/-- The value of `sizeof(esp_image_load_header_t)`. -/
def sizeof_load_header : Nat := 32

/-- The `memcpy` of `sizeof(esp_image_load_header_t)` bytes into the local
`load_header`: the eight fields in declaration order. -/
def decode_load_header (v : Nat → Nat) : esp_image_load_header_t :=
  { header_magic := le32 v 0
    entry_addr := le32 v 4
    iram_dest_addr := le32 v 8
    iram_flash_offset := le32 v 12
    iram_size := le32 v 16
    dram_dest_addr := le32 v 20
    dram_flash_offset := le32 v 24
    dram_size := le32 v 28 }

/-- The test `esp_ptr_in_iram (p)` of `soc/soc_memory_layout.h`:
`SOC_IRAM_LOW <= p && p < SOC_IRAM_HIGH`. -/
def esp_ptr_in_iram (P : Platform) (p : Nat) : Bool :=
  decide (P.SOC_IRAM_LOW ≤ p ∧ p < P.SOC_IRAM_HIGH)

/-- The test `esp_ptr_in_dram (p)` of `soc/soc_memory_layout.h`:
`SOC_DRAM_LOW <= p && p < SOC_DRAM_HIGH`. -/
def esp_ptr_in_dram (P : Platform) (p : Nat) : Bool :=
  decide (P.SOC_DRAM_LOW ≤ p ∧ p < P.SOC_DRAM_HIGH)

/-- The function `load_segment` (esp_loader.c, lines 31-41): map `data_len` bytes of
the flash at `fap->fa_off + data_addr`, return `-1` when the mapping is null, otherwise
copy them to `load_addr`, unmap and return `0`. -/
def load_segment (w : World) (fap : flash_area) (data_addr data_len load_addr : Nat)
    (s : State) : Int × State :=
  let s := s.emit (.load_segment data_addr data_len load_addr)
  match bootloader_mmap w ((fap.fa_off + data_addr) % U32) data_len s with
  | (.null, s) => (-1, s.emit (.log_err .mmap_failed))
  | (.mapped src_addr, s) =>
    let s : State :=
      { mem := memcpy s.mem load_addr (Ptr.read w s.mem (.mapped src_addr)) data_len
        trace := s.trace ++ [.memcpy load_addr data_len] }
    (0, s.emit .bootloader_munmap)

/-- Lines 49-58 of `esp_app_image_load`: open the flash area of the slot (a failure is
logged and nothing else), map the header at `fap->fa_off + hdr_offset`, copy it into
the local `load_header`, unmap.  The result is `fap`, `load_header` and the state. -/
def read_load_header (w : World) (slot : Int) (hdr_offset : Nat) (mem0 : Mem) :
    flash_area × esp_image_load_header_t × State :=
  let s : State := { mem := mem0, trace := [] }
  let area_id := w.flash_area_id_from_image_slot slot
  let rc := (w.flash_area_open area_id).1
  let fap := (w.flash_area_open area_id).2
  let s := s.emit (.flash_area_open area_id rc)
  let s := if rc ≠ 0 then s.emit (.log_err .flash_area_open_failed) else s
  let r := bootloader_mmap w ((fap.fa_off + hdr_offset) % U32) sizeof_load_header s
  let load_header := decode_load_header (Ptr.read w r.2.mem r.1)
  let s := (r.2.emit .read_header).emit .bootloader_munmap
  (fap, load_header, s)

/-- Lines 86-90 of `esp_app_image_load`: wait for the UART, call the entry address;
when the call returns, `FIH_PANIC`. -/
def jump_to_entry (w : World) (entry_addr : Nat) (s : State) : Result :=
  let s := (s.emit .log_inf).emit .uart_tx_wait_idle
  let s := s.emit (.call entry_addr)
  match w.entry entry_addr s.mem with
  | none => .running s
  | some mem => .panic { s with mem := mem }

/-- The function `esp_app_image_load` (esp_loader.c, lines 43-91).  The end address of
each region is the 32-bit sum `dest_addr + size`. -/
def esp_app_image_load (P : Platform) (w : World) (slot : Int) (hdr_offset : Nat)
    (mem0 : Mem) : Result :=
  let fap := (read_load_header w slot hdr_offset mem0).1
  let load_header := (read_load_header w slot hdr_offset mem0).2.1
  let s := (read_load_header w slot hdr_offset mem0).2.2
  if load_header.header_magic ≠ P.ESP_LOAD_HEADER_MAGIC then
    .panic (s.emit (.log_err .magic_verification_failed))
  else if !esp_ptr_in_iram P load_header.iram_dest_addr
      || !esp_ptr_in_iram P ((load_header.iram_dest_addr + load_header.iram_size) % U32) then
    .panic (s.emit (.log_err .iram_region_not_valid))
  else if !esp_ptr_in_dram P load_header.dram_dest_addr
      || !esp_ptr_in_dram P ((load_header.dram_dest_addr + load_header.dram_size) % U32) then
    .panic (s.emit (.log_err .dram_region_not_valid))
  else if !esp_ptr_in_iram P load_header.entry_addr then
    .panic (s.emit (.log_err .entry_not_in_iram))
  else
    let s := s.emit .log_inf
    let s := (load_segment w fap load_header.dram_flash_offset load_header.dram_size
      load_header.dram_dest_addr s).2
    let s := s.emit .log_inf
    let s := (load_segment w fap load_header.iram_flash_offset load_header.iram_size
      load_header.iram_dest_addr s).2
    jump_to_entry w load_header.entry_addr s

/-- The four checks of lines 60-78 of `esp_app_image_load`, all passed: the magic, both
ends of the IRAM region, both ends of the DRAM region, the entry address. -/
def header_checks_pass (P : Platform) (h : esp_image_load_header_t) : Bool :=
  decide (h.header_magic = P.ESP_LOAD_HEADER_MAGIC)
    && esp_ptr_in_iram P h.iram_dest_addr
    && esp_ptr_in_iram P ((h.iram_dest_addr + h.iram_size) % U32)
    && esp_ptr_in_dram P h.dram_dest_addr
    && esp_ptr_in_dram P ((h.dram_dest_addr + h.dram_size) % U32)
    && esp_ptr_in_iram P h.entry_addr

/-- A state in which the memory is still `mem0` and no segment was loaded, copied or
jumped to. -/
def Untouched (mem0 : Mem) (s : State) : Prop :=
  s.mem = mem0 ∧ segment_copies s.trace = [] ∧ load_segment_calls s.trace = [] ∧
    jumps s.trace = []

/-- The world `w` with the length of every flash area replaced by `n`. -/
def World.with_fa_size (w : World) (n : Nat) : World :=
  { w with
    flash_area_open := fun id =>
      ((w.flash_area_open id).1, { (w.flash_area_open id).2 with fa_size := n }) }

/-! ## Concrete inputs

The constants below are sample values, those of an ESP32 build (`soc/soc.h`,
`esp_mcuboot_image.h`); the general theorems hold for every `Platform`. -/

/-- The ESP32: load header magic, IRAM window `0x40080000 .. 0x400A0000`, DRAM window
`0x3FFAE000 .. 0x40000000`. -/
def esp32 : Platform :=
  { ESP_LOAD_HEADER_MAGIC := 0xace637d3
    SOC_IRAM_LOW := 0x40080000
    SOC_IRAM_HIGH := 0x400A0000
    SOC_DRAM_LOW := 0x3FFAE000
    SOC_DRAM_HIGH := 0x40000000 }

/-- The eight words of a load header, in the order of the structure. -/
def header_words (h : esp_image_load_header_t) : List Nat :=
  [h.header_magic, h.entry_addr, h.iram_dest_addr, h.iram_flash_offset, h.iram_size,
   h.dram_dest_addr, h.dram_flash_offset, h.dram_size]

/-- A flash whose 32 bytes at `base` are the little-endian load header `h`; every other
byte at address `a` is `a % 251`. -/
def image_flash (base : Nat) (h : esp_image_load_header_t) : Mem := fun a =>
  if base ≤ a ∧ a < base + 32 then
    ((header_words h).getD ((a - base) / 4) 0 / 256 ^ ((a - base) % 4)) % 256
  else a % 251

/-- A world with one image slot at flash offset `0x10000`, of length `0x100000`, holding
the header `h`.  `flash_area_open` returns `open_rc`; a mapping succeeds when it is at
most `map_limit` bytes long; the application returns or not as `returns` says. -/
def sample_world (h : esp_image_load_header_t) (open_rc : Int) (map_limit : Nat)
    (returns : Bool) : World :=
  { flash := image_flash 0x10000 h
    flash_area_id_from_image_slot := fun slot => slot + 1
    flash_area_open := fun id => (open_rc, ⟨id.toNat, 0, 0x10000, 0x100000⟩)
    bootloader_mmap := fun _ size => decide (size ≤ map_limit)
    entry := fun _ mem => if returns then some mem else none }

/-- The memory before the load: all zero. -/
def zero_mem : Mem := fun _ => 0

/-- A well-formed header: IRAM segment of `0x40` bytes at `0x40080000`, DRAM segment of
`0x20` bytes at `0x3FFB0000`, entry inside the IRAM segment. -/
def sample_header : esp_image_load_header_t :=
  { header_magic := 0xace637d3
    entry_addr := 0x40080010
    iram_dest_addr := 0x40080000
    iram_flash_offset := 0x100
    iram_size := 0x40
    dram_dest_addr := 0x3FFB0000
    dram_flash_offset := 0x200
    dram_size := 0x20 }

/-- The sample header with the magic `0xABAD1DEA`. -/
def bad_magic_header : esp_image_load_header_t :=
  { sample_header with header_magic := 0xABAD1DEA }

/-- A header whose IRAM region starts in IRAM and is `0xFFFFFF80` bytes long, so that
`iram_dest_addr + iram_size` wraps around to `0x40080080`. -/
def wrapped_iram_header : esp_image_load_header_t :=
  { sample_header with
    entry_addr := 0x40080100, iram_dest_addr := 0x40080100, iram_size := 0xFFFFFF80 }

/-- A header whose IRAM region is the last `0x40` bytes of the IRAM window. -/
def top_of_iram_header : esp_image_load_header_t :=
  { sample_header with entry_addr := 0x4009FFC0, iram_dest_addr := 0x4009FFC0 }

/-- The sample header with an entry address in IRAM after the end of the IRAM segment. -/
def stray_entry_header : esp_image_load_header_t :=
  { sample_header with entry_addr := 0x40080400 }

/-- The sample header with an entry address outside IRAM. -/
def entry_in_dram_header : esp_image_load_header_t :=
  { sample_header with entry_addr := 0x3FFB0000 }

/-- A header whose DRAM segment lies at flash offset `0xFFFF0` of the slot and is `0x20`
bytes long: it ends `0x10` bytes after the end of a slot of length `0x100000`. -/
def beyond_slot_header : esp_image_load_header_t :=
  { sample_header with dram_flash_offset := 0xFFFF0 }

/-- A header whose DRAM region starts in DRAM and is `0xFFFFFFF0` bytes long, so that
`dram_dest_addr + dram_size` wraps around to `0x3FFAFFF0`. -/
def wrapped_dram_header : esp_image_load_header_t :=
  { sample_header with dram_size := 0xFFFFFFF0 }

/-- A header whose DRAM segment starts at the first address of the IRAM window. -/
def dram_over_iram_header : esp_image_load_header_t :=
  { sample_header with dram_dest_addr := 0x40080000 }

end EspLoader

namespace BootloaderInit

/-- The type `esp_err_t`. -/
abbrev esp_err_t := Int

/-- The code `ESP_OK` of `esp_err.h`. -/
def ESP_OK : esp_err_t := 0

/-- The code `ESP_FAIL` of `esp_err.h`. -/
def ESP_FAIL : esp_err_t := -1

/-- The build configuration and the constants `bootloader_init.c` takes from headers. -/
structure Config where
  /-- Whether `CONFIG_SPI_FLASH_ROM_DRIVER_PATCH` is defined. -/
  CONFIG_SPI_FLASH_ROM_DRIVER_PATCH : Bool
  /-- Whether `CONFIG_ESP_MCUBOOT_WDT_ENABLE` is defined. -/
  CONFIG_ESP_MCUBOOT_WDT_ENABLE : Bool
  /-- Whether `MCUBOOT_LOG_LEVEL >= MCUBOOT_LOG_LEVEL_DEBUG`. -/
  LOG_LEVEL_DEBUG : Bool
  CONFIG_BOOTLOADER_WDT_TIME_MS : Nat
  CONFIG_ESP_CONSOLE_UART_BAUDRATE : Nat
  UART_CLK_FREQ_ROM : Nat
  ESP_ROM_EFUSE_FLASH_DEFAULT_SPI : Nat
  ESP_ROM_EFUSE_FLASH_DEFAULT_HSPI : Nat
  ESP_IMAGE_FLASH_SIZE_1MB : Nat
  ESP_IMAGE_FLASH_SIZE_2MB : Nat
  ESP_IMAGE_FLASH_SIZE_4MB : Nat
  ESP_IMAGE_FLASH_SIZE_8MB : Nat
  ESP_IMAGE_FLASH_SIZE_16MB : Nat
  RTC_CNTL_SWD_WKEY_VALUE : Nat
  RTC_CNTL_SWD_AUTO_FEED_EN : Nat
  EXTMEM_ICACHE_SHUT_CORE0_BUS : Nat
  EXTMEM_ICACHE_SHUT_CORE1_BUS : Nat
  SYSTEM_CLK_EN_ASSIST_DEBUG : Nat
  SYSTEM_RST_EN_ASSIST_DEBUG : Nat
  RESET_REASON_CORE_RTC_WDT : Nat
  RESET_REASON_CORE_MWDT0 : Nat
  RESET_REASON_CORE_MWDT1 : Nat
  RESET_REASON_CPU0_MWDT0 : Nat
  RESET_REASON_CPU0_RTC_WDT : Nat
  RESET_REASON_CPU1_MWDT1 : Nat
  RESET_REASON_CPU1_RTC_WDT : Nat

/-- What the hardware and the functions outside `bootloader_init.c` decide. -/
structure BootWorld where
  /-- The return code of `bootloader_flash_xmc_startup`. -/
  bootloader_flash_xmc_startup : esp_err_t
  /-- The return code of `bootloader_flash_read` for the bootloader header. -/
  bootloader_flash_read : esp_err_t
  /-- The `spi_size` field of the header that `bootloader_flash_read` delivers. -/
  spi_size : Nat
  /-- The value of `esp_rom_efuse_get_flash_gpio_info ()`. -/
  esp_rom_efuse_get_flash_gpio_info : Nat
  /-- The value of `esp_rom_get_reset_reason (cpu)`. -/
  esp_rom_get_reset_reason : Nat → Nat
  /-- The value of `Cache_Suspend_DCache ()`. -/
  Cache_Suspend_DCache : Nat
  /-- The value of `rtc_clk_slow_freq_get_hz ()`. -/
  rtc_clk_slow_freq_get_hz : Nat
  /-- The field `g_rom_flashchip.device_id`. -/
  device_id : Nat

/-- The registers that `bootloader_init.c` writes with `REG_WRITE`, `REG_SET_BIT` and
`REG_CLR_BIT`. -/
inductive Reg where
  | RTC_CNTL_SWD_WPROTECT_REG
  | RTC_CNTL_SWD_CONF_REG
  | EXTMEM_ICACHE_CTRL1_REG
  | SYSTEM_CPU_PERI_CLK_EN_REG
  | SYSTEM_CPU_PERI_RST_EN_REG
  | ASSIST_DEBUG_CORE_0_RCD_PDEBUGENABLE_REG
  | ASSIST_DEBUG_CORE_0_RCD_RECORDING_REG
deriving DecidableEq, Repr

/-- The watchdog instances of `hal/wdt_hal.h` that `bootloader_config_wdt` uses. -/
inductive Wdt where
  | WDT_RWDT
  | WDT_MWDT0
deriving DecidableEq, Repr

/-- The functions that `bootloader_init` calls, one per call site, in the order of the
source text. -/
inductive Step where
  | bootloader_ana_reset_config
  | bootloader_super_wdt_auto_feed
  | bootloader_init_mem
  | bootloader_clear_bss_section
  | bootloader_reset_mmu
  | bootloader_clock_configure
  | bootloader_init_uart_console
  | bootloader_flash_xmc_startup
  | bootloader_read_bootloader_header
  | bootloader_init_spi_flash
  | bootloader_check_wdt_reset
  | bootloader_config_wdt
deriving DecidableEq, Repr

/-- What a run of `bootloader_init` does, in order. -/
inductive BootEvent where
  /-- The function `bootloader_init` calls one of its steps. -/
  | step (f : Step)
  /-- A step whose result `bootloader_init` tests returns `code`. -/
  | ret (f : Step) (code : esp_err_t)
  | reg_write (r : Reg) (v : Nat)
  | reg_set_bit (r : Reg) (mask : Nat)
  | reg_clr_bit (r : Reg) (mask : Nat)
  | bootloader_ana_super_wdt_reset_config (enable : Bool)
  | bootloader_ana_bod_reset_config (enable : Bool)
  | bootloader_ana_clock_glitch_reset_config (enable : Bool)
  | memset_bss
  | Cache_Suspend_DCache
  | Cache_Invalidate_DCache_All
  | Cache_MMU_Init
  | Cache_Resume_DCache (autoload : Nat)
  | esp_rom_install_uart_printf
  | esp_rom_uart_tx_wait_idle (uart : Nat)
  | esp_rom_uart_set_clock_baudrate (uart : Nat) (clock_hz : Nat) (baud : Nat)
  | bootloader_flash_read (code : esp_err_t)
  | bootloader_flash_dummy_config
  | bootloader_flash_cs_timing_config
  | esp_rom_efuse_get_flash_gpio_info
  | log_e
  | log_w
  | bootloader_flash_unlock
  | esp_rom_spiflash_config_param (device_id : Nat) (chip_size : Nat)
  | bootloader_enable_wp
  | esp_rom_get_reset_reason (cpu : Nat)
  | wdt_reset_info_dump (cpu : Nat)
  | wdt_hal_write_protect_disable (inst : Wdt)
  | wdt_hal_write_protect_enable (inst : Wdt)
  | wdt_hal_set_flashboot_en (inst : Wdt) (enable : Bool)
  | wdt_hal_init (inst : Wdt)
  | rtc_clk_slow_freq_get_hz
  | wdt_hal_config_stage (inst : Wdt) (timeout_ticks : Nat)
  | wdt_hal_enable (inst : Wdt)
deriving DecidableEq, Repr

/-- The state of a run: the registers of `Reg`, the `spi_size` field of the global
`bootloader_image_hdr`, and what happened so far. -/
structure BootState where
  regs : Reg → Nat
  spi_size : Nat
  trace : List BootEvent

/-- Record one event. -/
def BootState.emit (s : BootState) (e : BootEvent) : BootState :=
  { s with trace := s.trace ++ [e] }

/-- The macro `REG_WRITE (r, v)`. -/
def REG_WRITE (r : Reg) (v : Nat) (s : BootState) : BootState :=
  { s with
    regs := fun x => if x = r then v else s.regs x
    trace := s.trace ++ [.reg_write r v] }

/-- The macro `REG_SET_BIT (r, mask)`. -/
def REG_SET_BIT (r : Reg) (mask : Nat) (s : BootState) : BootState :=
  { s with
    regs := fun x => if x = r then s.regs r ||| mask else s.regs x
    trace := s.trace ++ [.reg_set_bit r mask] }

/-- The macro `REG_CLR_BIT (r, mask)`, on 32-bit registers. -/
def REG_CLR_BIT (r : Reg) (mask : Nat) (s : BootState) : BootState :=
  { s with
    regs := fun x => if x = r then s.regs r &&& (4294967295 ^^^ (mask % 4294967296))
      else s.regs x
    trace := s.trace ++ [.reg_clr_bit r mask] }

/-- The function `bootloader_clear_bss_section` (lines 50-53). -/
def bootloader_clear_bss_section (s : BootState) : BootState :=
  s.emit .memset_bss

/-- The function `bootloader_reset_mmu` (lines 55-63). -/
def bootloader_reset_mmu (C : Config) (s : BootState) : BootState :=
  let s := s.emit .Cache_Suspend_DCache
  let s := s.emit .Cache_Invalidate_DCache_All
  let s := s.emit .Cache_MMU_Init
  let s := REG_CLR_BIT .EXTMEM_ICACHE_CTRL1_REG C.EXTMEM_ICACHE_SHUT_CORE0_BUS s
  REG_CLR_BIT .EXTMEM_ICACHE_CTRL1_REG C.EXTMEM_ICACHE_SHUT_CORE1_BUS s

/-- The function `bootloader_read_bootloader_header` (lines 65-71): `ESP_FAIL` when
`bootloader_flash_read` does not return `ESP_OK`, otherwise `ESP_OK`, the header being
then in `bootloader_image_hdr`. -/
def bootloader_read_bootloader_header (w : BootWorld) (s : BootState) : esp_err_t × BootState :=
  let s := s.emit (.bootloader_flash_read w.bootloader_flash_read)
  if w.bootloader_flash_read ≠ ESP_OK then (ESP_FAIL, s)
  else (ESP_OK, { s with spi_size := w.spi_size })

/-- The function `update_flash_config` (lines 73-99). -/
def update_flash_config (C : Config) (w : BootWorld) (s : BootState) : BootState :=
  let size : Nat :=
    if s.spi_size = C.ESP_IMAGE_FLASH_SIZE_1MB then 1
    else if s.spi_size = C.ESP_IMAGE_FLASH_SIZE_2MB then 2
    else if s.spi_size = C.ESP_IMAGE_FLASH_SIZE_4MB then 4
    else if s.spi_size = C.ESP_IMAGE_FLASH_SIZE_8MB then 8
    else if s.spi_size = C.ESP_IMAGE_FLASH_SIZE_16MB then 16
    else 2
  let s := s.emit .Cache_Suspend_DCache
  let autoload := w.Cache_Suspend_DCache
  let s := s.emit (.esp_rom_spiflash_config_param w.device_id ((size * 0x100000) % 4294967296))
  s.emit (.Cache_Resume_DCache autoload)

/-- The function `bootloader_init_flash_configure` (lines 133-137). -/
def bootloader_init_flash_configure (s : BootState) : BootState :=
  (s.emit .bootloader_flash_dummy_config).emit .bootloader_flash_cs_timing_config

/-- Lines 150-154 of `bootloader_init_spi_flash`: unlock the flash, update its
configuration, write-protect it, return `ESP_OK`. -/
def bootloader_init_spi_flash_unlock (C : Config) (w : BootWorld) (s : BootState) :
    esp_err_t × BootState :=
  let s := s.emit .bootloader_flash_unlock
  let s := update_flash_config C w s
  let s := s.emit .bootloader_enable_wp
  (ESP_OK, s)

/-- The function `bootloader_init_spi_flash` (lines 139-155).  Without
`CONFIG_SPI_FLASH_ROM_DRIVER_PATCH`, flash pins other than the two default settings
make it return `ESP_FAIL` before the flash is unlocked. -/
def bootloader_init_spi_flash (C : Config) (w : BootWorld) (s : BootState) : esp_err_t × BootState :=
  let s := bootloader_init_flash_configure s
  if C.CONFIG_SPI_FLASH_ROM_DRIVER_PATCH then bootloader_init_spi_flash_unlock C w s
  else
    let s := s.emit .esp_rom_efuse_get_flash_gpio_info
    let spiconfig := w.esp_rom_efuse_get_flash_gpio_info
    if spiconfig ≠ C.ESP_ROM_EFUSE_FLASH_DEFAULT_SPI
        ∧ spiconfig ≠ C.ESP_ROM_EFUSE_FLASH_DEFAULT_HSPI then
      (ESP_FAIL, s.emit .log_e)
    else bootloader_init_spi_flash_unlock C w s

/-- The function `bootloader_config_wdt` (lines 157-177). -/
def bootloader_config_wdt (C : Config) (w : BootWorld) (s : BootState) : BootState :=
  let s := s.emit (.wdt_hal_write_protect_disable .WDT_RWDT)
  let s := s.emit (.wdt_hal_set_flashboot_en .WDT_RWDT false)
  let s := s.emit (.wdt_hal_write_protect_enable .WDT_RWDT)
  let s :=
    if C.CONFIG_ESP_MCUBOOT_WDT_ENABLE then
      let s := s.emit (.wdt_hal_init .WDT_RWDT)
      let s := s.emit .rtc_clk_slow_freq_get_hz
      let stage_timeout_ticks :=
        ((C.CONFIG_BOOTLOADER_WDT_TIME_MS * w.rtc_clk_slow_freq_get_hz) % 18446744073709551616
          / 1000) % 4294967296
      let s := s.emit (.wdt_hal_write_protect_disable .WDT_RWDT)
      let s := s.emit (.wdt_hal_config_stage .WDT_RWDT stage_timeout_ticks)
      let s := s.emit (.wdt_hal_enable .WDT_RWDT)
      s.emit (.wdt_hal_write_protect_enable .WDT_RWDT)
    else s
  let s := s.emit (.wdt_hal_write_protect_disable .WDT_MWDT0)
  let s := s.emit (.wdt_hal_set_flashboot_en .WDT_MWDT0 false)
  s.emit (.wdt_hal_write_protect_enable .WDT_MWDT0)

/-- The function `bootloader_init_uart_console` (lines 179-187). -/
def bootloader_init_uart_console (C : Config) (s : BootState) : BootState :=
  let s := s.emit .esp_rom_install_uart_printf
  let s := s.emit (.esp_rom_uart_tx_wait_idle 0)
  s.emit (.esp_rom_uart_set_clock_baudrate 0 C.UART_CLK_FREQ_ROM
    C.CONFIG_ESP_CONSOLE_UART_BAUDRATE)

/-- The function `wdt_reset_cpu0_info_enable` (lines 189-195). -/
def wdt_reset_cpu0_info_enable (C : Config) (s : BootState) : BootState :=
  let s := REG_SET_BIT .SYSTEM_CPU_PERI_CLK_EN_REG C.SYSTEM_CLK_EN_ASSIST_DEBUG s
  let s := REG_CLR_BIT .SYSTEM_CPU_PERI_RST_EN_REG C.SYSTEM_RST_EN_ASSIST_DEBUG s
  let s := REG_WRITE .ASSIST_DEBUG_CORE_0_RCD_PDEBUGENABLE_REG 1 s
  REG_WRITE .ASSIST_DEBUG_CORE_0_RCD_RECORDING_REG 1 s

/-- The function `wdt_reset_info_dump` (lines 198-233): it reads the trace port
registers of one CPU and logs them. -/
def wdt_reset_info_dump (cpu : Nat) (s : BootState) : BootState :=
  s.emit (.wdt_reset_info_dump cpu)

/-- The function `bootloader_check_wdt_reset` (lines 236-261). -/
def bootloader_check_wdt_reset (C : Config) (w : BootWorld) (s : BootState) : BootState :=
  let s := s.emit (.esp_rom_get_reset_reason 0)
  let rst0 := w.esp_rom_get_reset_reason 0
  let s := s.emit (.esp_rom_get_reset_reason 1)
  let rst1 := w.esp_rom_get_reset_reason 1
  let pro : Bool := decide (rst0 = C.RESET_REASON_CORE_RTC_WDT ∨ rst0 = C.RESET_REASON_CORE_MWDT0
    ∨ rst0 = C.RESET_REASON_CORE_MWDT1 ∨ rst0 = C.RESET_REASON_CPU0_MWDT0
    ∨ rst0 = C.RESET_REASON_CPU0_RTC_WDT)
  let s := if pro then s.emit .log_w else s
  let app : Bool := decide (rst1 = C.RESET_REASON_CORE_RTC_WDT ∨ rst1 = C.RESET_REASON_CORE_MWDT0
    ∨ rst1 = C.RESET_REASON_CORE_MWDT1 ∨ rst1 = C.RESET_REASON_CPU1_MWDT1
    ∨ rst1 = C.RESET_REASON_CPU1_RTC_WDT)
  let s := if app then s.emit .log_w else s
  let wdt_rst : Bool := pro || app
  let s :=
    if wdt_rst && C.LOG_LEVEL_DEBUG then wdt_reset_info_dump 1 (wdt_reset_info_dump 0 s)
    else s
  wdt_reset_cpu0_info_enable C s

/-- The function `bootloader_super_wdt_auto_feed` (lines 263-267). -/
def bootloader_super_wdt_auto_feed (C : Config) (s : BootState) : BootState :=
  let s := REG_WRITE .RTC_CNTL_SWD_WPROTECT_REG C.RTC_CNTL_SWD_WKEY_VALUE s
  let s := REG_SET_BIT .RTC_CNTL_SWD_CONF_REG C.RTC_CNTL_SWD_AUTO_FEED_EN s
  REG_WRITE .RTC_CNTL_SWD_WPROTECT_REG 0 s

/-- The function `bootloader_ana_reset_config` (lines 269-275). -/
def bootloader_ana_reset_config (s : BootState) : BootState :=
  let s := s.emit (.bootloader_ana_super_wdt_reset_config true)
  let s := s.emit (.bootloader_ana_bod_reset_config true)
  s.emit (.bootloader_ana_clock_glitch_reset_config true)

/-- The function `bootloader_init` (lines 277-318).  The three tested calls assign
`ret`; a value other than `ESP_OK` jumps to the label `err`, which returns `ret`. -/
def bootloader_init (C : Config) (w : BootWorld) (s : BootState) : esp_err_t × BootState :=
  let s := bootloader_ana_reset_config (s.emit (.step .bootloader_ana_reset_config))
  let s := bootloader_super_wdt_auto_feed C (s.emit (.step .bootloader_super_wdt_auto_feed))
  let s := s.emit (.step .bootloader_init_mem)
  let s := bootloader_clear_bss_section (s.emit (.step .bootloader_clear_bss_section))
  let s := bootloader_reset_mmu C (s.emit (.step .bootloader_reset_mmu))
  let s := s.emit (.step .bootloader_clock_configure)
  let s := bootloader_init_uart_console C (s.emit (.step .bootloader_init_uart_console))
  let s := s.emit (.step .bootloader_flash_xmc_startup)
  let ret := w.bootloader_flash_xmc_startup
  let s := s.emit (.ret .bootloader_flash_xmc_startup ret)
  if ret ≠ ESP_OK then (ret, s)
  else
    let r := bootloader_read_bootloader_header w
      (s.emit (.step .bootloader_read_bootloader_header))
    let ret := r.1
    let s := r.2.emit (.ret .bootloader_read_bootloader_header ret)
    if ret ≠ ESP_OK then (ret, s)
    else
      let r := bootloader_init_spi_flash C w (s.emit (.step .bootloader_init_spi_flash))
      let ret := r.1
      let s := r.2.emit (.ret .bootloader_init_spi_flash ret)
      if ret ≠ ESP_OK then (ret, s)
      else
        let s := bootloader_check_wdt_reset C w (s.emit (.step .bootloader_check_wdt_reset))
        let s := bootloader_config_wdt C w (s.emit (.step .bootloader_config_wdt))
        (ret, s)

/-- The steps a trace went through, in order. -/
def steps (t : List BootEvent) : List Step :=
  t.filterMap fun e => match e with
    | .step f => some f
    | _ => none

/-- The tested steps of a trace with the codes they returned, in order. -/
def returns (t : List BootEvent) : List (Step × esp_err_t) :=
  t.filterMap fun e => match e with
    | .ret f code => some (f, code)
    | _ => none

/-- The state at reset: registers `regs`, an all-zero header, nothing done yet. -/
def reset_state (regs : Reg → Nat) : BootState :=
  { regs := regs, spi_size := 0, trace := [] }

/-- A sample build: no ROM driver patch, bootloader watchdog enabled, logging below
debug level, and sample values for the constants.  The general theorems hold for every
`Config`. -/
def esp32s3 : Config :=
  { CONFIG_SPI_FLASH_ROM_DRIVER_PATCH := false
    CONFIG_ESP_MCUBOOT_WDT_ENABLE := true
    LOG_LEVEL_DEBUG := false
    CONFIG_BOOTLOADER_WDT_TIME_MS := 9000
    CONFIG_ESP_CONSOLE_UART_BAUDRATE := 115200
    UART_CLK_FREQ_ROM := 40000000
    ESP_ROM_EFUSE_FLASH_DEFAULT_SPI := 0
    ESP_ROM_EFUSE_FLASH_DEFAULT_HSPI := 1
    ESP_IMAGE_FLASH_SIZE_1MB := 0
    ESP_IMAGE_FLASH_SIZE_2MB := 1
    ESP_IMAGE_FLASH_SIZE_4MB := 2
    ESP_IMAGE_FLASH_SIZE_8MB := 3
    ESP_IMAGE_FLASH_SIZE_16MB := 4
    RTC_CNTL_SWD_WKEY_VALUE := 0x8F1D312A
    RTC_CNTL_SWD_AUTO_FEED_EN := 0x80000000
    EXTMEM_ICACHE_SHUT_CORE0_BUS := 1
    EXTMEM_ICACHE_SHUT_CORE1_BUS := 2
    SYSTEM_CLK_EN_ASSIST_DEBUG := 0x40
    SYSTEM_RST_EN_ASSIST_DEBUG := 0x40
    RESET_REASON_CORE_RTC_WDT := 9
    RESET_REASON_CORE_MWDT0 := 7
    RESET_REASON_CORE_MWDT1 := 8
    RESET_REASON_CPU0_MWDT0 := 11
    RESET_REASON_CPU0_RTC_WDT := 13
    RESET_REASON_CPU1_MWDT1 := 17
    RESET_REASON_CPU1_RTC_WDT := 13 }

/-- A world in which the XMC startup returns `xmc`, the header read returns `rd`, the
flash pins read from eFuse are `spiconfig`, and the last reset was a power-on reset. -/
def boot_world (xmc rd : esp_err_t) (spiconfig : Nat) : BootWorld :=
  { bootloader_flash_xmc_startup := xmc
    bootloader_flash_read := rd
    spi_size := 2
    esp_rom_efuse_get_flash_gpio_info := spiconfig
    esp_rom_get_reset_reason := fun _ => 1
    Cache_Suspend_DCache := 0
    rtc_clk_slow_freq_get_hz := 136000
    device_id := 0 }

end BootloaderInit

namespace TfmIsolation

/-- The constant `MPU_REGION_NUM` (line 23).  No line of `tfm_hal_isolation.c` uses it. -/
def MPU_REGION_NUM : Nat := 8

/-- The region number `MPU_REGION_VENEERS` (line 29). -/
def MPU_REGION_VENEERS : Nat := 0

/-- The region number `MPU_REGION_TFM_UNPRIV_CODE` (line 30). -/
def MPU_REGION_TFM_UNPRIV_CODE : Nat := 1

/-- The region number `MPU_REGION_NS_STACK` (line 31). -/
def MPU_REGION_NS_STACK : Nat := 2

/-- The region number `PARTITION_REGION_RO` (line 32). -/
def PARTITION_REGION_RO : Nat := 3

/-- The region number `PARTITION_REGION_RW_STACK` (line 33). -/
def PARTITION_REGION_RW_STACK : Nat := 4

/-- The region number `PARTITION_REGION_PERIPH` (line 34). -/
def PARTITION_REGION_PERIPH : Nat := 5

/-- The region number `MPU_REGION_SP_META_PTR` (line 36). -/
def MPU_REGION_SP_META_PTR : Nat := 7

/-- The type `enum tfm_hal_status_t`, as far as `tfm_hal_isolation.c` uses it. -/
inductive tfm_hal_status_t where
  | TFM_HAL_SUCCESS
  | TFM_HAL_ERROR_GENERIC
deriving DecidableEq, Repr

/-- The memory attribute indices of `mpu_armv8m_drv.h`. -/
inductive mpu_armv8m_attridx where
  | MPU_ARMV8M_MAIR_ATTR_DEVICE_IDX
  | MPU_ARMV8M_MAIR_ATTR_CODE_IDX
  | MPU_ARMV8M_MAIR_ATTR_DATA_IDX
deriving DecidableEq, Repr

/-- The access permissions of `mpu_armv8m_drv.h`. -/
inductive mpu_armv8m_attr_access_t where
  | MPU_ARMV8M_AP_RW_PRIV_ONLY
  | MPU_ARMV8M_AP_RW_PRIV_UNPRIV
  | MPU_ARMV8M_AP_RO_PRIV_ONLY
  | MPU_ARMV8M_AP_RO_PRIV_UNPRIV
deriving DecidableEq, Repr

/-- The execute permissions of `mpu_armv8m_drv.h`. -/
inductive mpu_armv8m_attr_exec_t where
  | MPU_ARMV8M_XN_EXEC_OK
  | MPU_ARMV8M_XN_EXEC_NEVER
deriving DecidableEq, Repr

/-- The shareability attributes of `mpu_armv8m_drv.h`. -/
inductive mpu_armv8m_attr_shared_t where
  | MPU_ARMV8M_SH_NONE
  | MPU_ARMV8M_SH_UNUSED
  | MPU_ARMV8M_SH_OUTER
  | MPU_ARMV8M_SH_INNER
deriving DecidableEq, Repr

/-- The type `struct mpu_armv8m_region_cfg_t`. -/
structure mpu_armv8m_region_cfg_t where
  region_nr : Nat
  region_base : Nat
  region_limit : Nat
  region_attridx : mpu_armv8m_attridx
  attr_access : mpu_armv8m_attr_access_t
  attr_sh : mpu_armv8m_attr_shared_t
  attr_exec : mpu_armv8m_attr_exec_t
deriving DecidableEq, Repr

/-- The type `struct platform_data_t`: the address window of a peripheral and its place
in the peripheral protection controller. -/
structure platform_data_t where
  periph_start : Nat
  periph_limit : Nat
  periph_ppc_bank : Nat
  periph_ppc_loc : Nat
deriving DecidableEq, Repr

/-- The type `struct asset_desc_t`.  The two words are a union: `dev.dev_ref` and
`dev.addr_ref` for a device, `mem.start` and `mem.limit` for a memory asset. -/
structure asset_desc_t where
  dev_ref : Nat
  addr_ref : Nat
  attr : Nat
deriving DecidableEq, Repr

/-- The type `struct partition_load_info_t` with the asset array that `LOAD_INFO_ASSET`
finds behind it; `nassets` is the length of `assets`. -/
structure partition_load_info_t where
  psa_ff_ver : Nat
  pid : Int
  flags : Nat
  entry : Nat
  stack_size : Nat
  heap_size : Nat
  ndeps : Nat
  nservices : Nat
  nirqs : Nat
  assets : List asset_desc_t
deriving DecidableEq, Repr

/-- The field `nassets`. -/
def partition_load_info_t.nassets (d : partition_load_info_t) : Nat := d.assets.length

/-- The build configuration of `tfm_hal_isolation.c` and the constants, linker symbols
and tables it takes from headers and from the platform. -/
structure TfmConfig where
  /-- Whether `CONFIG_TFM_ENABLE_MEMORY_PROTECT` is defined. -/
  CONFIG_TFM_ENABLE_MEMORY_PROTECT : Bool
  /-- Whether `TFM_SP_META_PTR_ENABLE` is defined. -/
  TFM_SP_META_PTR_ENABLE : Bool
  /-- The isolation level `TFM_LVL`. -/
  TFM_LVL : Nat
  veneer_base : Nat
  veneer_limit : Nat
  TFM_UNPRIV_CODE_RO_Base : Nat
  TFM_UNPRIV_CODE_RO_Limit : Nat
  ER_INITIAL_PSP_ZI_Base : Nat
  ER_INITIAL_PSP_ZI_Limit : Nat
  TFM_APP_CODE_START_Base : Nat
  TFM_APP_CODE_END_Base : Nat
  TFM_APP_RW_STACK_START_Base : Nat
  TFM_APP_RW_STACK_END_Base : Nat
  TFM_SP_META_PTR_RW_Base : Nat
  TFM_SP_META_PTR_RW_Limit : Nat
  PARTITION_MODEL_PSA_ROT : Nat
  ASSET_ATTR_NAMED_MMIO : Nat
  HANDLE_ATTR_PRIV_MASK : Nat
  PPC_SP_DO_NOT_CONFIGURE : Nat
  /-- The table `partition_named_mmio_list`. -/
  partition_named_mmio_list : List Nat
  /-- The `struct platform_data_t` that `REFERENCE_TO_PTR (dev_ref, ...)` points to. -/
  platform_data : Nat → platform_data_t

/-- The code `ARM_DRIVER_OK` of `Driver_Common.h`. -/
def ARM_DRIVER_OK : Int := 0

/-- What the drivers outside `tfm_hal_isolation.c` decide. -/
structure TfmWorld where
  /-- The return code of `mpc_init_cfg ()`. -/
  mpc_init_cfg : Int
  /-- The return code of `ppc_init_cfg ()`. -/
  ppc_init_cfg : Int
  /-- Whether `mpu_armv8m_region_enable` returns `MPU_ARMV8M_OK` for a configuration. -/
  mpu_armv8m_region_enable : mpu_armv8m_region_cfg_t → Bool

/-- The setting of one peripheral in the peripheral protection controller. -/
structure ppc_setting where
  secure : Bool
  secure_unpriv : Bool
deriving DecidableEq, Repr

/-- The calls of `tfm_hal_isolation.c` that leave the translation unit. -/
inductive TfmEvent where
  | sau_and_idau_cfg
  | mpc_init_cfg (rc : Int)
  | ppc_init_cfg (rc : Int)
  | mpu_armv8m_clean
  | mpu_armv8m_region_enable (cfg : mpu_armv8m_region_cfg_t) (ok : Bool)
  | mpu_armv8m_enable
  | ppc_configure_to_secure (bank : Nat) (loc : Nat)
  | ppc_clr_secure_unpriv (bank : Nat) (loc : Nat)
  | ppc_en_secure_unpriv (bank : Nat) (loc : Nat)
  | set_CONTROL (w : Nat)
deriving DecidableEq, Repr

/-- The state `tfm_hal_isolation.c` works on: the static counter `n_configured_regions`,
the MPU region table (the configuration last enabled under each region number), whether
the MPU is enabled, the peripheral protection controller, the `CONTROL` register, and the
driver calls so far.  Drivers whose code is elsewhere change this state as their names
say: `mpu_armv8m_clean` disables every region, an accepted `mpu_armv8m_region_enable`
stores the configuration under its region number, a refused one stores nothing, and the
`ppc_*` calls set or clear the two settings of one peripheral. -/
structure TfmState where
  n_configured_regions : Nat
  mpu : Nat → Option mpu_armv8m_region_cfg_t
  mpu_enabled : Bool
  ppc : Nat → Nat → ppc_setting
  CONTROL : Nat
  trace : List TfmEvent

/-- Record one driver call. -/
def TfmState.emit (s : TfmState) (e : TfmEvent) : TfmState :=
  { s with trace := s.trace ++ [e] }

/-- The call `mpu_armv8m_clean (&dev_mpu_s)`. -/
def mpu_armv8m_clean (s : TfmState) : TfmState :=
  { s with mpu := fun _ => none, trace := s.trace ++ [.mpu_armv8m_clean] }

/-- The call `mpu_armv8m_region_enable (&dev_mpu_s, &cfg)` and whether it returned
`MPU_ARMV8M_OK`. -/
def mpu_armv8m_region_enable (w : TfmWorld) (cfg : mpu_armv8m_region_cfg_t) (s : TfmState) :
    Bool × TfmState :=
  if w.mpu_armv8m_region_enable cfg then
    (true, { s with
      mpu := fun i => if i = cfg.region_nr then some cfg else s.mpu i
      trace := s.trace ++ [.mpu_armv8m_region_enable cfg true] })
  else
    (false, s.emit (.mpu_armv8m_region_enable cfg false))

/-- The call `mpu_armv8m_enable (&dev_mpu_s, PRIVILEGED_DEFAULT_ENABLE,
HARDFAULT_NMI_ENABLE)`. -/
def mpu_armv8m_enable (s : TfmState) : TfmState :=
  { s with mpu_enabled := true, trace := s.trace ++ [.mpu_armv8m_enable] }

/-- The call `ppc_configure_to_secure (bank, loc)`. -/
def ppc_configure_to_secure (bank loc : Nat) (s : TfmState) : TfmState :=
  { s with
    ppc := fun b l => if b = bank ∧ l = loc then { s.ppc b l with secure := true }
      else s.ppc b l
    trace := s.trace ++ [.ppc_configure_to_secure bank loc] }

/-- The call `ppc_clr_secure_unpriv (bank, loc)`. -/
def ppc_clr_secure_unpriv (bank loc : Nat) (s : TfmState) : TfmState :=
  { s with
    ppc := fun b l => if b = bank ∧ l = loc then { s.ppc b l with secure_unpriv := false }
      else s.ppc b l
    trace := s.trace ++ [.ppc_clr_secure_unpriv bank loc] }

/-- The call `ppc_en_secure_unpriv (bank, loc)`. -/
def ppc_en_secure_unpriv (bank loc : Nat) (s : TfmState) : TfmState :=
  { s with
    ppc := fun b l => if b = bank ∧ l = loc then { s.ppc b l with secure_unpriv := true }
      else s.ppc b l
    trace := s.trace ++ [.ppc_en_secure_unpriv bank loc] }

/-- The statement `n_configured_regions++` on the `uint32_t` counter. -/
def incr_n_configured_regions (s : TfmState) : TfmState :=
  { s with n_configured_regions := (s.n_configured_regions + 1) % 4294967296 }

/-- The region configurations that `tfm_hal_set_up_static_boundaries` fills in, in the
order of lines 74-162: veneers, unprivileged core code, non-secure stack, partition
read-only code, partition data and stack and, with `TFM_SP_META_PTR_ENABLE`, the
partition metadata pointer. -/
def static_regions (P : TfmConfig) : List mpu_armv8m_region_cfg_t :=
  [ { region_nr := MPU_REGION_VENEERS
      region_base := P.veneer_base
      region_limit := P.veneer_limit
      region_attridx := .MPU_ARMV8M_MAIR_ATTR_CODE_IDX
      attr_access := .MPU_ARMV8M_AP_RO_PRIV_UNPRIV
      attr_sh := .MPU_ARMV8M_SH_NONE
      attr_exec := .MPU_ARMV8M_XN_EXEC_OK },
    { region_nr := MPU_REGION_TFM_UNPRIV_CODE
      region_base := P.TFM_UNPRIV_CODE_RO_Base
      region_limit := P.TFM_UNPRIV_CODE_RO_Limit
      region_attridx := .MPU_ARMV8M_MAIR_ATTR_CODE_IDX
      attr_access := .MPU_ARMV8M_AP_RO_PRIV_UNPRIV
      attr_sh := .MPU_ARMV8M_SH_NONE
      attr_exec := .MPU_ARMV8M_XN_EXEC_OK },
    { region_nr := MPU_REGION_NS_STACK
      region_base := P.ER_INITIAL_PSP_ZI_Base
      region_limit := P.ER_INITIAL_PSP_ZI_Limit
      region_attridx := .MPU_ARMV8M_MAIR_ATTR_DATA_IDX
      attr_access := .MPU_ARMV8M_AP_RW_PRIV_UNPRIV
      attr_sh := .MPU_ARMV8M_SH_NONE
      attr_exec := .MPU_ARMV8M_XN_EXEC_NEVER },
    { region_nr := PARTITION_REGION_RO
      region_base := P.TFM_APP_CODE_START_Base
      region_limit := P.TFM_APP_CODE_END_Base
      region_attridx := .MPU_ARMV8M_MAIR_ATTR_CODE_IDX
      attr_access := .MPU_ARMV8M_AP_RO_PRIV_UNPRIV
      attr_sh := .MPU_ARMV8M_SH_NONE
      attr_exec := .MPU_ARMV8M_XN_EXEC_OK },
    { region_nr := PARTITION_REGION_RW_STACK
      region_base := P.TFM_APP_RW_STACK_START_Base
      region_limit := P.TFM_APP_RW_STACK_END_Base
      region_attridx := .MPU_ARMV8M_MAIR_ATTR_DATA_IDX
      attr_access := .MPU_ARMV8M_AP_RW_PRIV_UNPRIV
      attr_sh := .MPU_ARMV8M_SH_NONE
      attr_exec := .MPU_ARMV8M_XN_EXEC_NEVER } ]
  ++ (if P.TFM_SP_META_PTR_ENABLE then
    [ { region_nr := MPU_REGION_SP_META_PTR
        region_base := P.TFM_SP_META_PTR_RW_Base
        region_limit := P.TFM_SP_META_PTR_RW_Limit
        region_attridx := .MPU_ARMV8M_MAIR_ATTR_DATA_IDX
        attr_access := .MPU_ARMV8M_AP_RW_PRIV_UNPRIV
        attr_sh := .MPU_ARMV8M_SH_NONE
        attr_exec := .MPU_ARMV8M_XN_EXEC_NEVER } ]
    else [])

/-- The blocks of lines 74-162, one per region configuration: enable the region, return
`false` (for `TFM_HAL_ERROR_GENERIC`) when the driver refuses it, otherwise count it and go
on with the next block. -/
def enable_static_regions (w : TfmWorld) :
    List mpu_armv8m_region_cfg_t → TfmState → Bool × TfmState
  | [], s => (true, s)
  | cfg :: rest, s =>
    if (mpu_armv8m_region_enable w cfg s).1 then
      enable_static_regions w rest (incr_n_configured_regions (mpu_armv8m_region_enable w cfg s).2)
    else (false, (mpu_armv8m_region_enable w cfg s).2)

/-- The function `tfm_hal_set_up_static_boundaries` (lines 55-169). -/
def tfm_hal_set_up_static_boundaries (P : TfmConfig) (w : TfmWorld) (s : TfmState) :
    tfm_hal_status_t × TfmState :=
  let s := s.emit .sau_and_idau_cfg
  let s := s.emit (.mpc_init_cfg w.mpc_init_cfg)
  if w.mpc_init_cfg ≠ ARM_DRIVER_OK then (.TFM_HAL_ERROR_GENERIC, s)
  else
    let s := s.emit (.ppc_init_cfg w.ppc_init_cfg)
    if w.ppc_init_cfg ≠ ARM_DRIVER_OK then (.TFM_HAL_ERROR_GENERIC, s)
    else if P.CONFIG_TFM_ENABLE_MEMORY_PROTECT then
      let s := mpu_armv8m_clean s
      if (enable_static_regions w (static_regions P) s).1 then
        (.TFM_HAL_SUCCESS, mpu_armv8m_enable (enable_static_regions w (static_regions P) s).2)
      else (.TFM_HAL_ERROR_GENERIC, (enable_static_regions w (static_regions P) s).2)
    else (.TFM_HAL_SUCCESS, s)

/-- The value of `privileged` in `tfm_hal_bind_boundaries` (lines 196-200). -/
def is_privileged (P : TfmConfig) (d : partition_load_info_t) : Bool :=
  if P.TFM_LVL = 1 then true else decide (d.flags &&& P.PARTITION_MODEL_PSA_ROT ≠ 0)

/-- Lines 230-240: the peripheral protection controller settings of one peripheral. -/
def configure_ppc (P : TfmConfig) (privileged : Bool) (pd : platform_data_t)
    (s : TfmState) : TfmState :=
  if pd.periph_ppc_bank ≠ P.PPC_SP_DO_NOT_CONFIGURE then
    let s := ppc_configure_to_secure pd.periph_ppc_bank pd.periph_ppc_loc s
    if privileged then ppc_clr_secure_unpriv pd.periph_ppc_bank pd.periph_ppc_loc s
    else ppc_en_secure_unpriv pd.periph_ppc_bank pd.periph_ppc_loc s
  else s

/-- The region configuration of lines 247-253 for a peripheral, under region number `n`. -/
def mmio_region_cfg (pd : platform_data_t) (n : Nat) : mpu_armv8m_region_cfg_t :=
  { region_nr := n
    region_base := pd.periph_start
    region_limit := pd.periph_limit
    region_attridx := .MPU_ARMV8M_MAIR_ATTR_DEVICE_IDX
    attr_access := .MPU_ARMV8M_AP_RW_PRIV_UNPRIV
    attr_sh := .MPU_ARMV8M_SH_NONE
    attr_exec := .MPU_ARMV8M_XN_EXEC_NEVER }

/-- One round of the loop of lines 212-261 for the asset `a`: `false` when the round
returns `TFM_HAL_ERROR_GENERIC`, `true` when the loop goes on. -/
def bind_asset (P : TfmConfig) (w : TfmWorld) (privileged : Bool) (a : asset_desc_t)
    (s : TfmState) : Bool × TfmState :=
  if a.attr &&& P.ASSET_ATTR_NAMED_MMIO = 0 then (true, s)
  else if a.dev_ref ∉ P.partition_named_mmio_list then (false, s)
  else
    let pd := P.platform_data a.dev_ref
    let s := configure_ppc P privileged pd s
    if P.TFM_LVL = 2 ∧ privileged = false then
      let localcfg := mmio_region_cfg pd s.n_configured_regions
      let s := incr_n_configured_regions s
      mpu_armv8m_region_enable w localcfg s
    else (true, s)

/-- The loop of lines 212-261 over the assets. -/
def bind_assets (P : TfmConfig) (w : TfmWorld) (privileged : Bool) :
    List asset_desc_t → TfmState → Bool × TfmState
  | [], s => (true, s)
  | a :: rest, s =>
    if (bind_asset P w privileged a s).1 then
      bind_assets P w privileged rest (bind_asset P w privileged a s).2
    else (false, (bind_asset P w privileged a s).2)

/-- The function `tfm_hal_bind_boundaries` (lines 181-266).  `p_ldinf` is `none` for a
null pointer; `pp_boundaries` says whether that pointer is non-null.  The result is the
status, the handle written to `*pp_boundaries` (`none` when nothing was written) and the
state. -/
def tfm_hal_bind_boundaries (P : TfmConfig) (w : TfmWorld) (p_ldinf : Option partition_load_info_t)
    (pp_boundaries : Bool) (s : TfmState) : tfm_hal_status_t × Option Nat × TfmState :=
  match p_ldinf with
  | none => (.TFM_HAL_ERROR_GENERIC, none, s)
  | some d =>
    if pp_boundaries = false then (.TFM_HAL_ERROR_GENERIC, none, s)
    else
      let privileged := is_privileged P d
      if (bind_assets P w privileged d.assets s).1 then
        (.TFM_HAL_SUCCESS, some (privileged.toNat &&& P.HANDLE_ATTR_PRIV_MASK),
          (bind_assets P w privileged d.assets s).2)
      else (.TFM_HAL_ERROR_GENERIC, none, (bind_assets P w privileged d.assets s).2)

/-- The function `tfm_hal_update_boundaries` (lines 268-281): `nPRIV` is bit 0 of
`CONTROL`. -/
def tfm_hal_update_boundaries (P : TfmConfig) (_p_ldinf : Option partition_load_info_t)
    (p_boundaries : Nat) (s : TfmState) : tfm_hal_status_t × TfmState :=
  let privileged : Bool := decide (p_boundaries &&& P.HANDLE_ATTR_PRIV_MASK ≠ 0)
  let ctrl_w := s.CONTROL
  let ctrl_w := ctrl_w / 2 * 2 + (if privileged then 0 else 1)
  (.TFM_HAL_SUCCESS, { s with CONTROL := ctrl_w, trace := s.trace ++ [.set_CONTROL ctrl_w] })

/-- The calls a manager can receive. -/
inductive Op where
  | set_up_static_boundaries
  | bind_boundaries (d : partition_load_info_t)

/-- The state after a sequence of calls, whatever their results. -/
def run_ops (P : TfmConfig) (w : TfmWorld) : List Op → TfmState → TfmState
  | [], s => s
  | .set_up_static_boundaries :: rest, s =>
    run_ops P w rest (tfm_hal_set_up_static_boundaries P w s).2
  | .bind_boundaries d :: rest, s =>
    run_ops P w rest (tfm_hal_bind_boundaries P w (some d) true s).2.2

/-- The number of regions a call asks for at most: the static regions for a static
set-up, one per asset for a bind. -/
def region_demand (P : TfmConfig) : Op → Nat
  | .set_up_static_boundaries => (static_regions P).length
  | .bind_boundaries d => d.assets.length

/-- The state before the first call: no region configured, MPU off. -/
def initial_state : TfmState :=
  { n_configured_regions := 0
    mpu := fun _ => none
    mpu_enabled := false
    ppc := fun _ _ => { secure := false, secure_unpriv := false }
    CONTROL := 0
    trace := [] }

/-! ## Concrete inputs

Sample values for a level 2 build with memory protection and the metadata pointer
region; the general theorems hold for every `TfmConfig` and every `TfmWorld`. -/

/-- The address of the `platform_data_t` of a UART: an allowed named MMIO device. -/
def sample_uart_ref : Nat := 0x10001000

/-- The address of the `platform_data_t` of a timer: an allowed named MMIO device. -/
def sample_timer_ref : Nat := 0x10001010

/-- The address of the `platform_data_t` of a device that is not in
`partition_named_mmio_list`. -/
def sample_other_ref : Nat := 0x10002000

/-- A level 2 build with `CONFIG_TFM_ENABLE_MEMORY_PROTECT` and `TFM_SP_META_PTR_ENABLE`;
the UART and the timer are the allowed named MMIO devices. -/
def sample_config : TfmConfig :=
  { CONFIG_TFM_ENABLE_MEMORY_PROTECT := true
    TFM_SP_META_PTR_ENABLE := true
    TFM_LVL := 2
    veneer_base := 0x10080000
    veneer_limit := 0x1008033F
    TFM_UNPRIV_CODE_RO_Base := 0x10040000
    TFM_UNPRIV_CODE_RO_Limit := 0x1004FFFF
    ER_INITIAL_PSP_ZI_Base := 0x30000000
    ER_INITIAL_PSP_ZI_Limit := 0x30000FFF
    TFM_APP_CODE_START_Base := 0x10050000
    TFM_APP_CODE_END_Base := 0x1006FFFF
    TFM_APP_RW_STACK_START_Base := 0x30010000
    TFM_APP_RW_STACK_END_Base := 0x3001FFFF
    TFM_SP_META_PTR_RW_Base := 0x30020000
    TFM_SP_META_PTR_RW_Limit := 0x3002001F
    PARTITION_MODEL_PSA_ROT := 0x100
    ASSET_ATTR_NAMED_MMIO := 8
    HANDLE_ATTR_PRIV_MASK := 0xF
    PPC_SP_DO_NOT_CONFIGURE := 0xFFFF
    partition_named_mmio_list := [sample_uart_ref, sample_timer_ref]
    platform_data := fun dev_ref =>
      if dev_ref = sample_uart_ref then
        { periph_start := 0x50101000, periph_limit := 0x50101FFF,
          periph_ppc_bank := 1, periph_ppc_loc := 5 }
      else if dev_ref = sample_timer_ref then
        { periph_start := 0x50000000, periph_limit := 0x50000FFF,
          periph_ppc_bank := 0, periph_ppc_loc := 0 }
      else
        { periph_start := 0x50200000, periph_limit := 0x50200FFF,
          periph_ppc_bank := 0xFFFF, periph_ppc_loc := 0 } }

/-- Drivers that succeed; `mpu_armv8m_region_enable` accepts a configuration when its
base is a multiple of 32. -/
def sample_drivers : TfmWorld :=
  { mpc_init_cfg := 0
    ppc_init_cfg := 0
    mpu_armv8m_region_enable := fun cfg => decide (cfg.region_base % 32 = 0) }

/-- Drivers that succeed, except that `mpu_armv8m_region_enable` refuses the region
`MPU_REGION_NS_STACK`. -/
def ns_stack_refused : TfmWorld :=
  { mpc_init_cfg := 0
    ppc_init_cfg := 0
    mpu_armv8m_region_enable := fun cfg => decide (cfg.region_nr ≠ MPU_REGION_NS_STACK) }

/-- Drivers in which `mpc_init_cfg` fails. -/
def mpc_fails : TfmWorld :=
  { mpc_init_cfg := -1
    ppc_init_cfg := 0
    mpu_armv8m_region_enable := fun _ => true }

/-- The UART as a named MMIO asset. -/
def uart_asset : asset_desc_t :=
  { dev_ref := sample_uart_ref, addr_ref := 0, attr := 10 }

/-- A named MMIO asset that the platform does not allow. -/
def other_asset : asset_desc_t :=
  { dev_ref := sample_other_ref, addr_ref := 0, attr := 10 }

/-- A memory asset: the range `start .. limit`, read-write. -/
def memory_asset (start limit : Nat) : asset_desc_t :=
  { dev_ref := start, addr_ref := limit, attr := 2 }

/-- An unprivileged partition (application root of trust) with the assets `assets`. -/
def app_partition (pid : Int) (entry stack_size : Nat) (assets : List asset_desc_t) :
    partition_load_info_t :=
  { psa_ff_ver := 0x0101
    pid := pid
    flags := 0x200
    entry := entry
    stack_size := stack_size
    heap_size := 0
    ndeps := 0
    nservices := 1
    nirqs := 0
    assets := assets }

/-- The partition A: unprivileged, data at `0x30011000 .. 0x300117FF`, the UART. -/
def partition_A : partition_load_info_t :=
  app_partition 256 0x10050101 0x400 [memory_asset 0x30011000 0x300117FF, uart_asset]

/-- The partition B: unprivileged, data at `0x30012000 .. 0x30012FFF`, the UART. -/
def partition_B : partition_load_info_t :=
  app_partition 257 0x10058101 0x800 [memory_asset 0x30012000 0x30012FFF, uart_asset]

/-- A partition that claims the UART and then a device the platform does not allow. -/
def partition_with_other : partition_load_info_t :=
  app_partition 258 0x10060101 0x400 [uart_asset, other_asset]

/-- The state after a successful static set-up with the sample drivers. -/
def after_static_setup : TfmState :=
  (tfm_hal_set_up_static_boundaries sample_config sample_drivers initial_state).2

/-- The calls of `mpu_armv8m_region_enable` in a trace, in order: the configuration
passed and whether the driver returned `MPU_ARMV8M_OK`. -/
def region_calls (t : List TfmEvent) : List (mpu_armv8m_region_cfg_t × Bool) :=
  t.filterMap fun e => match e with
    | .mpu_armv8m_region_enable cfg ok => some (cfg, ok)
    | _ => none

/-- The named MMIO assets of a partition, in the order of its asset array: the assets
for which the test of line 213 does not `continue`. -/
def named_mmio_assets (P : TfmConfig) (d : partition_load_info_t) : List asset_desc_t :=
  d.assets.filter fun a => decide (a.attr &&& P.ASSET_ATTR_NAMED_MMIO ≠ 0)

/-- The region configurations of lines 247-253 for the peripherals of `l`: the first
under the region number `n`, each next one under the number that `n_configured_regions++`
leaves. -/
def mmio_regions (P : TfmConfig) : List asset_desc_t → Nat → List mpu_armv8m_region_cfg_t
  | [], _ => []
  | a :: rest, n =>
    mmio_region_cfg (P.platform_data a.dev_ref) n :: mmio_regions P rest ((n + 1) % 4294967296)

/-- The MPU region table after the driver accepted the configurations `l`, one after the
other, on the table `mpu`: each stands under its region number. -/
def write_regions : List mpu_armv8m_region_cfg_t → (Nat → Option mpu_armv8m_region_cfg_t) →
    Nat → Option mpu_armv8m_region_cfg_t
  | [], mpu => mpu
  | cfg :: rest, mpu => write_regions rest (fun i => if i = cfg.region_nr then some cfg else mpu i)

/-- The timer as a named MMIO asset. -/
def timer_asset : asset_desc_t :=
  { dev_ref := sample_timer_ref, addr_ref := 0, attr := 10 }

/-- The partition C: unprivileged, data at `0x30013000 .. 0x300133FF`, the UART and the
timer. -/
def partition_C : partition_load_info_t :=
  app_partition 260 0x10060101 0x400
    [uart_asset, memory_asset 0x30013000 0x300133FF, timer_asset]

/-- A region configuration that is not both writable and executable: read-only for
privileged and unprivileged code, or execute-never. -/
def read_only_or_execute_never (cfg : mpu_armv8m_region_cfg_t) : Prop :=
  cfg.attr_access = .MPU_ARMV8M_AP_RO_PRIV_UNPRIV ∨ cfg.attr_exec = .MPU_ARMV8M_XN_EXEC_NEVER

/-- From the state `s` to the state `t` the MPU driver was called for regions that are
read-only or execute-never only, and every entry of the region table of `t` is the entry
of `s`, or empty, or read-only or execute-never. -/
def adds_safe_regions (s t : TfmState) : Prop :=
  (∃ new, region_calls t.trace = region_calls s.trace ++ new ∧
    ∀ c ∈ new, read_only_or_execute_never c.1) ∧
  ∀ i, t.mpu i = s.mpu i ∨ t.mpu i = none ∨
    ∃ cfg, t.mpu i = some cfg ∧ read_only_or_execute_never cfg

end TfmIsolation

namespace SoilMoisture

/-- The code `HAL_OK` of `HAL_StatusTypeDef`. -/
def HAL_OK : Int := 0

/-- The value `pdTRUE` of FreeRTOS. -/
def pdTRUE : Int := 1

/-- The value `pdFALSE` of FreeRTOS. -/
def pdFALSE : Int := 0

/-- The integer nearest to `x`, the even one of the two when `x` lies half way. -/
def round_half_even (x : ℚ) : Int :=
  if x - ⌊x⌋ < 1 / 2 then ⌊x⌋
  else if 1 / 2 < x - ⌊x⌋ then ⌊x⌋ + 1
  else if ⌊x⌋ % 2 = 0 then ⌊x⌋ else ⌊x⌋ + 1

/-- The value of type `float` (IEEE 754 binary32, round to nearest, ties to even) that
stands for the real number `x`, for `x` of magnitude below `2^128`: `x` rounded to a
multiple of `2^e`, where `e` is the exponent of the last of 24 significant bits and not
below `-149`.  The values of type `float` are rational numbers. -/
def float_of_rat (x : ℚ) : ℚ :=
  if x = 0 then 0
  else round_half_even (x / 2 ^ max (Int.log 2 |x| - 23) (-149)) *
    2 ^ max (Int.log 2 |x| - 23) (-149)

/-- The operator `-` on two values of type `float`. -/
def float_sub (x y : ℚ) : ℚ := float_of_rat (x - y)

/-- The operator `*` on two values of type `float`. -/
def float_mul (x y : ℚ) : ℚ := float_of_rat (x * y)

/-- The operator `/` on two values of type `float`. -/
def float_div (x y : ℚ) : ℚ := float_of_rat (x / y)

/-- The constant `MOIST_SESNOR_HIGH_MOISTURE` (line 82). -/
def MOIST_SESNOR_HIGH_MOISTURE : ℚ := float_of_rat 1000

/-- The constant `MOIST_SESNOR_LOW_MOISTURE` (line 83). -/
def MOIST_SESNOR_LOW_MOISTURE : ℚ := float_of_rat 1750

/-- The type `MoistSensorData_t` (lines 96-100): a `float` and an `int16_t`. -/
structure MoistSensorData_t where
  SoilMoisture : ℚ
  ADC_Reading : Int

/-- The type `GPIO_PinState` of the HAL. -/
inductive GPIO_PinState where
  | GPIO_PIN_RESET
  | GPIO_PIN_SET
deriving DecidableEq, Repr

/-- What the ADC driver decides. -/
structure AdcWorld where
  /-- The return code of `HAL_ADC_Start`. -/
  HAL_ADC_Start : Int
  /-- The return code of the call number `k` (from 0) of `HAL_ADC_PollForConversion`. -/
  HAL_ADC_PollForConversion : Nat → Int
  /-- The value of `HAL_ADC_GetValue`, a `uint32_t`. -/
  HAL_ADC_GetValue : Nat

/-- The calls of `xUpdateSensorData` that leave the translation unit. -/
inductive SensorEvent where
  | HAL_ADC_Start (rc : Int)
  | HAL_ADC_PollForConversion (rc : Int)
  | HAL_ADC_GetValue (v : Nat)
  /-- The call `HAL_GPIO_WritePin (RELAY_1_GPIO_Port, RELAY_1_Pin, state)`. -/
  | HAL_GPIO_WritePin (state : GPIO_PinState)
deriving DecidableEq, Repr

/-- The state `xUpdateSensorData` works on: the level of the relay pin and the driver
calls so far. -/
structure SensorState where
  RELAY_1 : GPIO_PinState
  trace : List SensorEvent

/-- Record one driver call. -/
def SensorState.emit (s : SensorState) (e : SensorEvent) : SensorState :=
  { s with trace := s.trace ++ [e] }

/-- The call `HAL_GPIO_WritePin (RELAY_1_GPIO_Port, RELAY_1_Pin, state)`. -/
def HAL_GPIO_WritePin (state : GPIO_PinState) (s : SensorState) : SensorState :=
  { RELAY_1 := state, trace := s.trace ++ [.HAL_GPIO_WritePin state] }

/-- The loop of lines 245-248: call `HAL_ADC_PollForConversion` until it returns
`HAL_OK`.  `k` is the number of calls made before; the result is `none` when `fuel` calls
did not end the loop. -/
def poll_for_conversion (w : AdcWorld) : Nat → Nat → SensorState → Option SensorState
  | 0, _, _ => none
  | fuel + 1, k, s =>
    if w.HAL_ADC_PollForConversion k ≠ HAL_OK then
      poll_for_conversion w fuel (k + 1)
        (s.emit (.HAL_ADC_PollForConversion (w.HAL_ADC_PollForConversion k)))
    else some (s.emit (.HAL_ADC_PollForConversion (w.HAL_ADC_PollForConversion k)))

/-- The value of `uhADCxConvertedData` after line 252: the `uint32_t` value of
`HAL_ADC_GetValue` and `0xFFFFFFFE`, stored in a `uint16_t`. -/
def converted_data (v : Nat) : Nat := ((v % 4294967296) &&& 0xFFFFFFFE) % 65536

/-- The conversion of a `uint16_t` to `int16_t` (line 254). -/
def to_int16 (u : Nat) : Int := if u % 65536 < 32768 then u % 65536 else (u % 65536 : Int) - 65536

/-- The value of `pxData->SoilMoisture` after lines 256-266 for the `uint16_t` value
`u` of `uhADCxConvertedData`. -/
def soil_moisture (u : Nat) : ℚ :=
  let m := float_div
    (float_mul (float_of_rat 100)
      (float_sub MOIST_SESNOR_LOW_MOISTURE (float_of_rat u)))
    (float_sub MOIST_SESNOR_LOW_MOISTURE MOIST_SESNOR_HIGH_MOISTURE)
  let m := if m < float_of_rat 0 then float_of_rat 0 else m
  if m > float_of_rat 100 then float_of_rat 100 else m

/-- The function `xUpdateSensorData` (lines 225-275): the return value, the structure
behind `pxData` and the state; `none` when the loop of lines 245-248 did not end within
`fuel` calls. -/
def xUpdateSensorData (w : AdcWorld) (fuel : Nat) (pxData : MoistSensorData_t)
    (s : SensorState) : Option (Int × MoistSensorData_t × SensorState) :=
  let lBspError := w.HAL_ADC_Start
  let s := s.emit (.HAL_ADC_Start lBspError)
  if lBspError = HAL_OK then
    match poll_for_conversion w fuel 0 s with
    | none => none
    | some s =>
      let s := s.emit (.HAL_ADC_GetValue w.HAL_ADC_GetValue)
      let uhADCxConvertedData := converted_data w.HAL_ADC_GetValue
      let pxData : MoistSensorData_t :=
        { SoilMoisture := soil_moisture uhADCxConvertedData
          ADC_Reading := to_int16 uhADCxConvertedData }
      let s := if pxData.SoilMoisture > float_of_rat 70 then
        HAL_GPIO_WritePin .GPIO_PIN_RESET s else s
      some (if lBspError = HAL_OK then pdTRUE else pdFALSE, pxData, s)
  else some (if lBspError = HAL_OK then pdTRUE else pdFALSE, pxData, s)

/-- The driver calls of a trace that write the relay pin, in order. -/
def relay_writes (t : List SensorEvent) : List GPIO_PinState :=
  t.filterMap fun e => match e with
    | .HAL_GPIO_WritePin state => some state
    | _ => none

/-- An ADC whose first conversion ends at the second poll with the value `v`. -/
def sample_adc (v : Nat) : AdcWorld :=
  { HAL_ADC_Start := 0
    HAL_ADC_PollForConversion := fun k => if k = 0 then 3 else 0
    HAL_ADC_GetValue := v }

/-- A state with the relay switched on and no call made yet. -/
def relay_on : SensorState :=
  { RELAY_1 := .GPIO_PIN_SET, trace := [] }

end SoilMoisture

/-! # Theorems about `esp_loader.c` -/

namespace EspLoader

theorem le32_lt (v : Nat → Nat) (off : Nat) : le32 v off < U32 := by
  unfold le32 U32
  omega

theorem read_load_header_mem (w : World) (slot : Int) (hdr_offset : Nat) (mem0 : Mem) :
    (read_load_header w slot hdr_offset mem0).2.2.mem = mem0 := by
  unfold read_load_header bootloader_mmap
  by_cases hrc : (w.flash_area_open (w.flash_area_id_from_image_slot slot)).1 = 0 <;>
  by_cases hm : w.bootloader_mmap
      (((w.flash_area_open (w.flash_area_id_from_image_slot slot)).2.fa_off + hdr_offset) % U32)
      sizeof_load_header = true <;>
  simp [hrc, hm, State.emit]

theorem read_load_header_quiet (w : World) (slot : Int) (hdr_offset : Nat) (mem0 : Mem) :
    segment_copies (read_load_header w slot hdr_offset mem0).2.2.trace = [] ∧
    load_segment_calls (read_load_header w slot hdr_offset mem0).2.2.trace = [] ∧
    jumps (read_load_header w slot hdr_offset mem0).2.2.trace = [] := by
  unfold read_load_header bootloader_mmap
  by_cases hrc : (w.flash_area_open (w.flash_area_id_from_image_slot slot)).1 = 0 <;>
  by_cases hm : w.bootloader_mmap
      (((w.flash_area_open (w.flash_area_id_from_image_slot slot)).2.fa_off + hdr_offset) % U32)
      sizeof_load_header = true <;>
  simp [hrc, hm, State.emit, segment_copies, load_segment_calls, jumps]

theorem read_load_header_untouched (w : World) (slot : Int) (hdr_offset : Nat) (mem0 : Mem) :
    Untouched mem0 (read_load_header w slot hdr_offset mem0).2.2 :=
  ⟨read_load_header_mem w slot hdr_offset mem0, read_load_header_quiet w slot hdr_offset mem0⟩

theorem untouched_log_err (mem0 : Mem) (s : State) (m : ErrMsg) (h : Untouched mem0 s) :
    Untouched mem0 (s.emit (.log_err m)) := by
  obtain ⟨h1, h2, h3, h4⟩ := h
  refine ⟨h1, ?_, ?_, ?_⟩
  · simpa [State.emit, segment_copies, List.filter_append] using h2
  · simpa [State.emit, load_segment_calls, List.filter_append] using h3
  · simpa [State.emit, jumps, List.filterMap_append] using h4

/-- A header that fails one of the four checks ends in `FIH_PANIC` with the memory
as it was and no segment loaded. -/
theorem rejected_panics_untouched (P : Platform) (w : World) (slot : Int) (hdr_offset : Nat)
    (mem0 : Mem)
    (hrej : header_checks_pass P (read_load_header w slot hdr_offset mem0).2.1 = false) :
    ∃ s, esp_app_image_load P w slot hdr_offset mem0 = .panic s ∧ Untouched mem0 s := by
  have hq := read_load_header_untouched w slot hdr_offset mem0
  unfold esp_app_image_load
  simp only [header_checks_pass, Bool.and_eq_false_iff, decide_eq_false_iff_not] at hrej
  dsimp only
  split_ifs with h1 h2 h3 h4
  · exact ⟨_, rfl, untouched_log_err _ _ _ hq⟩
  · exact ⟨_, rfl, untouched_log_err _ _ _ hq⟩
  · exact ⟨_, rfl, untouched_log_err _ _ _ hq⟩
  · exact ⟨_, rfl, untouched_log_err _ _ _ hq⟩
  · exfalso
    simp at h1 h2 h3 h4
    simp [h1, h2, h3, h4] at hrej

/-- A header that passes the four checks is loaded, DRAM segment first, and jumped to. -/
theorem accepted_loads (P : Platform) (w : World) (slot : Int) (hdr_offset : Nat)
    (mem0 : Mem)
    (hacc : header_checks_pass P (read_load_header w slot hdr_offset mem0).2.1 = true) :
    esp_app_image_load P w slot hdr_offset mem0 =
      jump_to_entry w (read_load_header w slot hdr_offset mem0).2.1.entry_addr
        ((load_segment w (read_load_header w slot hdr_offset mem0).1
          (read_load_header w slot hdr_offset mem0).2.1.iram_flash_offset
          (read_load_header w slot hdr_offset mem0).2.1.iram_size
          (read_load_header w slot hdr_offset mem0).2.1.iram_dest_addr
          (((load_segment w (read_load_header w slot hdr_offset mem0).1
            (read_load_header w slot hdr_offset mem0).2.1.dram_flash_offset
            (read_load_header w slot hdr_offset mem0).2.1.dram_size
            (read_load_header w slot hdr_offset mem0).2.1.dram_dest_addr
            ((read_load_header w slot hdr_offset mem0).2.2.emit .log_inf)).2).emit
              .log_inf)).2) := by
  unfold esp_app_image_load
  simp only [header_checks_pass, Bool.and_eq_true, decide_eq_true_eq] at hacc
  obtain ⟨⟨⟨⟨⟨h1, h2⟩, h3⟩, h4⟩, h5⟩, h6⟩ := hacc
  simp [h1, h2, h3, h4, h5, h6]

theorem memcpy_inside (mem : Mem) (dst : Nat) (src : Nat → Nat) (n i : Nat)
    (hfit : dst + n ≤ U32) (hi : i < n) : memcpy mem dst src n (dst + i) = src i := by
  have h1 : dst + i < U32 := by omega
  have h2 : (dst + i + U32 - dst % U32) % U32 = i := by
    unfold U32 at *
    omega
  simp [memcpy, h1, h2, hi]

theorem memcpy_outside (mem : Mem) (dst : Nat) (src : Nat → Nat) (n a : Nat)
    (hfit : dst + n ≤ U32) (ha : a < dst ∨ dst + n ≤ a) : memcpy mem dst src n a = mem a := by
  unfold memcpy
  split_ifs with h
  · exfalso
    obtain ⟨h1, h2⟩ := h
    unfold U32 at *
    omega
  · rfl

theorem jumps_log_inf (s : State) : jumps (s.emit .log_inf).trace = jumps s.trace := by
  simp [State.emit, jumps, List.filterMap_append]

theorem load_segment_jumps (w : World) (fap : flash_area) (data_addr data_len load_addr : Nat)
    (s : State) :
    jumps (load_segment w fap data_addr data_len load_addr s).2.trace = jumps s.trace := by
  unfold load_segment bootloader_mmap
  by_cases hm : w.bootloader_mmap ((fap.fa_off + data_addr) % U32) data_len = true <;>
  simp [hm, State.emit, jumps, List.filterMap_append]

theorem load_segment_mapped (w : World) (fap : flash_area) (data_addr data_len load_addr : Nat)
    (s : State) (hm : w.bootloader_mmap ((fap.fa_off + data_addr) % U32) data_len = true) :
    (load_segment w fap data_addr data_len load_addr s).1 = 0 ∧
    (load_segment w fap data_addr data_len load_addr s).2.mem =
      memcpy s.mem load_addr (fun i => w.flash ((fap.fa_off + data_addr) % U32 + i)) data_len ∧
    segment_copies (load_segment w fap data_addr data_len load_addr s).2.trace =
      segment_copies s.trace ++ [.memcpy load_addr data_len] := by
  unfold load_segment bootloader_mmap
  simp [hm, State.emit, segment_copies, List.filter_append]
  rfl

theorem jump_to_entry_jumps (w : World) (entry_addr : Nat) (s : State) :
    jumps (jump_to_entry w entry_addr s).state.trace = jumps s.trace ++ [entry_addr] := by
  unfold jump_to_entry
  cases h : w.entry entry_addr s.mem <;>
  simp [h, State.emit, jumps, List.filterMap_append, Result.state]

theorem jump_to_entry_outcome (w : World) (entry_addr : Nat) (s : State) :
    (jump_to_entry w entry_addr s).isReturned = false ∧
    ((jump_to_entry w entry_addr s).isPanic = true ∨
      ((jump_to_entry w entry_addr s).isRunning = true ∧
        w.entry entry_addr (jump_to_entry w entry_addr s).state.mem = none)) ∧
    ((w.entry entry_addr s.mem).isSome = true →
      (jump_to_entry w entry_addr s).isPanic = true) := by
  unfold jump_to_entry
  cases h : w.entry entry_addr s.mem <;>
  simp [h, State.emit, Result.isReturned, Result.isPanic, Result.isRunning, Result.state]

/-- A header that passes the four checks is jumped to, exactly once, whatever the two
calls of `load_segment` return. -/
theorem accepted_jumps (P : Platform) (w : World) (slot : Int) (hdr_offset : Nat)
    (mem0 : Mem)
    (hacc : header_checks_pass P (read_load_header w slot hdr_offset mem0).2.1 = true) :
    jumps (esp_app_image_load P w slot hdr_offset mem0).state.trace =
      [(read_load_header w slot hdr_offset mem0).2.1.entry_addr] := by
  rw [accepted_loads P w slot hdr_offset mem0 hacc, jump_to_entry_jumps, load_segment_jumps,
    jumps_log_inf, load_segment_jumps, jumps_log_inf,
    (read_load_header_quiet w slot hdr_offset mem0).2.2]
  rfl

/-- The checks of a header whose regions do not wrap around `2^32` put each region,
end address included, inside its window. -/
theorem checks_pass_bounds (P : Platform) (h : esp_image_load_header_t)
    (hacc : header_checks_pass P h = true)
    (hi : h.iram_dest_addr + h.iram_size < U32) (hd : h.dram_dest_addr + h.dram_size < U32) :
    (P.SOC_IRAM_LOW ≤ h.iram_dest_addr ∧ h.iram_dest_addr + h.iram_size < P.SOC_IRAM_HIGH) ∧
    (P.SOC_DRAM_LOW ≤ h.dram_dest_addr ∧ h.dram_dest_addr + h.dram_size < P.SOC_DRAM_HIGH) := by
  simp only [header_checks_pass, Bool.and_eq_true, decide_eq_true_eq, esp_ptr_in_iram,
    esp_ptr_in_dram] at hacc
  obtain ⟨⟨⟨⟨⟨_, h2⟩, h3⟩, h4⟩, h5⟩, _⟩ := hacc
  rw [Nat.mod_eq_of_lt hi] at h3
  rw [Nat.mod_eq_of_lt hd] at h5
  exact ⟨⟨h2.1, h3.2⟩, ⟨h4.1, h5.2⟩⟩

/-- C1. For every slot content whose load header has a `header_magic` other than
`ESP_LOAD_HEADER_MAGIC`, `esp_app_image_load` ends in `FIH_PANIC`; the memory is the one
it started with, `load_segment` was never called, no segment was copied and control was
never transferred to an entry address. -/
theorem magic_mismatch_panics (P : Platform) (w : World) (slot : Int) (hdr_offset : Nat)
    (mem0 : Mem)
    (hmagic : (read_load_header w slot hdr_offset mem0).2.1.header_magic
      ≠ P.ESP_LOAD_HEADER_MAGIC) :
    ∃ s, esp_app_image_load P w slot hdr_offset mem0 = .panic s ∧ s.mem = mem0 ∧
      segment_copies s.trace = [] ∧ load_segment_calls s.trace = [] ∧ jumps s.trace = [] := by
  apply rejected_panics_untouched
  simp [header_checks_pass, hmagic]

/-- C1, at the header with magic `0xABAD1DEA`. -/
theorem magic_mismatch_panics_witness :
    (read_load_header (sample_world bad_magic_header 0 0x100000 false) 0 0
        zero_mem).2.1.header_magic = 0xABAD1DEA ∧
    ∃ s, esp_app_image_load esp32 (sample_world bad_magic_header 0 0x100000 false) 0 0 zero_mem
        = .panic s ∧ s.mem = zero_mem ∧
      segment_copies s.trace = [] ∧ load_segment_calls s.trace = [] ∧ jumps s.trace = [] :=
  ⟨by decide,
    magic_mismatch_panics esp32 (sample_world bad_magic_header 0 0x100000 false) 0 0 zero_mem
      (by decide)⟩

/-- C2, the failing input.  The header `wrapped_iram_header` has the correct magic and an
IRAM destination range that starts at `0x40080100` and is `0xFFFFFF80` bytes long: the
address `0x400A0000` lies in that range and not in IRAM.  The sum
`iram_dest_addr + iram_size` wraps around to `0x40080080`, which is in IRAM, so the check
of line 65 passes: the DRAM segment is copied (the byte at `0x3FFB0000` changes from `0`
to `35`) and control is transferred to the entry address. -/
theorem wrapped_iram_region_is_loaded :
    (read_load_header (sample_world wrapped_iram_header 0 0x100000 false) 0 0 zero_mem).2.1
      = wrapped_iram_header ∧
    wrapped_iram_header.header_magic = esp32.ESP_LOAD_HEADER_MAGIC ∧
    (wrapped_iram_header.iram_dest_addr ≤ 0x400A0000 ∧
      0x400A0000 < wrapped_iram_header.iram_dest_addr + wrapped_iram_header.iram_size ∧
      esp_ptr_in_iram esp32 0x400A0000 = false) ∧
    (esp_app_image_load esp32 (sample_world wrapped_iram_header 0 0x100000 false) 0 0
      zero_mem).isRunning = true ∧
    segment_copies (esp_app_image_load esp32 (sample_world wrapped_iram_header 0 0x100000 false)
      0 0 zero_mem).state.trace = [.memcpy 0x3FFB0000 0x20] ∧
    zero_mem 0x3FFB0000 = 0 ∧
    (esp_app_image_load esp32 (sample_world wrapped_iram_header 0 0x100000 false) 0 0
      zero_mem).state.mem 0x3FFB0000 = 35 ∧
    jumps (esp_app_image_load esp32 (sample_world wrapped_iram_header 0 0x100000 false) 0 0
      zero_mem).state.trace = [0x40080100] := by
  decide

/-- C3 as stated fails.  In `top_of_iram_header` the magic is correct, the IRAM range
`0x4009FFC0 .. 0x400A0000` is inside the IRAM window, the DRAM range is inside the DRAM
window, the two ranges are disjoint, the entry address is in IRAM and both segments can be
mapped; `esp_app_image_load` ends in `FIH_PANIC` without a copy or a jump, because
`iram_dest_addr + iram_size` is the first address after IRAM. -/
theorem top_of_iram_image_is_rejected :
    (read_load_header (sample_world top_of_iram_header 0 0x100000 false) 0 0 zero_mem).2.1
      = top_of_iram_header ∧
    top_of_iram_header.header_magic = esp32.ESP_LOAD_HEADER_MAGIC ∧
    (esp32.SOC_IRAM_LOW ≤ top_of_iram_header.iram_dest_addr ∧
      top_of_iram_header.iram_dest_addr + top_of_iram_header.iram_size ≤ esp32.SOC_IRAM_HIGH) ∧
    (esp32.SOC_DRAM_LOW ≤ top_of_iram_header.dram_dest_addr ∧
      top_of_iram_header.dram_dest_addr + top_of_iram_header.dram_size ≤ esp32.SOC_DRAM_HIGH) ∧
    top_of_iram_header.dram_dest_addr + top_of_iram_header.dram_size
      ≤ top_of_iram_header.iram_dest_addr ∧
    esp_ptr_in_iram esp32 top_of_iram_header.entry_addr = true ∧
    (sample_world top_of_iram_header 0 0x100000 false).bootloader_mmap
      ((0x10000 + top_of_iram_header.dram_flash_offset) % U32) top_of_iram_header.dram_size
      = true ∧
    (sample_world top_of_iram_header 0 0x100000 false).bootloader_mmap
      ((0x10000 + top_of_iram_header.iram_flash_offset) % U32) top_of_iram_header.iram_size
      = true ∧
    (esp_app_image_load esp32 (sample_world top_of_iram_header 0 0x100000 false) 0 0
      zero_mem).isPanic = true ∧
    segment_copies (esp_app_image_load esp32 (sample_world top_of_iram_header 0 0x100000 false)
      0 0 zero_mem).state.trace = [] ∧
    jumps (esp_app_image_load esp32 (sample_world top_of_iram_header 0 0x100000 false) 0 0
      zero_mem).state.trace = [] := by
  decide

/-- C3, amended.  Let the load header have the correct magic, an IRAM range that starts in
the IRAM window and ends strictly below its top (`iram_dest_addr + iram_size <
SOC_IRAM_HIGH`), a DRAM range that starts in the DRAM window and ends strictly below its
top, the two ranges being disjoint, an entry address in IRAM, and two segments that can be
mapped.  Then `esp_app_image_load` transfers control to `entry_addr` from a state in which
the `dram_size` bytes at `dram_dest_addr` are the flash bytes at
`fa_off + dram_flash_offset` and the `iram_size` bytes at `iram_dest_addr` are the flash
bytes at `fa_off + iram_flash_offset`, and that transfer is the only one of the run. -/
theorem valid_image_is_loaded (P : Platform) (w : World) (slot : Int) (hdr_offset : Nat)
    (mem0 : Mem) (fap : flash_area) (h : esp_image_load_header_t) (s0 : State)
    (hread : read_load_header w slot hdr_offset mem0 = (fap, h, s0))
    (hwin : P.SOC_IRAM_HIGH ≤ U32 ∧ P.SOC_DRAM_HIGH ≤ U32)
    (hmagic : h.header_magic = P.ESP_LOAD_HEADER_MAGIC)
    (hiram : P.SOC_IRAM_LOW ≤ h.iram_dest_addr ∧
      h.iram_dest_addr + h.iram_size < P.SOC_IRAM_HIGH)
    (hdram : P.SOC_DRAM_LOW ≤ h.dram_dest_addr ∧
      h.dram_dest_addr + h.dram_size < P.SOC_DRAM_HIGH)
    (hdisj : h.dram_dest_addr + h.dram_size ≤ h.iram_dest_addr ∨
      h.iram_dest_addr + h.iram_size ≤ h.dram_dest_addr)
    (hentry : esp_ptr_in_iram P h.entry_addr = true)
    (hmap_d : w.bootloader_mmap ((fap.fa_off + h.dram_flash_offset) % U32) h.dram_size = true)
    (hmap_i : w.bootloader_mmap ((fap.fa_off + h.iram_flash_offset) % U32) h.iram_size = true) :
    ∃ s, esp_app_image_load P w slot hdr_offset mem0 = jump_to_entry w h.entry_addr s ∧
      (∀ i, i < h.dram_size →
        s.mem (h.dram_dest_addr + i) = w.flash ((fap.fa_off + h.dram_flash_offset) % U32 + i)) ∧
      (∀ i, i < h.iram_size →
        s.mem (h.iram_dest_addr + i) = w.flash ((fap.fa_off + h.iram_flash_offset) % U32 + i)) ∧
      jumps s.trace = [] ∧
      jumps (esp_app_image_load P w slot hdr_offset mem0).state.trace = [h.entry_addr] := by
  have hfap : (read_load_header w slot hdr_offset mem0).1 = fap := by rw [hread]
  have hh : (read_load_header w slot hdr_offset mem0).2.1 = h := by rw [hread]
  have hs0 : (read_load_header w slot hdr_offset mem0).2.2 = s0 := by rw [hread]
  have hacc : header_checks_pass P (read_load_header w slot hdr_offset mem0).2.1 = true := by
    rw [hh]
    have e1 : (h.iram_dest_addr + h.iram_size) % U32 = h.iram_dest_addr + h.iram_size :=
      Nat.mod_eq_of_lt (by omega)
    have e2 : (h.dram_dest_addr + h.dram_size) % U32 = h.dram_dest_addr + h.dram_size :=
      Nat.mod_eq_of_lt (by omega)
    simp only [header_checks_pass, esp_ptr_in_iram, esp_ptr_in_dram, e1, e2, Bool.and_eq_true,
      decide_eq_true_eq]
    simp only [esp_ptr_in_iram, decide_eq_true_eq] at hentry
    omega
  have hload := accepted_loads P w slot hdr_offset mem0 hacc
  have hj := accepted_jumps P w slot hdr_offset mem0 hacc
  rw [hfap, hh, hs0] at hload
  rw [hh] at hj
  obtain ⟨_, hd_mem, _⟩ := load_segment_mapped w fap h.dram_flash_offset h.dram_size
    h.dram_dest_addr (s0.emit .log_inf) hmap_d
  obtain ⟨_, hi_mem, _⟩ := load_segment_mapped w fap h.iram_flash_offset h.iram_size
    h.iram_dest_addr ((load_segment w fap h.dram_flash_offset h.dram_size h.dram_dest_addr
      (s0.emit .log_inf)).2.emit .log_inf) hmap_i
  refine ⟨_, hload, ?_, ?_, ?_, hj⟩
  · intro i hi
    rw [hi_mem]
    rw [memcpy_outside _ _ _ _ _ (by omega) (by omega)]
    show (load_segment w fap h.dram_flash_offset h.dram_size h.dram_dest_addr
      (s0.emit .log_inf)).2.mem (h.dram_dest_addr + i) = _
    rw [hd_mem]
    exact memcpy_inside _ _ _ _ _ (by omega) hi
  · intro i hi
    rw [hi_mem]
    exact memcpy_inside _ _ _ _ _ (by omega) hi
  · rw [load_segment_jumps, jumps_log_inf, load_segment_jumps, jumps_log_inf, ← hs0]
    exact (read_load_header_quiet w slot hdr_offset mem0).2.2

/-- C3, amended, at the sample header: the byte at `dram_dest_addr + 1` and the byte at
`iram_dest_addr + 1` are the flash bytes of the two segments. -/
theorem valid_image_is_loaded_witness :
    ∃ s, esp_app_image_load esp32 (sample_world sample_header 0 0x100000 false) 0 0 zero_mem
        = jump_to_entry (sample_world sample_header 0 0x100000 false)
          sample_header.entry_addr s ∧
      (∀ i, i < sample_header.dram_size →
        s.mem (sample_header.dram_dest_addr + i) =
          (sample_world sample_header 0 0x100000 false).flash
            ((0x10000 + sample_header.dram_flash_offset) % U32 + i)) ∧
      (∀ i, i < sample_header.iram_size →
        s.mem (sample_header.iram_dest_addr + i) =
          (sample_world sample_header 0 0x100000 false).flash
            ((0x10000 + sample_header.iram_flash_offset) % U32 + i)) ∧
      jumps s.trace = [] ∧
      jumps (esp_app_image_load esp32 (sample_world sample_header 0 0x100000 false) 0 0
        zero_mem).state.trace = [sample_header.entry_addr] :=
  valid_image_is_loaded esp32 (sample_world sample_header 0 0x100000 false) 0 0 zero_mem
    ⟨1, 0, 0x10000, 0x100000⟩ sample_header
    (read_load_header (sample_world sample_header 0 0x100000 false) 0 0 zero_mem).2.2
    (by
      have h1 : (read_load_header (sample_world sample_header 0 0x100000 false) 0 0
          zero_mem).1 = ⟨1, 0, 0x10000, 0x100000⟩ := by decide
      have h2 : (read_load_header (sample_world sample_header 0 0x100000 false) 0 0
          zero_mem).2.1 = sample_header := by decide
      exact Prod.ext h1 (Prod.ext h2 rfl))
    (by decide) (by decide) (by decide) (by decide) (by decide) (by decide) (by decide)
    (by decide)

/-- C4 as stated fails.  In `stray_entry_header` the IRAM segment is
`0x40080000 .. 0x40080040` and the entry address `0x40080400` is in IRAM but after the end
of that segment; `esp_app_image_load` calls it. -/
theorem entry_outside_iram_segment_is_called :
    (read_load_header (sample_world stray_entry_header 0 0x100000 false) 0 0 zero_mem).2.1
      = stray_entry_header ∧
    ¬ (stray_entry_header.iram_dest_addr ≤ stray_entry_header.entry_addr ∧
      stray_entry_header.entry_addr
        < stray_entry_header.iram_dest_addr + stray_entry_header.iram_size) ∧
    (esp_app_image_load esp32 (sample_world stray_entry_header 0 0x100000 false) 0 0
      zero_mem).isRunning = true ∧
    jumps (esp_app_image_load esp32 (sample_world stray_entry_header 0 0x100000 false) 0 0
      zero_mem).state.trace = [0x40080400] := by
  decide

/-- C4, amended.  For every load header on which `esp_app_image_load` reaches the jump,
the entry address is in the IRAM window (`esp_ptr_in_iram`), and it is the address jumped
to; a header whose entry address is outside the IRAM window ends in `FIH_PANIC`, with the
memory untouched, no segment copied and no jump. -/
theorem entry_is_checked_against_iram_window (P : Platform) (w : World) (slot : Int)
    (hdr_offset : Nat) (mem0 : Mem) :
    (jumps (esp_app_image_load P w slot hdr_offset mem0).state.trace ≠ [] →
      esp_ptr_in_iram P (read_load_header w slot hdr_offset mem0).2.1.entry_addr = true ∧
      jumps (esp_app_image_load P w slot hdr_offset mem0).state.trace =
        [(read_load_header w slot hdr_offset mem0).2.1.entry_addr]) ∧
    (esp_ptr_in_iram P (read_load_header w slot hdr_offset mem0).2.1.entry_addr = false →
      ∃ s, esp_app_image_load P w slot hdr_offset mem0 = .panic s ∧ s.mem = mem0 ∧
        segment_copies s.trace = [] ∧ jumps s.trace = []) := by
  constructor
  · intro hj
    cases hacc : header_checks_pass P (read_load_header w slot hdr_offset mem0).2.1 with
    | false =>
      obtain ⟨s, hs, _, _, _, h4⟩ := rejected_panics_untouched P w slot hdr_offset mem0 hacc
      rw [hs] at hj
      exact absurd h4 hj
    | true =>
      refine ⟨?_, accepted_jumps P w slot hdr_offset mem0 hacc⟩
      simp only [header_checks_pass, Bool.and_eq_true] at hacc
      exact hacc.2
  · intro he
    obtain ⟨s, hs, h1, h2, _, h4⟩ := rejected_panics_untouched P w slot hdr_offset mem0
      (by simp [header_checks_pass, he])
    exact ⟨s, hs, h1, h2, h4⟩

/-- C4, amended, at two headers: the sample header, which is jumped to, and a header whose
entry address lies in DRAM, which is rejected. -/
theorem entry_is_checked_against_iram_window_witness :
    (esp_ptr_in_iram esp32 (read_load_header (sample_world sample_header 0 0x100000 false) 0 0
        zero_mem).2.1.entry_addr = true ∧
      jumps (esp_app_image_load esp32 (sample_world sample_header 0 0x100000 false) 0 0
        zero_mem).state.trace =
        [(read_load_header (sample_world sample_header 0 0x100000 false) 0 0
          zero_mem).2.1.entry_addr]) ∧
    (∃ s, esp_app_image_load esp32 (sample_world entry_in_dram_header 0 0x100000 false) 0 0
        zero_mem = .panic s ∧ s.mem = zero_mem ∧
        segment_copies s.trace = [] ∧ jumps s.trace = []) :=
  ⟨(entry_is_checked_against_iram_window esp32 (sample_world sample_header 0 0x100000 false)
      0 0 zero_mem).1 (by decide),
    (entry_is_checked_against_iram_window esp32
      (sample_world entry_in_dram_header 0 0x100000 false) 0 0 zero_mem).2 (by decide)⟩

/-- C5, the failing input.  `flash_area_open` returns `-1`; `esp_app_image_load` logs the
failure and goes on: it reads a header through `fap`, copies both segments and transfers
control to the entry address. -/
theorem failed_open_is_ignored :
    ((sample_world sample_header (-1) 0x100000 false).flash_area_open
      ((sample_world sample_header (-1) 0x100000 false).flash_area_id_from_image_slot 0)).1
      = -1 ∧
    (esp_app_image_load esp32 (sample_world sample_header (-1) 0x100000 false) 0 0
      zero_mem).state.trace.take 2
      = [.flash_area_open 1 (-1), .log_err .flash_area_open_failed] ∧
    header_reads (esp_app_image_load esp32 (sample_world sample_header (-1) 0x100000 false) 0 0
      zero_mem).state.trace = [.read_header] ∧
    segment_copies (esp_app_image_load esp32 (sample_world sample_header (-1) 0x100000 false)
      0 0 zero_mem).state.trace = [.memcpy 0x3FFB0000 0x20, .memcpy 0x40080000 0x40] ∧
    jumps (esp_app_image_load esp32 (sample_world sample_header (-1) 0x100000 false) 0 0
      zero_mem).state.trace = [0x40080010] ∧
    (esp_app_image_load esp32 (sample_world sample_header (-1) 0x100000 false) 0 0
      zero_mem).isRunning = true := by
  decide

/-- C6 as stated fails.  The slot is `0x100000` bytes long and the DRAM segment of
`beyond_slot_header` occupies the slot offsets `0xFFFF0 .. 0x100010`; both segments are
copied and control is transferred to the entry address. -/
theorem segment_beyond_slot_is_loaded :
    (read_load_header (sample_world beyond_slot_header 0 0x100000 false) 0 0 zero_mem).2.1
      = beyond_slot_header ∧
    (read_load_header (sample_world beyond_slot_header 0 0x100000 false) 0 0
      zero_mem).1.fa_size = 0x100000 ∧
    beyond_slot_header.dram_flash_offset + beyond_slot_header.dram_size > 0x100000 ∧
    segment_copies (esp_app_image_load esp32 (sample_world beyond_slot_header 0 0x100000 false)
      0 0 zero_mem).state.trace = [.memcpy 0x3FFB0000 0x20, .memcpy 0x40080000 0x40] ∧
    jumps (esp_app_image_load esp32 (sample_world beyond_slot_header 0 0x100000 false) 0 0
      zero_mem).state.trace = [0x40080010] ∧
    (esp_app_image_load esp32 (sample_world beyond_slot_header 0 0x100000 false) 0 0
      zero_mem).isRunning = true := by
  decide

/-- C6, amended.  `esp_app_image_load` does not compare the source bounds of a segment
with the length of the slot: whatever length `n` the flash area has, the run is the same
(same outcome, same memory, same calls), and a header that passes the four checks is
jumped to. -/
theorem load_ignores_fa_size (P : Platform) (w : World) (n : Nat) (slot : Int)
    (hdr_offset : Nat) (mem0 : Mem) :
    esp_app_image_load P (w.with_fa_size n) slot hdr_offset mem0 =
      esp_app_image_load P w slot hdr_offset mem0 ∧
    (header_checks_pass P (read_load_header w slot hdr_offset mem0).2.1 = true →
      jumps (esp_app_image_load P (w.with_fa_size n) slot hdr_offset mem0).state.trace =
        [(read_load_header w slot hdr_offset mem0).2.1.entry_addr]) := by
  have heq : esp_app_image_load P (w.with_fa_size n) slot hdr_offset mem0 =
      esp_app_image_load P w slot hdr_offset mem0 := rfl
  refine ⟨heq, fun hacc => ?_⟩
  rw [heq]
  exact accepted_jumps P w slot hdr_offset mem0 hacc

/-- C6, amended, at a slot of length `0`: the sample image is loaded all the same. -/
theorem load_ignores_fa_size_witness :
    jumps (esp_app_image_load esp32
      ((sample_world sample_header 0 0x100000 false).with_fa_size 0) 0 0 zero_mem).state.trace =
      [(read_load_header (sample_world sample_header 0 0x100000 false) 0 0
        zero_mem).2.1.entry_addr] :=
  (load_ignores_fa_size esp32 (sample_world sample_header 0 0x100000 false) 0 0 0 zero_mem).2
    (by decide)

/-- C7, the failing input.  The DRAM range of `wrapped_dram_header` starts at `0x3FFB0000`
and is `0xFFFFFFF0` bytes long, so it contains the address `0x40080000`, the first of the
IRAM range.  `dram_dest_addr + dram_size` wraps around to `0x3FFAFFF0`, which is in DRAM,
so the header passes the checks: the (unmappable) DRAM segment is skipped, the IRAM segment
is copied (the byte at `0x40080001` changes from `0` to `31`) and the entry is called. -/
theorem overlapping_wrapped_dram_region_is_loaded :
    (read_load_header (sample_world wrapped_dram_header 0 0x100000 false) 0 0 zero_mem).2.1
      = wrapped_dram_header ∧
    (wrapped_dram_header.dram_dest_addr ≤ 0x40080000 ∧
      0x40080000 < wrapped_dram_header.dram_dest_addr + wrapped_dram_header.dram_size ∧
      wrapped_dram_header.iram_dest_addr ≤ 0x40080000 ∧
      0x40080000 < wrapped_dram_header.iram_dest_addr + wrapped_dram_header.iram_size) ∧
    segment_copies (esp_app_image_load esp32 (sample_world wrapped_dram_header 0 0x100000 false)
      0 0 zero_mem).state.trace = [.memcpy 0x40080000 0x40] ∧
    zero_mem 0x40080001 = 0 ∧
    (esp_app_image_load esp32 (sample_world wrapped_dram_header 0 0x100000 false) 0 0
      zero_mem).state.mem 0x40080001 = 31 ∧
    jumps (esp_app_image_load esp32 (sample_world wrapped_dram_header 0 0x100000 false) 0 0
      zero_mem).state.trace = [0x40080010] ∧
    (esp_app_image_load esp32 (sample_world wrapped_dram_header 0 0x100000 false) 0 0
      zero_mem).isRunning = true := by
  decide

/-- Without the wrap-around the window checks keep the two destination ranges apart.  When
the IRAM and DRAM address windows are disjoint, every load header whose two destination
ranges end below `2^32` (no wrap-around in `dest_addr + size`) and overlap is rejected
before any copy: `esp_app_image_load` ends in `FIH_PANIC` with the memory untouched, no
segment copied and no jump. -/
theorem overlap_without_wraparound_is_rejected (P : Platform) (w : World) (slot : Int)
    (hdr_offset : Nat) (mem0 : Mem) (h : esp_image_load_header_t)
    (hh : (read_load_header w slot hdr_offset mem0).2.1 = h)
    (hwin : P.SOC_IRAM_HIGH ≤ P.SOC_DRAM_LOW ∨ P.SOC_DRAM_HIGH ≤ P.SOC_IRAM_LOW)
    (hi : h.iram_dest_addr + h.iram_size < U32) (hd : h.dram_dest_addr + h.dram_size < U32)
    (a : Nat)
    (had : h.dram_dest_addr ≤ a ∧ a < h.dram_dest_addr + h.dram_size)
    (hai : h.iram_dest_addr ≤ a ∧ a < h.iram_dest_addr + h.iram_size) :
    ∃ s, esp_app_image_load P w slot hdr_offset mem0 = .panic s ∧ s.mem = mem0 ∧
      segment_copies s.trace = [] ∧ jumps s.trace = [] := by
  cases hacc : header_checks_pass P h with
  | false =>
    rw [← hh] at hacc
    obtain ⟨s, hs, h1, h2, _, h4⟩ := rejected_panics_untouched P w slot hdr_offset mem0 hacc
    exact ⟨s, hs, h1, h2, h4⟩
  | true =>
    exfalso
    have hb := checks_pass_bounds P h hacc hi hd
    omega

/-- The rejection of overlapping ranges at a header whose DRAM segment is placed at the
start of the IRAM segment. -/
theorem overlap_without_wraparound_is_rejected_witness :
    ∃ s, esp_app_image_load esp32 (sample_world dram_over_iram_header 0 0x100000 false) 0 0
        zero_mem = .panic s ∧ s.mem = zero_mem ∧
      segment_copies s.trace = [] ∧ jumps s.trace = [] :=
  overlap_without_wraparound_is_rejected esp32
    (sample_world dram_over_iram_header 0 0x100000 false) 0 0 zero_mem dram_over_iram_header
    (by decide) (by decide) (by decide) (by decide) 0x40080000 (by decide) (by decide)

/-- C8. For every input, `esp_app_image_load` does not return to its caller.  Either it
ends in `FIH_PANIC`, or control was transferred to the entry address of the load header,
once, and the call of the entry never returned.  In a world where the call of an entry
always returns, every run ends in `FIH_PANIC`. -/
theorem never_completes_normally (P : Platform) (w : World) (slot : Int) (hdr_offset : Nat)
    (mem0 : Mem) :
    (esp_app_image_load P w slot hdr_offset mem0).isReturned = false ∧
    ((esp_app_image_load P w slot hdr_offset mem0).isPanic = true ∨
      ((esp_app_image_load P w slot hdr_offset mem0).isRunning = true ∧
        jumps (esp_app_image_load P w slot hdr_offset mem0).state.trace =
          [(read_load_header w slot hdr_offset mem0).2.1.entry_addr] ∧
        w.entry (read_load_header w slot hdr_offset mem0).2.1.entry_addr
          (esp_app_image_load P w slot hdr_offset mem0).state.mem = none)) ∧
    ((∀ a m, (w.entry a m).isSome = true) →
      (esp_app_image_load P w slot hdr_offset mem0).isPanic = true) := by
  cases hacc : header_checks_pass P (read_load_header w slot hdr_offset mem0).2.1 with
  | false =>
    obtain ⟨s, hs, _⟩ := rejected_panics_untouched P w slot hdr_offset mem0 hacc
    rw [hs]
    simp [Result.isReturned, Result.isPanic]
  | true =>
    have hj := accepted_jumps P w slot hdr_offset mem0 hacc
    rw [accepted_loads P w slot hdr_offset mem0 hacc] at hj ⊢
    obtain ⟨h1, h2, h3⟩ := jump_to_entry_outcome w
      (read_load_header w slot hdr_offset mem0).2.1.entry_addr
      ((load_segment w (read_load_header w slot hdr_offset mem0).1
          (read_load_header w slot hdr_offset mem0).2.1.iram_flash_offset
          (read_load_header w slot hdr_offset mem0).2.1.iram_size
          (read_load_header w slot hdr_offset mem0).2.1.iram_dest_addr
          (((load_segment w (read_load_header w slot hdr_offset mem0).1
            (read_load_header w slot hdr_offset mem0).2.1.dram_flash_offset
            (read_load_header w slot hdr_offset mem0).2.1.dram_size
            (read_load_header w slot hdr_offset mem0).2.1.dram_dest_addr
            ((read_load_header w slot hdr_offset mem0).2.2.emit .log_inf)).2).emit
              .log_inf)).2)
    refine ⟨h1, ?_, fun hall => h3 (hall _ _)⟩
    rcases h2 with h2 | ⟨h2, h2'⟩
    · exact Or.inl h2
    · exact Or.inr ⟨h2, hj, h2'⟩

/-- C8, at the sample header in a world where the application returns: the run ends in
`FIH_PANIC`, after the jump. -/
theorem never_completes_normally_witness :
    (esp_app_image_load esp32 (sample_world sample_header 0 0x100000 true) 0 0
      zero_mem).isPanic = true :=
  (never_completes_normally esp32 (sample_world sample_header 0 0x100000 true) 0 0
    zero_mem).2.2 (by intro a m; rfl)

/-- C9, the failing input.  The header passes every check, the DRAM segment is mapped and
copied, the mapping of the IRAM segment fails: `load_segment` logs the failure and returns
`-1`, `esp_app_image_load` drops the return value and transfers control to the entry
address, although no IRAM segment was copied. -/
theorem mmap_failure_is_ignored :
    header_checks_pass esp32
      (read_load_header (sample_world sample_header 0 0x20 false) 0 0 zero_mem).2.1 = true ∧
    (sample_world sample_header 0 0x20 false).bootloader_mmap
      ((0x10000 + sample_header.iram_flash_offset) % U32) sample_header.iram_size = false ∧
    (load_segment (sample_world sample_header 0 0x20 false) ⟨1, 0, 0x10000, 0x100000⟩
      sample_header.iram_flash_offset sample_header.iram_size sample_header.iram_dest_addr
      ⟨zero_mem, []⟩).1 = -1 ∧
    segment_copies (esp_app_image_load esp32 (sample_world sample_header 0 0x20 false) 0 0
      zero_mem).state.trace = [.memcpy 0x3FFB0000 0x20] ∧
    (esp_app_image_load esp32 (sample_world sample_header 0 0x20 false) 0 0
      zero_mem).state.mem 0x40080010 = 0 ∧
    jumps (esp_app_image_load esp32 (sample_world sample_header 0 0x20 false) 0 0
      zero_mem).state.trace = [0x40080010] ∧
    (esp_app_image_load esp32 (sample_world sample_header 0 0x20 false) 0 0
      zero_mem).isRunning = true := by
  decide

end EspLoader

/-! # Theorems about `bootloader_init.c` -/

namespace BootloaderInit

theorem bootloader_ana_reset_config_marks (s : BootState) :
    steps (bootloader_ana_reset_config s).trace = steps s.trace ∧
    returns (bootloader_ana_reset_config s).trace = returns s.trace := by
  simp [bootloader_ana_reset_config, BootState.emit, steps, returns, List.filterMap_append]

theorem bootloader_super_wdt_auto_feed_marks (C : Config) (s : BootState) :
    steps (bootloader_super_wdt_auto_feed C s).trace = steps s.trace ∧
    returns (bootloader_super_wdt_auto_feed C s).trace = returns s.trace := by
  simp [bootloader_super_wdt_auto_feed, REG_WRITE, REG_SET_BIT, steps, returns,
    List.filterMap_append]

theorem bootloader_clear_bss_section_marks (s : BootState) :
    steps (bootloader_clear_bss_section s).trace = steps s.trace ∧
    returns (bootloader_clear_bss_section s).trace = returns s.trace := by
  simp [bootloader_clear_bss_section, BootState.emit, steps, returns, List.filterMap_append]

theorem bootloader_reset_mmu_marks (C : Config) (s : BootState) :
    steps (bootloader_reset_mmu C s).trace = steps s.trace ∧
    returns (bootloader_reset_mmu C s).trace = returns s.trace := by
  simp [bootloader_reset_mmu, REG_CLR_BIT, BootState.emit, steps, returns, List.filterMap_append]

theorem bootloader_init_uart_console_marks (C : Config) (s : BootState) :
    steps (bootloader_init_uart_console C s).trace = steps s.trace ∧
    returns (bootloader_init_uart_console C s).trace = returns s.trace := by
  simp [bootloader_init_uart_console, BootState.emit, steps, returns, List.filterMap_append]

theorem bootloader_read_bootloader_header_marks (w : BootWorld) (s : BootState) :
    steps (bootloader_read_bootloader_header w s).2.trace = steps s.trace ∧
    returns (bootloader_read_bootloader_header w s).2.trace = returns s.trace := by
  unfold bootloader_read_bootloader_header
  by_cases h : w.bootloader_flash_read = ESP_OK <;>
  simp [h, BootState.emit, steps, returns, List.filterMap_append]

theorem bootloader_read_bootloader_header_ret (w : BootWorld) (s : BootState) :
    (bootloader_read_bootloader_header w s).1 =
      if w.bootloader_flash_read = ESP_OK then ESP_OK else ESP_FAIL := by
  unfold bootloader_read_bootloader_header
  by_cases h : w.bootloader_flash_read = ESP_OK <;> simp [h]

theorem bootloader_init_spi_flash_unlock_marks (C : Config) (w : BootWorld) (s : BootState) :
    (bootloader_init_spi_flash_unlock C w s).1 = ESP_OK ∧
    steps (bootloader_init_spi_flash_unlock C w s).2.trace = steps s.trace ∧
    returns (bootloader_init_spi_flash_unlock C w s).2.trace = returns s.trace := by
  simp [bootloader_init_spi_flash_unlock, update_flash_config, BootState.emit, steps, returns,
    List.filterMap_append]

theorem bootloader_init_spi_flash_marks (C : Config) (w : BootWorld) (s : BootState) :
    ((bootloader_init_spi_flash C w s).1 = ESP_OK ∨
      (bootloader_init_spi_flash C w s).1 = ESP_FAIL) ∧
    steps (bootloader_init_spi_flash C w s).2.trace = steps s.trace ∧
    returns (bootloader_init_spi_flash C w s).2.trace = returns s.trace := by
  unfold bootloader_init_spi_flash
  dsimp only
  split_ifs with h1 h2
  · obtain ⟨a, b, c⟩ := bootloader_init_spi_flash_unlock_marks C w
      (bootloader_init_flash_configure s)
    refine ⟨Or.inl a, ?_, ?_⟩
    · rw [b]; simp [bootloader_init_flash_configure, BootState.emit, steps, List.filterMap_append]
    · rw [c]; simp [bootloader_init_flash_configure, BootState.emit, returns, List.filterMap_append]
  · simp [bootloader_init_flash_configure, BootState.emit, steps, returns, List.filterMap_append]
  · obtain ⟨a, b, c⟩ := bootloader_init_spi_flash_unlock_marks C w
      ((bootloader_init_flash_configure s).emit .esp_rom_efuse_get_flash_gpio_info)
    refine ⟨Or.inl a, ?_, ?_⟩
    · rw [b]; simp [bootloader_init_flash_configure, BootState.emit, steps, List.filterMap_append]
    · rw [c]; simp [bootloader_init_flash_configure, BootState.emit, returns, List.filterMap_append]

theorem wdt_reset_cpu0_info_enable_marks (C : Config) (s : BootState) :
    steps (wdt_reset_cpu0_info_enable C s).trace = steps s.trace ∧
    returns (wdt_reset_cpu0_info_enable C s).trace = returns s.trace := by
  simp [wdt_reset_cpu0_info_enable, REG_WRITE, REG_SET_BIT, REG_CLR_BIT, steps, returns,
    List.filterMap_append]

theorem bootloader_check_wdt_reset_marks (C : Config) (w : BootWorld) (s : BootState) :
    steps (bootloader_check_wdt_reset C w s).trace = steps s.trace ∧
    returns (bootloader_check_wdt_reset C w s).trace = returns s.trace := by
  unfold bootloader_check_wdt_reset
  dsimp only
  rw [(wdt_reset_cpu0_info_enable_marks C _).1, (wdt_reset_cpu0_info_enable_marks C _).2]
  split_ifs <;>
  simp [wdt_reset_info_dump, BootState.emit, steps, returns, List.filterMap_append]

theorem bootloader_config_wdt_marks (C : Config) (w : BootWorld) (s : BootState) :
    steps (bootloader_config_wdt C w s).trace = steps s.trace ∧
    returns (bootloader_config_wdt C w s).trace = returns s.trace := by
  unfold bootloader_config_wdt
  dsimp only
  split_ifs <;>
  simp [BootState.emit, steps, returns, List.filterMap_append]

theorem bootloader_init_spi_flash_ret (C : Config) (w : BootWorld) (s : BootState) :
    (bootloader_init_spi_flash C w s).1 =
      if C.CONFIG_SPI_FLASH_ROM_DRIVER_PATCH = false ∧
          w.esp_rom_efuse_get_flash_gpio_info ≠ C.ESP_ROM_EFUSE_FLASH_DEFAULT_SPI ∧
          w.esp_rom_efuse_get_flash_gpio_info ≠ C.ESP_ROM_EFUSE_FLASH_DEFAULT_HSPI
      then ESP_FAIL else ESP_OK := by
  unfold bootloader_init_spi_flash
  dsimp only
  split_ifs with h1 h2 h3 h4 h5 <;>
    first
      | rfl
      | exact (bootloader_init_spi_flash_unlock_marks C w _).1
      | (exfalso; simp_all)

theorem emit_step_marks (s : BootState) (f : Step) :
    steps (s.emit (.step f)).trace = steps s.trace ++ [f] ∧
    returns (s.emit (.step f)).trace = returns s.trace := by
  simp [BootState.emit, steps, returns, List.filterMap_append]

theorem emit_ret_marks (s : BootState) (f : Step) (c : esp_err_t) :
    steps (s.emit (.ret f c)).trace = steps s.trace ∧
    returns (s.emit (.ret f c)).trace = returns s.trace ++ [(f, c)] ∧
    (s.emit (.ret f c)).trace.getLast? = some (.ret f c) := by
  simp [BootState.emit, steps, returns, List.filterMap_append]

theorem reset_state_marks (regs : Reg → Nat) :
    steps (reset_state regs).trace = [] ∧ returns (reset_state regs).trace = [] := by
  simp [reset_state, steps, returns]

/-- The four ways a run of `bootloader_init` from reset can go: the XMC startup fails, the
header read fails, the SPI flash initialisation fails, or all twelve steps are done. -/
theorem bootloader_init_run (C : Config) (w : BootWorld) (regs : Reg → Nat) :
    (w.bootloader_flash_xmc_startup ≠ ESP_OK ∧
      (bootloader_init C w (reset_state regs)).1 = w.bootloader_flash_xmc_startup ∧
      steps (bootloader_init C w (reset_state regs)).2.trace =
        [.bootloader_ana_reset_config, .bootloader_super_wdt_auto_feed, .bootloader_init_mem,
         .bootloader_clear_bss_section, .bootloader_reset_mmu, .bootloader_clock_configure,
         .bootloader_init_uart_console, .bootloader_flash_xmc_startup] ∧
      returns (bootloader_init C w (reset_state regs)).2.trace =
        [(.bootloader_flash_xmc_startup, w.bootloader_flash_xmc_startup)] ∧
      (bootloader_init C w (reset_state regs)).2.trace.getLast? =
        some (.ret .bootloader_flash_xmc_startup w.bootloader_flash_xmc_startup)) ∨
    ((bootloader_init C w (reset_state regs)).1 = ESP_FAIL ∧
      steps (bootloader_init C w (reset_state regs)).2.trace =
        [.bootloader_ana_reset_config, .bootloader_super_wdt_auto_feed, .bootloader_init_mem,
         .bootloader_clear_bss_section, .bootloader_reset_mmu, .bootloader_clock_configure,
         .bootloader_init_uart_console, .bootloader_flash_xmc_startup,
         .bootloader_read_bootloader_header] ∧
      returns (bootloader_init C w (reset_state regs)).2.trace =
        [(.bootloader_flash_xmc_startup, ESP_OK),
         (.bootloader_read_bootloader_header, ESP_FAIL)] ∧
      (bootloader_init C w (reset_state regs)).2.trace.getLast? =
        some (.ret .bootloader_read_bootloader_header ESP_FAIL)) ∨
    ((bootloader_init C w (reset_state regs)).1 = ESP_FAIL ∧
      steps (bootloader_init C w (reset_state regs)).2.trace =
        [.bootloader_ana_reset_config, .bootloader_super_wdt_auto_feed, .bootloader_init_mem,
         .bootloader_clear_bss_section, .bootloader_reset_mmu, .bootloader_clock_configure,
         .bootloader_init_uart_console, .bootloader_flash_xmc_startup,
         .bootloader_read_bootloader_header, .bootloader_init_spi_flash] ∧
      returns (bootloader_init C w (reset_state regs)).2.trace =
        [(.bootloader_flash_xmc_startup, ESP_OK), (.bootloader_read_bootloader_header, ESP_OK),
         (.bootloader_init_spi_flash, ESP_FAIL)] ∧
      (bootloader_init C w (reset_state regs)).2.trace.getLast? =
        some (.ret .bootloader_init_spi_flash ESP_FAIL)) ∨
    ((bootloader_init C w (reset_state regs)).1 = ESP_OK ∧
      steps (bootloader_init C w (reset_state regs)).2.trace =
        [.bootloader_ana_reset_config, .bootloader_super_wdt_auto_feed, .bootloader_init_mem,
         .bootloader_clear_bss_section, .bootloader_reset_mmu, .bootloader_clock_configure,
         .bootloader_init_uart_console, .bootloader_flash_xmc_startup,
         .bootloader_read_bootloader_header, .bootloader_init_spi_flash,
         .bootloader_check_wdt_reset, .bootloader_config_wdt] ∧
      returns (bootloader_init C w (reset_state regs)).2.trace =
        [(.bootloader_flash_xmc_startup, ESP_OK), (.bootloader_read_bootloader_header, ESP_OK),
         (.bootloader_init_spi_flash, ESP_OK)]) := by
  have hfail : ESP_FAIL ≠ ESP_OK := by decide
  unfold bootloader_init
  simp only [bootloader_read_bootloader_header_ret, bootloader_init_spi_flash_ret]
  by_cases h1 : w.bootloader_flash_xmc_startup = ESP_OK
  · by_cases h2 : w.bootloader_flash_read = ESP_OK
    · by_cases h3 : C.CONFIG_SPI_FLASH_ROM_DRIVER_PATCH = false ∧
          w.esp_rom_efuse_get_flash_gpio_info ≠ C.ESP_ROM_EFUSE_FLASH_DEFAULT_SPI ∧
          w.esp_rom_efuse_get_flash_gpio_info ≠ C.ESP_ROM_EFUSE_FLASH_DEFAULT_HSPI
      · right; right; left
        simp only [h1, h2, h3, hfail, ne_eq, not_true_eq_false, not_false_eq_true, if_true,
          if_false, and_self, true_and,
          (emit_ret_marks _ _ _).1, (emit_ret_marks _ _ _).2.1, (emit_ret_marks _ _ _).2.2,
          (emit_step_marks _ _).1, (emit_step_marks _ _).2,
          (bootloader_init_spi_flash_marks _ _ _).2.1, (bootloader_init_spi_flash_marks _ _ _).2.2,
          (bootloader_read_bootloader_header_marks _ _).1,
          (bootloader_read_bootloader_header_marks _ _).2,
          (bootloader_init_uart_console_marks _ _).1, (bootloader_init_uart_console_marks _ _).2,
          (bootloader_reset_mmu_marks _ _).1, (bootloader_reset_mmu_marks _ _).2,
          (bootloader_clear_bss_section_marks _).1, (bootloader_clear_bss_section_marks _).2,
          (bootloader_super_wdt_auto_feed_marks _ _).1,
          (bootloader_super_wdt_auto_feed_marks _ _).2,
          (bootloader_ana_reset_config_marks _).1, (bootloader_ana_reset_config_marks _).2,
          (reset_state_marks _).1, (reset_state_marks _).2, List.nil_append, List.cons_append]
      · right; right; right
        simp only [h1, h2, h3, hfail, ne_eq, not_true_eq_false, not_false_eq_true, if_true,
          if_false, and_self, true_and,
          (emit_ret_marks _ _ _).1, (emit_ret_marks _ _ _).2.1, (emit_ret_marks _ _ _).2.2,
          (emit_step_marks _ _).1, (emit_step_marks _ _).2,
          (bootloader_config_wdt_marks _ _ _).1, (bootloader_config_wdt_marks _ _ _).2,
          (bootloader_check_wdt_reset_marks _ _ _).1, (bootloader_check_wdt_reset_marks _ _ _).2,
          (bootloader_init_spi_flash_marks _ _ _).2.1, (bootloader_init_spi_flash_marks _ _ _).2.2,
          (bootloader_read_bootloader_header_marks _ _).1,
          (bootloader_read_bootloader_header_marks _ _).2,
          (bootloader_init_uart_console_marks _ _).1, (bootloader_init_uart_console_marks _ _).2,
          (bootloader_reset_mmu_marks _ _).1, (bootloader_reset_mmu_marks _ _).2,
          (bootloader_clear_bss_section_marks _).1, (bootloader_clear_bss_section_marks _).2,
          (bootloader_super_wdt_auto_feed_marks _ _).1,
          (bootloader_super_wdt_auto_feed_marks _ _).2,
          (bootloader_ana_reset_config_marks _).1, (bootloader_ana_reset_config_marks _).2,
          (reset_state_marks _).1, (reset_state_marks _).2, List.nil_append, List.cons_append]
    · right; left
      simp only [h1, h2, hfail, ne_eq, not_true_eq_false, not_false_eq_true, if_true,
        if_false, and_self, true_and,
        (emit_ret_marks _ _ _).1, (emit_ret_marks _ _ _).2.1, (emit_ret_marks _ _ _).2.2,
        (emit_step_marks _ _).1, (emit_step_marks _ _).2,
        (bootloader_read_bootloader_header_marks _ _).1,
        (bootloader_read_bootloader_header_marks _ _).2,
        (bootloader_init_uart_console_marks _ _).1, (bootloader_init_uart_console_marks _ _).2,
        (bootloader_reset_mmu_marks _ _).1, (bootloader_reset_mmu_marks _ _).2,
        (bootloader_clear_bss_section_marks _).1, (bootloader_clear_bss_section_marks _).2,
        (bootloader_super_wdt_auto_feed_marks _ _).1,
        (bootloader_super_wdt_auto_feed_marks _ _).2,
        (bootloader_ana_reset_config_marks _).1, (bootloader_ana_reset_config_marks _).2,
        (reset_state_marks _).1, (reset_state_marks _).2, List.nil_append, List.cons_append]
  · left
    simp only [h1, ne_eq, not_true_eq_false, not_false_eq_true, if_true,
      if_false, and_self, true_and,
      (emit_ret_marks _ _ _).1, (emit_ret_marks _ _ _).2.1, (emit_ret_marks _ _ _).2.2,
      (emit_step_marks _ _).1, (emit_step_marks _ _).2,
      (bootloader_init_uart_console_marks _ _).1, (bootloader_init_uart_console_marks _ _).2,
      (bootloader_reset_mmu_marks _ _).1, (bootloader_reset_mmu_marks _ _).2,
      (bootloader_clear_bss_section_marks _).1, (bootloader_clear_bss_section_marks _).2,
      (bootloader_super_wdt_auto_feed_marks _ _).1,
      (bootloader_super_wdt_auto_feed_marks _ _).2,
      (bootloader_ana_reset_config_marks _).1, (bootloader_ana_reset_config_marks _).2,
      (reset_state_marks _).1, (reset_state_marks _).2, List.nil_append, List.cons_append]

/-- C10. `bootloader_init` stops at the first failing step.  Whenever one of the three
tested steps (`bootloader_flash_xmc_startup`, `bootloader_read_bootloader_header`,
`bootloader_init_spi_flash`) returns a code other than `ESP_OK`, `bootloader_init` returns
that code, the return of that step is the last thing that happened, that step is the last
step entered, and neither `bootloader_check_wdt_reset` nor `bootloader_config_wdt` was
entered.  The tested steps run in their order, each at most once, and `bootloader_init`
returns `ESP_OK` if and only if all three ran and returned `ESP_OK`. -/
theorem bootloader_init_stops_at_first_failure (C : Config) (w : BootWorld) (regs : Reg → Nat) :
    (∀ f code, (f, code) ∈ returns (bootloader_init C w (reset_state regs)).2.trace →
      code ≠ ESP_OK →
        (bootloader_init C w (reset_state regs)).1 = code ∧
        (bootloader_init C w (reset_state regs)).2.trace.getLast? = some (.ret f code) ∧
        (steps (bootloader_init C w (reset_state regs)).2.trace).getLast? = some f ∧
        Step.bootloader_check_wdt_reset ∉
          steps (bootloader_init C w (reset_state regs)).2.trace ∧
        Step.bootloader_config_wdt ∉
          steps (bootloader_init C w (reset_state regs)).2.trace) ∧
    ((returns (bootloader_init C w (reset_state regs)).2.trace).map Prod.fst <+:
      [.bootloader_flash_xmc_startup, .bootloader_read_bootloader_header,
       .bootloader_init_spi_flash]) ∧
    ((bootloader_init C w (reset_state regs)).1 = ESP_OK ↔
      returns (bootloader_init C w (reset_state regs)).2.trace =
        [(.bootloader_flash_xmc_startup, ESP_OK), (.bootloader_read_bootloader_header, ESP_OK),
         (.bootloader_init_spi_flash, ESP_OK)]) := by
  have hfail : ESP_FAIL ≠ ESP_OK := by decide
  rcases bootloader_init_run C w regs with ⟨hx, hr, hs, ht, hl⟩ | ⟨hr, hs, ht, hl⟩ |
    ⟨hr, hs, ht, hl⟩ | ⟨hr, hs, ht⟩
  · rw [hr, hs, ht, hl]
    refine ⟨?_, ?_, ?_⟩
    · intro f code hmem _
      simp only [List.mem_singleton, Prod.mk.injEq] at hmem
      obtain ⟨rfl, rfl⟩ := hmem
      simp
    · simp
    · simp [hx]
  · rw [hr, hs, ht, hl]
    refine ⟨?_, ?_, ?_⟩
    · intro f code hmem hne
      simp only [List.mem_cons, Prod.mk.injEq, List.mem_singleton, List.not_mem_nil,
        or_false] at hmem
      rcases hmem with ⟨rfl, rfl⟩ | ⟨rfl, rfl⟩
      · exact absurd rfl hne
      · simp
    · exact ⟨[.bootloader_init_spi_flash], rfl⟩
    · simp [hfail]
  · rw [hr, hs, ht, hl]
    refine ⟨?_, ?_, ?_⟩
    · intro f code hmem hne
      simp only [List.mem_cons, Prod.mk.injEq, List.mem_singleton, List.not_mem_nil,
        or_false] at hmem
      rcases hmem with ⟨rfl, rfl⟩ | ⟨rfl, rfl⟩ | ⟨rfl, rfl⟩
      · exact absurd rfl hne
      · exact absurd rfl hne
      · simp
    · exact ⟨[], rfl⟩
    · simp [hfail]
  · rw [hr, hs, ht]
    refine ⟨?_, ?_, ?_⟩
    · intro f code hmem hne
      simp only [List.mem_cons, Prod.mk.injEq, List.mem_singleton, List.not_mem_nil,
        or_false] at hmem
      rcases hmem with ⟨rfl, rfl⟩ | ⟨rfl, rfl⟩ | ⟨rfl, rfl⟩ <;> exact absurd rfl hne
    · exact ⟨[], rfl⟩
    · simp

/-- C10, at three runs: the XMC startup returns `0x103`; the header read fails; the flash
pins are overridden in eFuse, so that `bootloader_init_spi_flash` returns `ESP_FAIL`. -/
theorem bootloader_init_stops_at_first_failure_witness :
    ((bootloader_init esp32s3 (boot_world 0x103 0 0) (reset_state fun _ => 0)).1 = 0x103 ∧
      (bootloader_init esp32s3 (boot_world 0x103 0 0) (reset_state fun _ => 0)).2.trace.getLast?
        = some (.ret .bootloader_flash_xmc_startup 0x103) ∧
      (steps (bootloader_init esp32s3 (boot_world 0x103 0 0)
        (reset_state fun _ => 0)).2.trace).getLast? = some .bootloader_flash_xmc_startup ∧
      Step.bootloader_check_wdt_reset ∉
        steps (bootloader_init esp32s3 (boot_world 0x103 0 0) (reset_state fun _ => 0)).2.trace ∧
      Step.bootloader_config_wdt ∉
        steps (bootloader_init esp32s3 (boot_world 0x103 0 0)
          (reset_state fun _ => 0)).2.trace) ∧
    ((bootloader_init esp32s3 (boot_world 0 0x105 0) (reset_state fun _ => 0)).1 = ESP_FAIL ∧
      (bootloader_init esp32s3 (boot_world 0 0x105 0) (reset_state fun _ => 0)).2.trace.getLast?
        = some (.ret .bootloader_read_bootloader_header ESP_FAIL) ∧
      (steps (bootloader_init esp32s3 (boot_world 0 0x105 0)
        (reset_state fun _ => 0)).2.trace).getLast? = some .bootloader_read_bootloader_header ∧
      Step.bootloader_check_wdt_reset ∉
        steps (bootloader_init esp32s3 (boot_world 0 0x105 0) (reset_state fun _ => 0)).2.trace ∧
      Step.bootloader_config_wdt ∉
        steps (bootloader_init esp32s3 (boot_world 0 0x105 0)
          (reset_state fun _ => 0)).2.trace) ∧
    ((bootloader_init esp32s3 (boot_world 0 0 5) (reset_state fun _ => 0)).1 = ESP_FAIL ∧
      (bootloader_init esp32s3 (boot_world 0 0 5) (reset_state fun _ => 0)).2.trace.getLast?
        = some (.ret .bootloader_init_spi_flash ESP_FAIL) ∧
      (steps (bootloader_init esp32s3 (boot_world 0 0 5)
        (reset_state fun _ => 0)).2.trace).getLast? = some .bootloader_init_spi_flash ∧
      Step.bootloader_check_wdt_reset ∉
        steps (bootloader_init esp32s3 (boot_world 0 0 5) (reset_state fun _ => 0)).2.trace ∧
      Step.bootloader_config_wdt ∉
        steps (bootloader_init esp32s3 (boot_world 0 0 5) (reset_state fun _ => 0)).2.trace) ∧
    (bootloader_init esp32s3 (boot_world 0 0 0) (reset_state fun _ => 0)).1 = ESP_OK :=
  ⟨(bootloader_init_stops_at_first_failure esp32s3 (boot_world 0x103 0 0) (fun _ => 0)).1
      .bootloader_flash_xmc_startup 0x103 (by decide) (by decide),
    (bootloader_init_stops_at_first_failure esp32s3 (boot_world 0 0x105 0) (fun _ => 0)).1
      .bootloader_read_bootloader_header ESP_FAIL (by decide) (by decide),
    (bootloader_init_stops_at_first_failure esp32s3 (boot_world 0 0 5) (fun _ => 0)).1
      .bootloader_init_spi_flash ESP_FAIL (by decide) (by decide),
    (bootloader_init_stops_at_first_failure esp32s3 (boot_world 0 0 0) (fun _ => 0)).2.2.2
      (by decide)⟩

theorem emit_extends (s : BootState) (e : BootEvent) : s.trace <+: (s.emit e).trace :=
  List.prefix_append _ _

theorem REG_WRITE_extends (r : Reg) (v : Nat) (s : BootState) :
    s.trace <+: (REG_WRITE r v s).trace :=
  List.prefix_append _ _

theorem REG_SET_BIT_extends (r : Reg) (v : Nat) (s : BootState) :
    s.trace <+: (REG_SET_BIT r v s).trace :=
  List.prefix_append _ _

theorem REG_CLR_BIT_extends (r : Reg) (v : Nat) (s : BootState) :
    s.trace <+: (REG_CLR_BIT r v s).trace :=
  List.prefix_append _ _

theorem bootloader_ana_reset_config_extends (s : BootState) :
    s.trace <+: (bootloader_ana_reset_config s).trace :=
  (emit_extends _ _).trans ((emit_extends _ _).trans (emit_extends _ _))

theorem bootloader_super_wdt_auto_feed_extends (C : Config) (s : BootState) :
    s.trace <+: (bootloader_super_wdt_auto_feed C s).trace :=
  (REG_WRITE_extends _ _ _).trans ((REG_SET_BIT_extends _ _ _).trans (REG_WRITE_extends _ _ _))

theorem bootloader_reset_mmu_extends (C : Config) (s : BootState) :
    s.trace <+: (bootloader_reset_mmu C s).trace :=
  (emit_extends _ _).trans ((emit_extends _ _).trans ((emit_extends _ _).trans
    ((REG_CLR_BIT_extends _ _ _).trans (REG_CLR_BIT_extends _ _ _))))

theorem bootloader_init_uart_console_extends (C : Config) (s : BootState) :
    s.trace <+: (bootloader_init_uart_console C s).trace :=
  (emit_extends _ _).trans ((emit_extends _ _).trans (emit_extends _ _))

theorem bootloader_read_bootloader_header_extends (w : BootWorld) (s : BootState) :
    s.trace <+: (bootloader_read_bootloader_header w s).2.trace := by
  unfold bootloader_read_bootloader_header
  dsimp only
  split_ifs <;> exact emit_extends _ _

theorem bootloader_init_spi_flash_unlock_extends (C : Config) (w : BootWorld) (s : BootState) :
    s.trace <+: (bootloader_init_spi_flash_unlock C w s).2.trace :=
  (emit_extends _ _).trans ((emit_extends _ _).trans ((emit_extends _ _).trans
    ((emit_extends _ _).trans (emit_extends _ _))))

theorem bootloader_init_spi_flash_extends (C : Config) (w : BootWorld) (s : BootState) :
    s.trace <+: (bootloader_init_spi_flash C w s).2.trace := by
  have hc : s.trace <+: (bootloader_init_flash_configure s).trace :=
    (emit_extends _ _).trans (emit_extends _ _)
  unfold bootloader_init_spi_flash
  dsimp only
  split_ifs
  · exact hc.trans (bootloader_init_spi_flash_unlock_extends _ _ _)
  · exact hc.trans ((emit_extends _ _).trans (emit_extends _ _))
  · exact hc.trans ((emit_extends _ _).trans (bootloader_init_spi_flash_unlock_extends _ _ _))

theorem wdt_reset_cpu0_info_enable_extends (C : Config) (s : BootState) :
    s.trace <+: (wdt_reset_cpu0_info_enable C s).trace :=
  (REG_SET_BIT_extends _ _ _).trans ((REG_CLR_BIT_extends _ _ _).trans
    ((REG_WRITE_extends _ _ _).trans (REG_WRITE_extends _ _ _)))

theorem bootloader_check_wdt_reset_extends (C : Config) (w : BootWorld) (s : BootState) :
    s.trace <+: (bootloader_check_wdt_reset C w s).trace := by
  unfold bootloader_check_wdt_reset
  dsimp only
  refine List.IsPrefix.trans ?_ (wdt_reset_cpu0_info_enable_extends _ _)
  split_ifs <;>
  simp only [BootState.emit, wdt_reset_info_dump, List.append_assoc] <;>
  exact List.prefix_append _ _

theorem bootloader_config_wdt_extends (C : Config) (w : BootWorld) (s : BootState) :
    s.trace <+: (bootloader_config_wdt C w s).trace := by
  unfold bootloader_config_wdt
  dsimp only
  split_ifs <;>
  simp only [BootState.emit, List.append_assoc] <;>
  exact List.prefix_append _ _

theorem bootloader_init_extends (C : Config) (w : BootWorld) (s : BootState) :
    (s.emit (.step .bootloader_ana_reset_config)).trace <+: (bootloader_init C w s).2.trace := by
  have h7 : (s.emit (.step .bootloader_ana_reset_config)).trace <+:
      (((bootloader_init_uart_console C
        (((bootloader_reset_mmu C
          ((bootloader_clear_bss_section
            (((bootloader_super_wdt_auto_feed C
              ((bootloader_ana_reset_config
                (s.emit (.step .bootloader_ana_reset_config))).emit
                  (.step .bootloader_super_wdt_auto_feed))).emit
              (.step .bootloader_init_mem)).emit
                (.step .bootloader_clear_bss_section))).emit
            (.step .bootloader_reset_mmu))).emit
          (.step .bootloader_clock_configure)).emit
            (.step .bootloader_init_uart_console))).emit
        (.step .bootloader_flash_xmc_startup)).emit
          (.ret .bootloader_flash_xmc_startup w.bootloader_flash_xmc_startup)).trace :=
    (bootloader_ana_reset_config_extends _).trans <| (emit_extends _ _).trans <|
    (bootloader_super_wdt_auto_feed_extends _ _).trans <| (emit_extends _ _).trans <|
    (emit_extends _ _).trans <| (emit_extends _ _).trans <| (emit_extends _ _).trans <|
    (bootloader_reset_mmu_extends _ _).trans <| (emit_extends _ _).trans <|
    (emit_extends _ _).trans <| (bootloader_init_uart_console_extends _ _).trans <|
    (emit_extends _ _).trans (emit_extends _ _)
  unfold bootloader_init
  dsimp only
  split_ifs
  · exact h7
  · exact h7.trans <| (emit_extends _ _).trans <|
      (bootloader_read_bootloader_header_extends _ _).trans (emit_extends _ _)
  · exact h7.trans <| (emit_extends _ _).trans <|
      (bootloader_read_bootloader_header_extends _ _).trans <| (emit_extends _ _).trans <|
      (emit_extends _ _).trans <| (bootloader_init_spi_flash_extends _ _ _).trans
        (emit_extends _ _)
  · exact h7.trans <| (emit_extends _ _).trans <|
      (bootloader_read_bootloader_header_extends _ _).trans <| (emit_extends _ _).trans <|
      (emit_extends _ _).trans <| (bootloader_init_spi_flash_extends _ _ _).trans <|
      (emit_extends _ _).trans <| (emit_extends _ _).trans <|
      (bootloader_check_wdt_reset_extends _ _ _).trans <| (emit_extends _ _).trans
        (bootloader_config_wdt_extends _ _ _)

theorem bootloader_init_first_event (C : Config) (w : BootWorld) (regs : Reg → Nat) :
    (bootloader_init C w (reset_state regs)).2.trace.head? =
      some (.step .bootloader_ana_reset_config) := by
  obtain ⟨l, hl⟩ := bootloader_init_extends C w (reset_state regs)
  rw [← hl]
  rfl

theorem emit_regs (s : BootState) (e : BootEvent) : (s.emit e).regs = s.regs := rfl

theorem bootloader_super_wdt_auto_feed_swd (C : Config) (s : BootState) :
    (bootloader_super_wdt_auto_feed C s).regs .RTC_CNTL_SWD_CONF_REG =
      s.regs .RTC_CNTL_SWD_CONF_REG ||| C.RTC_CNTL_SWD_AUTO_FEED_EN := by
  simp [bootloader_super_wdt_auto_feed, REG_WRITE, REG_SET_BIT]

theorem bootloader_reset_mmu_swd (C : Config) (s : BootState) :
    (bootloader_reset_mmu C s).regs .RTC_CNTL_SWD_CONF_REG = s.regs .RTC_CNTL_SWD_CONF_REG := by
  simp [bootloader_reset_mmu, REG_CLR_BIT, BootState.emit]

theorem bootloader_read_bootloader_header_regs (w : BootWorld) (s : BootState) :
    (bootloader_read_bootloader_header w s).2.regs = s.regs := by
  unfold bootloader_read_bootloader_header
  dsimp only
  split_ifs <;> simp only [emit_regs]

theorem bootloader_init_spi_flash_regs (C : Config) (w : BootWorld) (s : BootState) :
    (bootloader_init_spi_flash C w s).2.regs = s.regs := by
  unfold bootloader_init_spi_flash
  dsimp only
  split_ifs <;>
  simp only [bootloader_init_spi_flash_unlock, update_flash_config,
    bootloader_init_flash_configure, emit_regs]

theorem bootloader_check_wdt_reset_swd (C : Config) (w : BootWorld) (s : BootState) :
    (bootloader_check_wdt_reset C w s).regs .RTC_CNTL_SWD_CONF_REG =
      s.regs .RTC_CNTL_SWD_CONF_REG := by
  unfold bootloader_check_wdt_reset
  dsimp only
  simp only [wdt_reset_cpu0_info_enable, REG_WRITE, REG_SET_BIT, REG_CLR_BIT, reduceCtorEq,
    if_false]
  split_ifs <;> rfl

theorem bootloader_config_wdt_regs (C : Config) (w : BootWorld) (s : BootState) :
    (bootloader_config_wdt C w s).regs = s.regs := by
  unfold bootloader_config_wdt
  dsimp only
  split_ifs <;> simp only [emit_regs]

theorem bootloader_init_swd (C : Config) (w : BootWorld) (s : BootState) :
    (bootloader_init C w s).2.regs .RTC_CNTL_SWD_CONF_REG =
      s.regs .RTC_CNTL_SWD_CONF_REG ||| C.RTC_CNTL_SWD_AUTO_FEED_EN := by
  have a : ∀ t : BootState, (bootloader_ana_reset_config t).regs = t.regs := fun _ => rfl
  have b : ∀ t : BootState, (bootloader_clear_bss_section t).regs = t.regs := fun _ => rfl
  have u : ∀ t : BootState, (bootloader_init_uart_console C t).regs = t.regs := fun _ => rfl
  unfold bootloader_init
  dsimp only
  split_ifs <;>
  simp only [emit_regs, a, b, u, bootloader_config_wdt_regs, bootloader_check_wdt_reset_swd,
    bootloader_init_spi_flash_regs, bootloader_read_bootloader_header_regs,
    bootloader_reset_mmu_swd, bootloader_super_wdt_auto_feed_swd]

/-- C19.  Every run of `bootloader_init` from reset goes through a prefix of the sequence
`bootloader_ana_reset_config`, `bootloader_super_wdt_auto_feed`, `bootloader_init_mem`,
`bootloader_clear_bss_section`, `bootloader_reset_mmu`, `bootloader_clock_configure`,
`bootloader_init_uart_console`, `bootloader_flash_xmc_startup`,
`bootloader_read_bootloader_header`, `bootloader_init_spi_flash`,
`bootloader_check_wdt_reset`, `bootloader_config_wdt`; the prefix has the first eight of
them at least and all twelve exactly when `bootloader_init` returns `ESP_OK`.  So no step
is entered twice, `bootloader_ana_reset_config` is the first step and comes before every
other one, `bootloader_read_bootloader_header` comes before `bootloader_init_spi_flash`
whenever that one is entered, and `bootloader_check_wdt_reset`, whenever it is entered,
comes after `bootloader_init_spi_flash` and before `bootloader_config_wdt`. -/
theorem bootloader_init_step_order (C : Config) (w : BootWorld) (regs : Reg → Nat) :
    (steps (bootloader_init C w (reset_state regs)).2.trace <+:
      [.bootloader_ana_reset_config, .bootloader_super_wdt_auto_feed, .bootloader_init_mem,
       .bootloader_clear_bss_section, .bootloader_reset_mmu, .bootloader_clock_configure,
       .bootloader_init_uart_console, .bootloader_flash_xmc_startup,
       .bootloader_read_bootloader_header, .bootloader_init_spi_flash,
       .bootloader_check_wdt_reset, .bootloader_config_wdt]) ∧
    ([.bootloader_ana_reset_config, .bootloader_super_wdt_auto_feed, .bootloader_init_mem,
       .bootloader_clear_bss_section, .bootloader_reset_mmu, .bootloader_clock_configure,
       .bootloader_init_uart_console, .bootloader_flash_xmc_startup] <+:
      steps (bootloader_init C w (reset_state regs)).2.trace) ∧
    ((bootloader_init C w (reset_state regs)).1 = ESP_OK ↔
      steps (bootloader_init C w (reset_state regs)).2.trace =
        [.bootloader_ana_reset_config, .bootloader_super_wdt_auto_feed, .bootloader_init_mem,
         .bootloader_clear_bss_section, .bootloader_reset_mmu, .bootloader_clock_configure,
         .bootloader_init_uart_console, .bootloader_flash_xmc_startup,
         .bootloader_read_bootloader_header, .bootloader_init_spi_flash,
         .bootloader_check_wdt_reset, .bootloader_config_wdt]) ∧
    (steps (bootloader_init C w (reset_state regs)).2.trace).Nodup ∧
    (bootloader_init C w (reset_state regs)).2.trace.head? =
      some (.step .bootloader_ana_reset_config) ∧
    (∀ f ∈ steps (bootloader_init C w (reset_state regs)).2.trace,
      f ≠ .bootloader_ana_reset_config →
      (steps (bootloader_init C w (reset_state regs)).2.trace).indexOf
          .bootloader_ana_reset_config <
        (steps (bootloader_init C w (reset_state regs)).2.trace).indexOf f) ∧
    (Step.bootloader_init_spi_flash ∈ steps (bootloader_init C w (reset_state regs)).2.trace →
      Step.bootloader_read_bootloader_header ∈
        steps (bootloader_init C w (reset_state regs)).2.trace ∧
      (steps (bootloader_init C w (reset_state regs)).2.trace).indexOf
          .bootloader_read_bootloader_header <
        (steps (bootloader_init C w (reset_state regs)).2.trace).indexOf
          .bootloader_init_spi_flash) ∧
    ((Step.bootloader_check_wdt_reset ∈ steps (bootloader_init C w (reset_state regs)).2.trace ∨
      Step.bootloader_config_wdt ∈ steps (bootloader_init C w (reset_state regs)).2.trace) →
      Step.bootloader_init_spi_flash ∈ steps (bootloader_init C w (reset_state regs)).2.trace ∧
      Step.bootloader_check_wdt_reset ∈ steps (bootloader_init C w (reset_state regs)).2.trace ∧
      Step.bootloader_config_wdt ∈ steps (bootloader_init C w (reset_state regs)).2.trace ∧
      (steps (bootloader_init C w (reset_state regs)).2.trace).indexOf
          .bootloader_init_spi_flash <
        (steps (bootloader_init C w (reset_state regs)).2.trace).indexOf
          .bootloader_check_wdt_reset ∧
      (steps (bootloader_init C w (reset_state regs)).2.trace).indexOf
          .bootloader_check_wdt_reset <
        (steps (bootloader_init C w (reset_state regs)).2.trace).indexOf
          .bootloader_config_wdt) := by
  have hfail : ESP_FAIL ≠ ESP_OK := by decide
  have hhead : (bootloader_init C w (reset_state regs)).2.trace.head? =
      some (.step .bootloader_ana_reset_config) := bootloader_init_first_event C w regs
  rcases bootloader_init_run C w regs with ⟨hx, hr, hs, -, -⟩ | ⟨hr, hs, -, -⟩ |
    ⟨hr, hs, -, -⟩ | ⟨hr, hs, -⟩
  · rw [hr, hs]
    refine ⟨by decide, by decide, ?_, by decide, hhead, by decide, by decide, by decide⟩
    simp [hx]
  · rw [hr, hs]
    refine ⟨by decide, by decide, ?_, by decide, hhead, by decide, by decide, by decide⟩
    simp [hfail]
  · rw [hr, hs]
    refine ⟨by decide, by decide, ?_, by decide, hhead, by decide, by decide, by decide⟩
    simp [hfail]
  · rw [hr, hs]
    refine ⟨by decide, by decide, ?_, by decide, hhead, by decide, by decide, by decide⟩
    simp

/-- C20 as stated fails.  On the sample build, from
reset with all registers zero and no step failing, `bootloader_init` returns `ESP_OK` and
`RTC_CNTL_SWD_CONF_REG` holds `RTC_CNTL_SWD_AUTO_FEED_EN`. -/
theorem auto_feed_still_enabled_after_success :
    (bootloader_init esp32s3 (boot_world 0 0 0) (reset_state fun _ => 0)).1 = ESP_OK ∧
    (bootloader_init esp32s3 (boot_world 0 0 0) (reset_state fun _ => 0)).2.regs
      .RTC_CNTL_SWD_CONF_REG = 0x80000000 ∧
    (bootloader_init esp32s3 (boot_world 0 0 0) (reset_state fun _ => 0)).2.regs
      .RTC_CNTL_SWD_CONF_REG &&& esp32s3.RTC_CNTL_SWD_AUTO_FEED_EN ≠ 0 := by
  decide

/-- C20, amended.  The super-watchdog auto-feed that `bootloader_init` enables at its start
is not disabled again before `bootloader_init` returns: after every run, and so after every
run that returns `ESP_OK`, the bits of `RTC_CNTL_SWD_AUTO_FEED_EN` that
`bootloader_super_wdt_auto_feed` set are still set in `RTC_CNTL_SWD_CONF_REG`.  The calls
that leave `bootloader_init.c` are taken to leave these bits as they are. -/
theorem auto_feed_stays_enabled (C : Config) (w : BootWorld) (s : BootState) :
    (bootloader_init C w s).2.regs .RTC_CNTL_SWD_CONF_REG &&& C.RTC_CNTL_SWD_AUTO_FEED_EN =
      C.RTC_CNTL_SWD_AUTO_FEED_EN := by
  rw [bootloader_init_swd]
  apply Nat.eq_of_testBit_eq
  intro i
  simp only [Nat.testBit_and, Nat.testBit_or]
  cases (s.regs Reg.RTC_CNTL_SWD_CONF_REG).testBit i <;>
    cases C.RTC_CNTL_SWD_AUTO_FEED_EN.testBit i <;> rfl

end BootloaderInit

/-! # Theorems about `tfm_hal_isolation.c` -/

namespace TfmIsolation

theorem bind_assets_append (P : TfmConfig) (w : TfmWorld) (privileged : Bool)
    (pre rest : List asset_desc_t) (s : TfmState) :
    bind_assets P w privileged (pre ++ rest) s =
      if (bind_assets P w privileged pre s).1 then
        bind_assets P w privileged rest (bind_assets P w privileged pre s).2
      else (false, (bind_assets P w privileged pre s).2) := by
  induction pre generalizing s with
  | nil => simp [bind_assets]
  | cons a pre ih =>
    simp only [List.cons_append, bind_assets]
    by_cases h : (bind_asset P w privileged a s).1 = true
    · simp only [h, if_true]
      exact ih _
    · simp [h]

theorem bind_asset_not_named (P : TfmConfig) (w : TfmWorld) (privileged : Bool)
    (a : asset_desc_t) (s : TfmState) (h : a.attr &&& P.ASSET_ATTR_NAMED_MMIO = 0) :
    bind_asset P w privileged a s = (true, s) := by
  simp [bind_asset, h]

theorem bind_asset_disallowed (P : TfmConfig) (w : TfmWorld) (privileged : Bool)
    (a : asset_desc_t) (s : TfmState) (h : a.attr &&& P.ASSET_ATTR_NAMED_MMIO ≠ 0)
    (hnot : a.dev_ref ∉ P.partition_named_mmio_list) :
    bind_asset P w privileged a s = (false, s) := by
  simp [bind_asset, h, hnot]

theorem bind_assets_not_named (P : TfmConfig) (w : TfmWorld) (privileged : Bool)
    (l : List asset_desc_t) (s : TfmState)
    (h : ∀ a ∈ l, a.attr &&& P.ASSET_ATTR_NAMED_MMIO = 0) :
    bind_assets P w privileged l s = (true, s) := by
  induction l with
  | nil => rfl
  | cons a l ih =>
    have ha := bind_asset_not_named P w privileged a s (h a (List.mem_cons_self a l))
    simp only [bind_assets, ha, if_true]
    exact ih (fun b hb => h b (List.mem_cons_of_mem a hb))

/-- C11 as stated fails.  The partition claims the UART, which is allowed, and then a
device that is not in `partition_named_mmio_list`.  After a static set-up,
`tfm_hal_bind_boundaries` returns an error and writes no handle, but the round for the UART
has run before the second asset is looked at: region 6 of the MPU is programmed,
`n_configured_regions` went from 6 to 7 and the UART was configured in the PPC. -/
theorem bind_programs_before_disallowed_asset :
    partition_with_other.assets = [uart_asset, other_asset] ∧
    other_asset.attr &&& sample_config.ASSET_ATTR_NAMED_MMIO ≠ 0 ∧
    other_asset.dev_ref ∉ sample_config.partition_named_mmio_list ∧
    (tfm_hal_bind_boundaries sample_config sample_drivers (some partition_with_other) true
      after_static_setup).1 = .TFM_HAL_ERROR_GENERIC ∧
    (tfm_hal_bind_boundaries sample_config sample_drivers (some partition_with_other) true
      after_static_setup).2.1 = none ∧
    after_static_setup.n_configured_regions = 6 ∧
    (tfm_hal_bind_boundaries sample_config sample_drivers (some partition_with_other) true
      after_static_setup).2.2.n_configured_regions = 7 ∧
    after_static_setup.mpu 6 = none ∧
    (tfm_hal_bind_boundaries sample_config sample_drivers (some partition_with_other) true
      after_static_setup).2.2.mpu 6 =
        some (mmio_region_cfg (sample_config.platform_data sample_uart_ref) 6) ∧
    after_static_setup.ppc 1 5 = { secure := false, secure_unpriv := false } ∧
    (tfm_hal_bind_boundaries sample_config sample_drivers (some partition_with_other) true
      after_static_setup).2.2.ppc 1 5 = { secure := true, secure_unpriv := true } := by
  decide

/-- C11, amended.  For every partition descriptor whose asset list contains a named MMIO
asset that is absent from `partition_named_mmio_list`, `tfm_hal_bind_boundaries` returns an
error and writes no handle, and the state it leaves is the state after the rounds of the
assets that stand before the disallowed one: nothing is programmed for the disallowed
asset or for an asset after it.  When no named MMIO asset stands before the disallowed
one, the state (MPU region table, PPC configuration and `n_configured_regions`) is the
same as before the call. -/
theorem bind_fails_at_disallowed_asset (P : TfmConfig) (w : TfmWorld)
    (d : partition_load_info_t) (pre post : List asset_desc_t) (bad : asset_desc_t)
    (s : TfmState) (hd : d.assets = pre ++ bad :: post)
    (hnamed : bad.attr &&& P.ASSET_ATTR_NAMED_MMIO ≠ 0)
    (hnot : bad.dev_ref ∉ P.partition_named_mmio_list) :
    (tfm_hal_bind_boundaries P w (some d) true s).1 = .TFM_HAL_ERROR_GENERIC ∧
    (tfm_hal_bind_boundaries P w (some d) true s).2.1 = none ∧
    (tfm_hal_bind_boundaries P w (some d) true s).2.2 =
      (bind_assets P w (is_privileged P d) pre s).2 ∧
    ((∀ a ∈ pre, a.attr &&& P.ASSET_ATTR_NAMED_MMIO = 0) →
      (tfm_hal_bind_boundaries P w (some d) true s).2.2 = s) := by
  have key : bind_assets P w (is_privileged P d) d.assets s =
      (false, (bind_assets P w (is_privileged P d) pre s).2) := by
    rw [hd, bind_assets_append]
    by_cases h : (bind_assets P w (is_privileged P d) pre s).1 = true
    · simp only [h, if_true, bind_assets,
        bind_asset_disallowed P w (is_privileged P d) bad _ hnamed hnot]
      simp
    · simp [h]
  have hres : tfm_hal_bind_boundaries P w (some d) true s =
      (.TFM_HAL_ERROR_GENERIC, none, (bind_assets P w (is_privileged P d) pre s).2) := by
    simp [tfm_hal_bind_boundaries, key]
  rw [hres]
  refine ⟨rfl, rfl, rfl, fun hpre => ?_⟩
  rw [bind_assets_not_named P w (is_privileged P d) pre s hpre]

/-- C11, amended, at two partitions: one whose only asset is the disallowed device (the
state is unchanged) and one that claims the UART first (the state is the one after the
round for the UART). -/
theorem bind_fails_at_disallowed_asset_witness :
    ((tfm_hal_bind_boundaries sample_config sample_drivers
        (some (app_partition 259 0x10060101 0x400 [other_asset])) true after_static_setup).1
        = .TFM_HAL_ERROR_GENERIC ∧
      (tfm_hal_bind_boundaries sample_config sample_drivers
        (some (app_partition 259 0x10060101 0x400 [other_asset])) true after_static_setup).2.1
        = none ∧
      (tfm_hal_bind_boundaries sample_config sample_drivers
        (some (app_partition 259 0x10060101 0x400 [other_asset])) true after_static_setup).2.2
        = after_static_setup) ∧
    (tfm_hal_bind_boundaries sample_config sample_drivers (some partition_with_other) true
      after_static_setup).2.2 =
      (bind_assets sample_config sample_drivers (is_privileged sample_config partition_with_other)
        [uart_asset] after_static_setup).2 :=
  ⟨⟨(bind_fails_at_disallowed_asset sample_config sample_drivers
        (app_partition 259 0x10060101 0x400 [other_asset]) [] [] other_asset after_static_setup
        rfl (by decide) (by decide)).1,
      (bind_fails_at_disallowed_asset sample_config sample_drivers
        (app_partition 259 0x10060101 0x400 [other_asset]) [] [] other_asset after_static_setup
        rfl (by decide) (by decide)).2.1,
      (bind_fails_at_disallowed_asset sample_config sample_drivers
        (app_partition 259 0x10060101 0x400 [other_asset]) [] [] other_asset after_static_setup
        rfl (by decide) (by decide)).2.2.2 (by intro a ha; cases ha)⟩,
    (bind_fails_at_disallowed_asset sample_config sample_drivers partition_with_other
      [uart_asset] [] other_asset after_static_setup rfl (by decide) (by decide)).2.2.1⟩

theorem region_enable_facts (w : TfmWorld) (cfg : mpu_armv8m_region_cfg_t) (s : TfmState) :
    (mpu_armv8m_region_enable w cfg s).1 = w.mpu_armv8m_region_enable cfg ∧
    (mpu_armv8m_region_enable w cfg s).2.n_configured_regions = s.n_configured_regions ∧
    (mpu_armv8m_region_enable w cfg s).2.ppc = s.ppc ∧
    (mpu_armv8m_region_enable w cfg s).2.CONTROL = s.CONTROL ∧
    (mpu_armv8m_region_enable w cfg s).2.mpu =
      (if w.mpu_armv8m_region_enable cfg then
        fun i => if i = cfg.region_nr then some cfg else s.mpu i
      else s.mpu) ∧
    (mpu_armv8m_region_enable w cfg s).2.trace =
      s.trace ++ [.mpu_armv8m_region_enable cfg (w.mpu_armv8m_region_enable cfg)] := by
  unfold mpu_armv8m_region_enable
  by_cases h : w.mpu_armv8m_region_enable cfg = true <;> simp [h, TfmState.emit]

/-- The result of the static blocks and the region table they leave depend on the region
table they start from only. -/
theorem enable_static_regions_mpu (w : TfmWorld) (l : List mpu_armv8m_region_cfg_t)
    (s t : TfmState) (h : s.mpu = t.mpu) :
    (enable_static_regions w l s).1 = (enable_static_regions w l t).1 ∧
    (enable_static_regions w l s).2.mpu = (enable_static_regions w l t).2.mpu := by
  induction l generalizing s t with
  | nil => exact ⟨rfl, h⟩
  | cons cfg l ih =>
    obtain ⟨a1, _, _, _, a5, _⟩ := region_enable_facts w cfg s
    obtain ⟨b1, _, _, _, b5, _⟩ := region_enable_facts w cfg t
    simp only [enable_static_regions, a1, b1]
    by_cases hw : w.mpu_armv8m_region_enable cfg = true
    · simp only [hw, if_true]
      apply ih
      simp only [incr_n_configured_regions, a5, b5, hw, if_true, h]
    · simp only [hw, Bool.false_eq_true, if_false, a5, b5, h, and_self]

/-- The static blocks leave the PPC and `CONTROL` alone; when all of them succeed the
counter has grown by their number, and when one fails it has grown by the number of blocks
before that one. -/
theorem enable_static_regions_count (w : TfmWorld) (l : List mpu_armv8m_region_cfg_t)
    (s : TfmState) (hn : s.n_configured_regions < 4294967296) :
    (enable_static_regions w l s).2.ppc = s.ppc ∧
    (enable_static_regions w l s).2.CONTROL = s.CONTROL ∧
    ((enable_static_regions w l s).1 = true →
      (enable_static_regions w l s).2.n_configured_regions =
        (s.n_configured_regions + l.length) % 4294967296) ∧
    ((enable_static_regions w l s).1 = false →
      ∃ k, k < l.length ∧ (enable_static_regions w l s).2.n_configured_regions =
        (s.n_configured_regions + k) % 4294967296) := by
  induction l generalizing s with
  | nil => simp [enable_static_regions, Nat.mod_eq_of_lt hn]
  | cons cfg l ih =>
    obtain ⟨a1, a2, a3, a4, _, _⟩ := region_enable_facts w cfg s
    simp only [enable_static_regions, a1]
    by_cases hw : w.mpu_armv8m_region_enable cfg = true
    · simp only [hw, if_true]
      have e2 : (incr_n_configured_regions (mpu_armv8m_region_enable w cfg s).2).n_configured_regions
          = (s.n_configured_regions + 1) % 4294967296 := by
        simp [incr_n_configured_regions, a2]
      have e3 : (incr_n_configured_regions (mpu_armv8m_region_enable w cfg s).2).ppc = s.ppc := by
        simp [incr_n_configured_regions, a3]
      have e4 : (incr_n_configured_regions (mpu_armv8m_region_enable w cfg s).2).CONTROL
          = s.CONTROL := by
        simp [incr_n_configured_regions, a4]
      obtain ⟨i1, i2, i3, i4⟩ :=
        ih (incr_n_configured_regions (mpu_armv8m_region_enable w cfg s).2)
          (by rw [e2]; exact Nat.mod_lt _ (by decide))
      refine ⟨i1.trans e3, i2.trans e4, ?_, ?_⟩
      · intro h
        rw [i3 h, e2, List.length_cons]
        omega
      · intro h
        obtain ⟨k, hk1, hk2⟩ := i4 h
        refine ⟨k + 1, by simp only [List.length_cons]; omega, ?_⟩
        rw [hk2, e2]
        omega
    · simp only [hw, Bool.false_eq_true, if_false, a2, a3, a4, List.length_cons, true_and]
      refine ⟨by simp, ?_⟩
      intro _
      exact ⟨0, by omega, by simp [Nat.mod_eq_of_lt hn]⟩

/-- The static blocks never make the counter grow by more than their number. -/
theorem enable_static_regions_le (w : TfmWorld) (l : List mpu_armv8m_region_cfg_t)
    (s : TfmState) :
    (enable_static_regions w l s).2.n_configured_regions ≤ s.n_configured_regions + l.length := by
  induction l generalizing s with
  | nil => simp [enable_static_regions]
  | cons cfg l ih =>
    obtain ⟨a1, a2, _, _, _, _⟩ := region_enable_facts w cfg s
    simp only [enable_static_regions, a1]
    by_cases hw : w.mpu_armv8m_region_enable cfg = true
    · simp only [hw, if_true]
      have e2 : (incr_n_configured_regions (mpu_armv8m_region_enable w cfg s).2).n_configured_regions
          = (s.n_configured_regions + 1) % 4294967296 := by
        simp [incr_n_configured_regions, a2]
      have := ih (incr_n_configured_regions (mpu_armv8m_region_enable w cfg s).2)
      rw [e2] at this
      have := Nat.mod_le (s.n_configured_regions + 1) 4294967296
      simp only [List.length_cons]
      omega
    · simp only [hw, Bool.false_eq_true, if_false, a2, List.length_cons]
      omega

theorem enable_static_regions_trace (w : TfmWorld) (l : List mpu_armv8m_region_cfg_t)
    (s : TfmState) (e : TfmEvent) (he : e ∈ s.trace) :
    e ∈ (enable_static_regions w l s).2.trace := by
  induction l generalizing s with
  | nil => exact he
  | cons cfg l ih =>
    obtain ⟨a1, _, _, _, _, a6⟩ := region_enable_facts w cfg s
    simp only [enable_static_regions, a1]
    by_cases hw : w.mpu_armv8m_region_enable cfg = true
    · simp only [hw, if_true]
      apply ih
      simp only [incr_n_configured_regions, a6]
      exact List.mem_append_left _ he
    · simp only [hw, Bool.false_eq_true, if_false, a6]
      exact List.mem_append_left _ he

/-- C12 as stated fails.  From the initial state, with drivers that succeed, the first
static set-up succeeds and leaves `n_configured_regions = 6`; the second call succeeds as
well and leaves `n_configured_regions = 12`. -/
theorem second_static_setup_succeeds :
    (tfm_hal_set_up_static_boundaries sample_config sample_drivers initial_state).1
      = .TFM_HAL_SUCCESS ∧
    (tfm_hal_set_up_static_boundaries sample_config sample_drivers initial_state).2.n_configured_regions
      = 6 ∧
    (tfm_hal_set_up_static_boundaries sample_config sample_drivers
      (tfm_hal_set_up_static_boundaries sample_config sample_drivers initial_state).2).1
      = .TFM_HAL_SUCCESS ∧
    (tfm_hal_set_up_static_boundaries sample_config sample_drivers
      (tfm_hal_set_up_static_boundaries sample_config sample_drivers
        initial_state).2).2.n_configured_regions = 12 := by
  decide

theorem emit_fields (s : TfmState) (e : TfmEvent) :
    (s.emit e).n_configured_regions = s.n_configured_regions ∧ (s.emit e).mpu = s.mpu ∧
    (s.emit e).ppc = s.ppc ∧ (s.emit e).CONTROL = s.CONTROL ∧
    (s.emit e).mpu_enabled = s.mpu_enabled :=
  ⟨rfl, rfl, rfl, rfl, rfl⟩

theorem clean_fields (s : TfmState) :
    (mpu_armv8m_clean s).n_configured_regions = s.n_configured_regions ∧
    (mpu_armv8m_clean s).mpu = (fun _ => none) ∧ (mpu_armv8m_clean s).ppc = s.ppc ∧
    (mpu_armv8m_clean s).CONTROL = s.CONTROL ∧
    TfmEvent.mpu_armv8m_clean ∈ (mpu_armv8m_clean s).trace :=
  ⟨rfl, rfl, rfl, rfl, by simp [mpu_armv8m_clean]⟩

theorem enable_fields (s : TfmState) :
    (mpu_armv8m_enable s).n_configured_regions = s.n_configured_regions ∧
    (mpu_armv8m_enable s).mpu = s.mpu ∧ (mpu_armv8m_enable s).ppc = s.ppc ∧
    (mpu_armv8m_enable s).CONTROL = s.CONTROL :=
  ⟨rfl, rfl, rfl, rfl⟩

/-- After `mpu_armv8m_clean` the result of the static blocks and the region table they
leave are the same whatever the state was. -/
theorem enable_static_regions_clean (w : TfmWorld) (l : List mpu_armv8m_region_cfg_t)
    (s : TfmState) :
    (enable_static_regions w l (mpu_armv8m_clean s)).1 =
      (enable_static_regions w l (mpu_armv8m_clean initial_state)).1 ∧
    (enable_static_regions w l (mpu_armv8m_clean s)).2.mpu =
      (enable_static_regions w l (mpu_armv8m_clean initial_state)).2.mpu :=
  enable_static_regions_mpu w l _ _ rfl

/-- What a successful static set-up leaves: the drivers succeeded, the region table is the
one the static blocks build from a clean MPU, and the counter has grown by the number of
static regions. -/
theorem static_setup_success (P : TfmConfig) (w : TfmWorld) (s : TfmState)
    (hn : s.n_configured_regions < 4294967296)
    (h1 : (tfm_hal_set_up_static_boundaries P w s).1 = .TFM_HAL_SUCCESS) :
    w.mpc_init_cfg = ARM_DRIVER_OK ∧ w.ppc_init_cfg = ARM_DRIVER_OK ∧
    (P.CONFIG_TFM_ENABLE_MEMORY_PROTECT = true →
      (enable_static_regions w (static_regions P) (mpu_armv8m_clean initial_state)).1 = true) ∧
    (tfm_hal_set_up_static_boundaries P w s).2.mpu =
      (if P.CONFIG_TFM_ENABLE_MEMORY_PROTECT then
        (enable_static_regions w (static_regions P) (mpu_armv8m_clean initial_state)).2.mpu
      else s.mpu) ∧
    (tfm_hal_set_up_static_boundaries P w s).2.n_configured_regions =
      (s.n_configured_regions
        + (if P.CONFIG_TFM_ENABLE_MEMORY_PROTECT then (static_regions P).length else 0))
        % 4294967296 := by
  unfold tfm_hal_set_up_static_boundaries at h1 ⊢
  dsimp only at h1 ⊢
  set X := ((s.emit .sau_and_idau_cfg).emit (.mpc_init_cfg w.mpc_init_cfg)).emit
    (.ppc_init_cfg w.ppc_init_cfg) with hX
  have hXn : X.n_configured_regions = s.n_configured_regions := rfl
  have hXm : X.mpu = s.mpu := rfl
  by_cases hm : w.mpc_init_cfg = ARM_DRIVER_OK
  · by_cases hp : w.ppc_init_cfg = ARM_DRIVER_OK
    · by_cases hP : P.CONFIG_TFM_ENABLE_MEMORY_PROTECT = true
      · simp only [hm, hp, hP, ne_eq, not_true_eq_false, if_false, if_true] at h1 ⊢
        by_cases he : (enable_static_regions w (static_regions P) (mpu_armv8m_clean X)).1 = true
        · simp only [he, if_true] at h1 ⊢
          obtain ⟨c1, c2⟩ := enable_static_regions_clean w (static_regions P) X
          obtain ⟨_, _, c3, _⟩ := enable_static_regions_count w (static_regions P)
            (mpu_armv8m_clean X) (by simpa [(clean_fields X).1, hXn] using hn)
          refine ⟨trivial, trivial, fun _ => c1 ▸ he, ?_, ?_⟩
          · rw [(enable_fields _).2.1, c2]
          · rw [(enable_fields _).1, c3 he, (clean_fields X).1, hXn]
        · simp [he] at h1
      · simp only [hm, hp, hP, ne_eq, not_true_eq_false, if_false, Bool.false_eq_true] at h1 ⊢
        simp [hXn, hXm, Nat.mod_eq_of_lt hn]
    · simp [hm, hp] at h1
  · simp [hm] at h1

/-- The static set-up succeeds as soon as the drivers do. -/
theorem static_setup_succeeds (P : TfmConfig) (w : TfmWorld) (s : TfmState)
    (hm : w.mpc_init_cfg = ARM_DRIVER_OK) (hp : w.ppc_init_cfg = ARM_DRIVER_OK)
    (he : P.CONFIG_TFM_ENABLE_MEMORY_PROTECT = true →
      (enable_static_regions w (static_regions P) (mpu_armv8m_clean initial_state)).1 = true) :
    (tfm_hal_set_up_static_boundaries P w s).1 = .TFM_HAL_SUCCESS := by
  unfold tfm_hal_set_up_static_boundaries
  dsimp only
  by_cases hP : P.CONFIG_TFM_ENABLE_MEMORY_PROTECT = true
  · simp only [hm, hp, hP, ne_eq, not_true_eq_false, if_false, if_true,
      (enable_static_regions_clean w _ _).1, he hP]
  · simp [hm, hp, hP]

/-- C12, amended.  A second call of `tfm_hal_set_up_static_boundaries` is not rejected:
after a successful call a second call succeeds too; it leaves the MPU region table as the
first call left it (the same regions under the same numbers) and, with
`CONFIG_TFM_ENABLE_MEMORY_PROTECT`, adds the number of static regions to
`n_configured_regions` once more. -/
theorem second_static_setup_is_not_rejected (P : TfmConfig) (w : TfmWorld) (s : TfmState)
    (hn : s.n_configured_regions < 4294967296)
    (h1 : (tfm_hal_set_up_static_boundaries P w s).1 = .TFM_HAL_SUCCESS) :
    (tfm_hal_set_up_static_boundaries P w (tfm_hal_set_up_static_boundaries P w s).2).1
      = .TFM_HAL_SUCCESS ∧
    (tfm_hal_set_up_static_boundaries P w (tfm_hal_set_up_static_boundaries P w s).2).2.mpu
      = (tfm_hal_set_up_static_boundaries P w s).2.mpu ∧
    (tfm_hal_set_up_static_boundaries P w
      (tfm_hal_set_up_static_boundaries P w s).2).2.n_configured_regions
      = ((tfm_hal_set_up_static_boundaries P w s).2.n_configured_regions
        + (if P.CONFIG_TFM_ENABLE_MEMORY_PROTECT then (static_regions P).length else 0))
        % 4294967296 := by
  obtain ⟨hm, hp, he, hmpu, hcnt⟩ := static_setup_success P w s hn h1
  have h2 := static_setup_succeeds P w (tfm_hal_set_up_static_boundaries P w s).2 hm hp he
  have hn1 : (tfm_hal_set_up_static_boundaries P w s).2.n_configured_regions < 4294967296 := by
    rw [hcnt]
    exact Nat.mod_lt _ (by decide)
  obtain ⟨_, _, _, hmpu2, hcnt2⟩ :=
    static_setup_success P w (tfm_hal_set_up_static_boundaries P w s).2 hn1 h2
  refine ⟨h2, ?_, hcnt2⟩
  rw [hmpu2, hmpu]
  by_cases hP : P.CONFIG_TFM_ENABLE_MEMORY_PROTECT = true <;> simp [hP]

/-- C12, amended, at the sample build: the second call succeeds and the counter goes from
6 to 12. -/
theorem second_static_setup_is_not_rejected_witness :
    (tfm_hal_set_up_static_boundaries sample_config sample_drivers after_static_setup).1
      = .TFM_HAL_SUCCESS ∧
    (tfm_hal_set_up_static_boundaries sample_config sample_drivers after_static_setup).2.mpu
      = after_static_setup.mpu ∧
    (tfm_hal_set_up_static_boundaries sample_config sample_drivers
      after_static_setup).2.n_configured_regions
      = (after_static_setup.n_configured_regions
        + (if sample_config.CONFIG_TFM_ENABLE_MEMORY_PROTECT then
            (static_regions sample_config).length else 0)) % 4294967296 :=
  second_static_setup_is_not_rejected sample_config sample_drivers initial_state (by decide)
    (by decide)

theorem configure_ppc_fields (P : TfmConfig) (privileged : Bool) (pd : platform_data_t)
    (s : TfmState) :
    (configure_ppc P privileged pd s).n_configured_regions = s.n_configured_regions ∧
    (configure_ppc P privileged pd s).mpu = s.mpu ∧
    (configure_ppc P privileged pd s).CONTROL = s.CONTROL ∧
    (∀ e ∈ s.trace, e ∈ (configure_ppc P privileged pd s).trace) := by
  unfold configure_ppc
  by_cases h : pd.periph_ppc_bank = P.PPC_SP_DO_NOT_CONFIGURE <;> cases privileged <;>
    simp [h, ppc_configure_to_secure, ppc_clr_secure_unpriv, ppc_en_secure_unpriv] <;>
    intro e he <;> simp [he]

/-- The three ways a round of the bind loop can go. -/
theorem bind_asset_cases (P : TfmConfig) (w : TfmWorld) (privileged : Bool)
    (a : asset_desc_t) (s : TfmState) :
    bind_asset P w privileged a s = (true, s) ∨ bind_asset P w privileged a s = (false, s) ∨
    bind_asset P w privileged a s =
      (true, configure_ppc P privileged (P.platform_data a.dev_ref) s) ∨
    (a.attr &&& P.ASSET_ATTR_NAMED_MMIO ≠ 0 ∧ a.dev_ref ∈ P.partition_named_mmio_list ∧
      P.TFM_LVL = 2 ∧ privileged = false ∧
      bind_asset P w privileged a s =
        mpu_armv8m_region_enable w
          (mmio_region_cfg (P.platform_data a.dev_ref)
            (configure_ppc P privileged (P.platform_data a.dev_ref) s).n_configured_regions)
          (incr_n_configured_regions
            (configure_ppc P privileged (P.platform_data a.dev_ref) s))) := by
  by_cases h1 : a.attr &&& P.ASSET_ATTR_NAMED_MMIO = 0
  · exact Or.inl (by simp [bind_asset, h1])
  · by_cases h2 : a.dev_ref ∈ P.partition_named_mmio_list
    · by_cases h3 : P.TFM_LVL = 2 ∧ privileged = false
      · exact Or.inr (Or.inr (Or.inr ⟨h1, h2, h3.1, h3.2, by simp [bind_asset, h1, h2, h3]⟩))
      · refine Or.inr (Or.inr (Or.inl ?_))
        unfold bind_asset
        simp only [h1, h2, if_false, not_true_eq_false, h3]
    · exact Or.inr (Or.inl (by simp [bind_asset, h1, h2]))

/-- One round of the bind loop: the counter grows by at most one and the calls made so
far stay in the trace. -/
theorem bind_asset_facts (P : TfmConfig) (w : TfmWorld) (privileged : Bool)
    (a : asset_desc_t) (s : TfmState) :
    (bind_asset P w privileged a s).2.n_configured_regions ≤ s.n_configured_regions + 1 ∧
    (∀ e ∈ s.trace, e ∈ (bind_asset P w privileged a s).2.trace) := by
  obtain ⟨c1, _, _, c4⟩ := configure_ppc_fields P privileged (P.platform_data a.dev_ref) s
  rcases bind_asset_cases P w privileged a s with h | h | h | ⟨_, _, _, _, h⟩
  · rw [h]
    exact ⟨Nat.le_succ _, fun e he => he⟩
  · rw [h]
    exact ⟨Nat.le_succ _, fun e he => he⟩
  · rw [h]
    exact ⟨by show (configure_ppc P privileged (P.platform_data a.dev_ref)
      s).n_configured_regions ≤ _; omega, c4⟩
  · rw [h]
    obtain ⟨_, r2, _, _, _, r6⟩ := region_enable_facts w
      (mmio_region_cfg (P.platform_data a.dev_ref)
        (configure_ppc P privileged (P.platform_data a.dev_ref) s).n_configured_regions)
      (incr_n_configured_regions (configure_ppc P privileged (P.platform_data a.dev_ref) s))
    refine ⟨?_, ?_⟩
    · rw [r2]
      simp only [incr_n_configured_regions, c1]
      exact Nat.mod_le _ _
    · intro e he
      rw [r6]
      exact List.mem_append_left _ (c4 e he)

theorem bind_assets_facts (P : TfmConfig) (w : TfmWorld) (privileged : Bool)
    (l : List asset_desc_t) (s : TfmState) :
    (bind_assets P w privileged l s).2.n_configured_regions ≤ s.n_configured_regions + l.length ∧
    (∀ e ∈ s.trace, e ∈ (bind_assets P w privileged l s).2.trace) := by
  induction l generalizing s with
  | nil => exact ⟨by simp [bind_assets], fun e he => he⟩
  | cons a l ih =>
    obtain ⟨f1, f2⟩ := bind_asset_facts P w privileged a s
    simp only [bind_assets]
    by_cases h : (bind_asset P w privileged a s).1 = true
    · simp only [h, if_true]
      obtain ⟨i1, i2⟩ := ih (bind_asset P w privileged a s).2
      refine ⟨?_, fun e he => i2 e (f2 e he)⟩
      simp only [List.length_cons]
      omega
    · simp only [h, Bool.false_eq_true, if_false, List.length_cons]
      exact ⟨by omega, f2⟩

/-- When every named MMIO asset is allowed and the MPU driver accepts every region, the
bind loop runs to its end. -/
theorem bind_assets_succeeds (P : TfmConfig) (w : TfmWorld) (privileged : Bool)
    (l : List asset_desc_t) (s : TfmState)
    (hall : ∀ b ∈ l, b.attr &&& P.ASSET_ATTR_NAMED_MMIO ≠ 0 →
      b.dev_ref ∈ P.partition_named_mmio_list)
    (hw : ∀ cfg, w.mpu_armv8m_region_enable cfg = true) :
    (bind_assets P w privileged l s).1 = true := by
  induction l generalizing s with
  | nil => rfl
  | cons a l ih =>
    have ha : (bind_asset P w privileged a s).1 = true := by
      by_cases h1 : a.attr &&& P.ASSET_ATTR_NAMED_MMIO = 0
      · rw [bind_asset_not_named P w privileged a s h1]
      · have h2 := hall a (List.mem_cons_self a l) h1
        by_cases h3 : P.TFM_LVL = 2 ∧ privileged = false
        · have : bind_asset P w privileged a s =
              mpu_armv8m_region_enable w
                (mmio_region_cfg (P.platform_data a.dev_ref)
                  (configure_ppc P privileged (P.platform_data a.dev_ref)
                    s).n_configured_regions)
                (incr_n_configured_regions
                  (configure_ppc P privileged (P.platform_data a.dev_ref) s)) := by
            simp [bind_asset, h1, h2, h3]
          rw [this, (region_enable_facts w _ _).1]
          exact hw _
        · unfold bind_asset
          simp only [h1, h2, if_false, not_true_eq_false, h3]
    simp only [bind_assets, ha, if_true]
    exact ih _ (fun b hb => hall b (List.mem_cons_of_mem a hb))

/-- C13 as stated fails.  After the static set-up and two binds `n_configured_regions` is
8.  A third bind of an unprivileged partition that claims the UART succeeds: region 8 is
programmed and `n_configured_regions` becomes 9. -/
theorem bind_programs_region_eight :
    (run_ops sample_config sample_drivers
      [.set_up_static_boundaries, .bind_boundaries partition_A, .bind_boundaries partition_B]
      initial_state).n_configured_regions = 8 ∧
    is_privileged sample_config partition_A = false ∧
    (tfm_hal_bind_boundaries sample_config sample_drivers (some partition_A) true
      (run_ops sample_config sample_drivers
        [.set_up_static_boundaries, .bind_boundaries partition_A, .bind_boundaries partition_B]
        initial_state)).1 = .TFM_HAL_SUCCESS ∧
    (tfm_hal_bind_boundaries sample_config sample_drivers (some partition_A) true
      (run_ops sample_config sample_drivers
        [.set_up_static_boundaries, .bind_boundaries partition_A, .bind_boundaries partition_B]
        initial_state)).2.2.mpu 8 =
        some (mmio_region_cfg (sample_config.platform_data sample_uart_ref) 8) ∧
    (tfm_hal_bind_boundaries sample_config sample_drivers (some partition_A) true
      (run_ops sample_config sample_drivers
        [.set_up_static_boundaries, .bind_boundaries partition_A, .bind_boundaries partition_B]
        initial_state)).2.2.n_configured_regions = 9 := by
  decide

/-- C13, amended.  `tfm_hal_bind_boundaries` does not compare `n_configured_regions` with
`MPU_REGION_NUM`.  At level 2, for every state with `n_configured_regions >= 8` and every
unprivileged descriptor whose first named MMIO asset is allowed, the driver
`mpu_armv8m_region_enable` is called with the region number `n_configured_regions` for the
window of that peripheral.  When the driver refuses that region the bind returns an error
and writes no handle; when the driver accepts every region and every named MMIO asset of
the descriptor is allowed, the bind succeeds. -/
theorem bind_does_not_check_region_capacity (P : TfmConfig) (w : TfmWorld)
    (d : partition_load_info_t) (pre post : List asset_desc_t) (a : asset_desc_t)
    (s : TfmState) (hlvl : P.TFM_LVL = 2) (hn : MPU_REGION_NUM ≤ s.n_configured_regions)
    (hunpriv : is_privileged P d = false) (hd : d.assets = pre ++ a :: post)
    (hpre : ∀ b ∈ pre, b.attr &&& P.ASSET_ATTR_NAMED_MMIO = 0)
    (hnamed : a.attr &&& P.ASSET_ATTR_NAMED_MMIO ≠ 0)
    (hallowed : a.dev_ref ∈ P.partition_named_mmio_list) :
    TfmEvent.mpu_armv8m_region_enable
        (mmio_region_cfg (P.platform_data a.dev_ref) s.n_configured_regions)
        (w.mpu_armv8m_region_enable
          (mmio_region_cfg (P.platform_data a.dev_ref) s.n_configured_regions))
      ∈ (tfm_hal_bind_boundaries P w (some d) true s).2.2.trace ∧
    MPU_REGION_NUM ≤
      (mmio_region_cfg (P.platform_data a.dev_ref) s.n_configured_regions).region_nr ∧
    (w.mpu_armv8m_region_enable
        (mmio_region_cfg (P.platform_data a.dev_ref) s.n_configured_regions) = false →
      (tfm_hal_bind_boundaries P w (some d) true s).1 = .TFM_HAL_ERROR_GENERIC ∧
      (tfm_hal_bind_boundaries P w (some d) true s).2.1 = none) ∧
    ((∀ cfg, w.mpu_armv8m_region_enable cfg = true) →
      (∀ b ∈ d.assets, b.attr &&& P.ASSET_ATTR_NAMED_MMIO ≠ 0 →
        b.dev_ref ∈ P.partition_named_mmio_list) →
      (tfm_hal_bind_boundaries P w (some d) true s).1 = .TFM_HAL_SUCCESS ∧
      (tfm_hal_bind_boundaries P w (some d) true s).2.1 = some 0) := by
  have hpre' := bind_assets_not_named P w false pre s hpre
  -- the round of the asset `a`
  have hround : bind_asset P w false a s =
      mpu_armv8m_region_enable w
        (mmio_region_cfg (P.platform_data a.dev_ref)
          (configure_ppc P false (P.platform_data a.dev_ref) s).n_configured_regions)
        (incr_n_configured_regions (configure_ppc P false (P.platform_data a.dev_ref) s)) := by
    simp [bind_asset, hnamed, hallowed, hlvl]
  rw [(configure_ppc_fields P false (P.platform_data a.dev_ref) s).1] at hround
  have hloop : bind_assets P w false d.assets s =
      if (bind_asset P w false a s).1 then
        bind_assets P w false post (bind_asset P w false a s).2
      else (false, (bind_asset P w false a s).2) := by
    rw [hd, bind_assets_append, hpre']
    simp [bind_assets]
  have hmem : TfmEvent.mpu_armv8m_region_enable
        (mmio_region_cfg (P.platform_data a.dev_ref) s.n_configured_regions)
        (w.mpu_armv8m_region_enable
          (mmio_region_cfg (P.platform_data a.dev_ref) s.n_configured_regions))
      ∈ (bind_asset P w false a s).2.trace := by
    rw [hround, (region_enable_facts w _ _).2.2.2.2.2]
    simp
  refine ⟨?_, hn, ?_, ?_⟩
  · have : (tfm_hal_bind_boundaries P w (some d) true s).2.2 =
        (bind_assets P w false d.assets s).2 := by
      simp only [tfm_hal_bind_boundaries, hunpriv]
      split_ifs <;> simp_all
    rw [this, hloop]
    split_ifs with h
    · exact (bind_assets_facts P w false post _).2 _ hmem
    · exact hmem
  · intro hrefuse
    have h1 : (bind_asset P w false a s).1 = false := by
      rw [hround, (region_enable_facts w _ _).1, hrefuse]
    have h2 : (bind_assets P w false d.assets s).1 = false := by
      rw [hloop]
      simp [h1]
    simp [tfm_hal_bind_boundaries, hunpriv, h2]
  · intro hw hall
    have h2 := bind_assets_succeeds P w false d.assets s hall hw
    simp [tfm_hal_bind_boundaries, hunpriv, h2]

/-- C13, amended, at the sample build with `n_configured_regions = 8`: the driver is asked
for region 8 and the bind succeeds. -/
theorem bind_does_not_check_region_capacity_witness :
    TfmEvent.mpu_armv8m_region_enable
        (mmio_region_cfg (sample_config.platform_data uart_asset.dev_ref) 8) true
      ∈ (tfm_hal_bind_boundaries sample_config { sample_drivers with
          mpu_armv8m_region_enable := fun _ => true } (some partition_A) true
          { initial_state with n_configured_regions := 8 }).2.2.trace ∧
    (tfm_hal_bind_boundaries sample_config { sample_drivers with
        mpu_armv8m_region_enable := fun _ => true } (some partition_A) true
        { initial_state with n_configured_regions := 8 }).1 = .TFM_HAL_SUCCESS ∧
    (tfm_hal_bind_boundaries sample_config { sample_drivers with
        mpu_armv8m_region_enable := fun _ => true } (some partition_A) true
        { initial_state with n_configured_regions := 8 }).2.1 = some 0 :=
  ⟨(bind_does_not_check_region_capacity sample_config { sample_drivers with
        mpu_armv8m_region_enable := fun _ => true } partition_A
      [memory_asset 0x30011000 0x300117FF] [] uart_asset
      { initial_state with n_configured_regions := 8 } rfl (by decide) (by decide) rfl
      (by decide) (by decide) (by decide)).1,
    (bind_does_not_check_region_capacity sample_config { sample_drivers with
        mpu_armv8m_region_enable := fun _ => true } partition_A
      [memory_asset 0x30011000 0x300117FF] [] uart_asset
      { initial_state with n_configured_regions := 8 } rfl (by decide) (by decide) rfl
      (by decide) (by decide) (by decide)).2.2.2 (fun _ => rfl) (by decide)⟩

theorem static_setup_le (P : TfmConfig) (w : TfmWorld) (s : TfmState) :
    (tfm_hal_set_up_static_boundaries P w s).2.n_configured_regions ≤
      s.n_configured_regions + (static_regions P).length := by
  unfold tfm_hal_set_up_static_boundaries
  dsimp only
  set X := ((s.emit .sau_and_idau_cfg).emit (.mpc_init_cfg w.mpc_init_cfg)).emit
    (.ppc_init_cfg w.ppc_init_cfg) with hX
  have hXn : X.n_configured_regions = s.n_configured_regions := rfl
  have hle := enable_static_regions_le w (static_regions P) (mpu_armv8m_clean X)
  rw [(clean_fields X).1, hXn] at hle
  split_ifs
  · exact Nat.le_add_right _ _
  · exact Nat.le_add_right _ _
  · rw [(enable_fields _).1]
    exact hle
  · exact hle
  · exact Nat.le_add_right _ _

theorem bind_le (P : TfmConfig) (w : TfmWorld) (d : partition_load_info_t) (s : TfmState) :
    (tfm_hal_bind_boundaries P w (some d) true s).2.2.n_configured_regions ≤
      s.n_configured_regions + d.assets.length := by
  have h := (bind_assets_facts P w (is_privileged P d) d.assets s).1
  simp only [tfm_hal_bind_boundaries]
  split_ifs <;> first | exact h | simp_all

theorem run_ops_le (P : TfmConfig) (w : TfmWorld) (ops : List Op) (s : TfmState) :
    (run_ops P w ops s).n_configured_regions ≤
      s.n_configured_regions + (ops.map (region_demand P)).sum := by
  induction ops generalizing s with
  | nil => simp [run_ops]
  | cons op ops ih =>
    cases op with
    | set_up_static_boundaries =>
      have h1 := ih (tfm_hal_set_up_static_boundaries P w s).2
      have h2 := static_setup_le P w s
      simp only [run_ops, List.map_cons, List.sum_cons, region_demand]
      omega
    | bind_boundaries d =>
      have h1 := ih (tfm_hal_bind_boundaries P w (some d) true s).2.2
      have h2 := bind_le P w d s
      simp only [run_ops, List.map_cons, List.sum_cons, region_demand]
      omega

/-- C14 as stated fails.  The static set-up followed by three binds of unprivileged
partitions that claim the UART leads from the initial state to
`n_configured_regions = 9`, all four calls being successful. -/
theorem counter_exceeds_region_number :
    initial_state.n_configured_regions = 0 ∧
    (tfm_hal_set_up_static_boundaries sample_config sample_drivers initial_state).1
      = .TFM_HAL_SUCCESS ∧
    (tfm_hal_bind_boundaries sample_config sample_drivers (some partition_A) true
      (run_ops sample_config sample_drivers
        [.set_up_static_boundaries, .bind_boundaries partition_A, .bind_boundaries partition_B]
        initial_state)).1 = .TFM_HAL_SUCCESS ∧
    (run_ops sample_config sample_drivers
      [.set_up_static_boundaries, .bind_boundaries partition_A, .bind_boundaries partition_B,
       .bind_boundaries partition_A] initial_state).n_configured_regions = 9 ∧
    ¬ (run_ops sample_config sample_drivers
      [.set_up_static_boundaries, .bind_boundaries partition_A, .bind_boundaries partition_B,
       .bind_boundaries partition_A] initial_state).n_configured_regions ≤ MPU_REGION_NUM := by
  decide

/-- C14, amended.  Nothing bounds `n_configured_regions` by `MPU_REGION_NUM`; it is
bounded by what the calls asked for.  In every state reachable from the initial state by a
sequence of `tfm_hal_set_up_static_boundaries` and `tfm_hal_bind_boundaries` calls,
successful or failed, `n_configured_regions` is at most the number of static regions times
the number of set-up calls plus the number of assets of the bound descriptors. -/
theorem counter_bounded_by_demand (P : TfmConfig) (w : TfmWorld) (ops : List Op) :
    (run_ops P w ops initial_state).n_configured_regions ≤ (ops.map (region_demand P)).sum := by
  have h := run_ops_le P w ops initial_state
  simpa [initial_state] using h

/-- C15 as stated fails.  The driver refuses the third static region (the non-secure
stack).  From the initial state `tfm_hal_set_up_static_boundaries` returns an error, and
the regions 0 and 1, which were not programmed before the call, are programmed after it;
`n_configured_regions` went from 0 to 2. -/
theorem static_setup_error_leaves_regions :
    (tfm_hal_set_up_static_boundaries sample_config ns_stack_refused initial_state).1
      = .TFM_HAL_ERROR_GENERIC ∧
    initial_state.mpu 0 = none ∧ initial_state.mpu 1 = none ∧
    (tfm_hal_set_up_static_boundaries sample_config ns_stack_refused initial_state).2.mpu 0
      ≠ none ∧
    (tfm_hal_set_up_static_boundaries sample_config ns_stack_refused initial_state).2.mpu 1
      ≠ none ∧
    initial_state.n_configured_regions = 0 ∧
    (tfm_hal_set_up_static_boundaries sample_config ns_stack_refused
      initial_state).2.n_configured_regions = 2 := by
  decide

theorem write_regions_other (l : List mpu_armv8m_region_cfg_t)
    (mpu : Nat → Option mpu_armv8m_region_cfg_t) (i : Nat)
    (h : ∀ c ∈ l, c.region_nr ≠ i) : write_regions l mpu i = mpu i := by
  induction l generalizing mpu with
  | nil => rfl
  | cons c l ih =>
    simp only [write_regions]
    rw [ih _ (fun c2 hc2 => h c2 (List.mem_cons_of_mem _ hc2))]
    have : i ≠ c.region_nr := fun e => h c (List.mem_cons_self _ _) e.symm
    simp [this]

theorem write_regions_get (l : List mpu_armv8m_region_cfg_t)
    (mpu : Nat → Option mpu_armv8m_region_cfg_t) (hl : (l.map fun c => c.region_nr).Nodup)
    (c : mpu_armv8m_region_cfg_t) (hc : c ∈ l) :
    write_regions l mpu c.region_nr = some c := by
  induction l generalizing mpu with
  | nil => cases hc
  | cons b l ih =>
    simp only [List.map_cons, List.nodup_cons, List.mem_map, not_exists, not_and] at hl
    simp only [write_regions]
    rcases List.mem_cons.mp hc with rfl | h
    · rw [write_regions_other l _ _ (fun c2 hc2 e => hl.1 c2 hc2 e)]
      simp
    · exact ih _ hl.2 h

theorem static_regions_numbers (P : TfmConfig) :
    ((static_regions P).map fun c => c.region_nr).Nodup := by
  unfold static_regions
  cases P.TFM_SP_META_PTR_ENABLE <;>
    simp [MPU_REGION_VENEERS, MPU_REGION_TFM_UNPRIV_CODE, MPU_REGION_NS_STACK,
      PARTITION_REGION_RO, PARTITION_REGION_RW_STACK, MPU_REGION_SP_META_PTR]

/-- The blocks of lines 74-162 when one of them returns: the driver accepted the regions
before a region number `k` of the list and refused that one; the accepted regions are in
the table, nothing else has changed in it, and the counter went on by `k`. -/
theorem enable_static_regions_refused (w : TfmWorld) (l : List mpu_armv8m_region_cfg_t)
    (s : TfmState) (hn : s.n_configured_regions < 4294967296)
    (hfail : (enable_static_regions w l s).1 = false) :
    ∃ k c, k < l.length ∧ l[k]? = some c ∧ w.mpu_armv8m_region_enable c = false ∧
      (∀ b ∈ l.take k, w.mpu_armv8m_region_enable b = true) ∧
      (enable_static_regions w l s).2.mpu = write_regions (l.take k) s.mpu ∧
      (enable_static_regions w l s).2.n_configured_regions =
        (s.n_configured_regions + k) % 4294967296 := by
  induction l generalizing s with
  | nil => simp [enable_static_regions] at hfail
  | cons c l ih =>
    obtain ⟨r1, r2, _, _, r5, _⟩ := region_enable_facts w c s
    by_cases h : w.mpu_armv8m_region_enable c = true
    · have hstep : enable_static_regions w (c :: l) s =
          enable_static_regions w l
            (incr_n_configured_regions (mpu_armv8m_region_enable w c s).2) := by
        simp [enable_static_regions, r1, h]
      rw [hstep] at hfail ⊢
      have hn1 : (incr_n_configured_regions
          (mpu_armv8m_region_enable w c s).2).n_configured_regions < 4294967296 :=
        Nat.mod_lt _ (by decide)
      obtain ⟨k, b, hk, hb, hr, ha, hm, hc⟩ := ih _ hn1 hfail
      refine ⟨k + 1, b, by simp only [List.length_cons]; omega, by simpa using hb, hr, ?_, ?_,
        ?_⟩
      · intro x hx
        simp only [List.take_succ_cons, List.mem_cons] at hx
        rcases hx with rfl | hx
        · exact h
        · exact ha x hx
      · rw [hm]
        simp only [List.take_succ_cons, write_regions]
        show write_regions _ (mpu_armv8m_region_enable w c s).2.mpu = _
        rw [r5, h]
        rfl
      · rw [hc]
        have e : (incr_n_configured_regions
            (mpu_armv8m_region_enable w c s).2).n_configured_regions =
            (s.n_configured_regions + 1) % 4294967296 := by
          show ((mpu_armv8m_region_enable w c s).2.n_configured_regions + 1) % 4294967296 = _
          rw [r2]
        rw [e]
        omega
    · have hf : w.mpu_armv8m_region_enable c = false := by simpa using h
      have hstep : enable_static_regions w (c :: l) s =
          (false, (mpu_armv8m_region_enable w c s).2) := by
        simp [enable_static_regions, r1, hf]
      rw [hstep]
      refine ⟨0, c, by simp, by simp, hf, by simp, ?_, ?_⟩
      · show (mpu_armv8m_region_enable w c s).2.mpu = _
        rw [r5, hf]
        rfl
      · show (mpu_armv8m_region_enable w c s).2.n_configured_regions = _
        rw [r2]
        omega

/-- C15, amended.  When `tfm_hal_set_up_static_boundaries` returns an error because
`mpc_init_cfg` or `ppc_init_cfg` failed, the MPU region table and `n_configured_regions`
are at their state before the call.  When it returns an error although both succeeded,
the MPU driver has refused one of the static regions, the one with the place `k` in the
order of the source, after accepting those before it, and nothing is rolled back:
`mpu_armv8m_clean` has run, the region table holds the `k` static regions before the
refused one under their region numbers and nothing else, and `n_configured_regions` has
grown by `k`. -/
theorem static_setup_error_state (P : TfmConfig) (w : TfmWorld) (s : TfmState)
    (hn : s.n_configured_regions < 4294967296) :
    ((w.mpc_init_cfg ≠ ARM_DRIVER_OK ∨ w.ppc_init_cfg ≠ ARM_DRIVER_OK) →
      (tfm_hal_set_up_static_boundaries P w s).1 = .TFM_HAL_ERROR_GENERIC ∧
      (tfm_hal_set_up_static_boundaries P w s).2.mpu = s.mpu ∧
      (tfm_hal_set_up_static_boundaries P w s).2.n_configured_regions =
        s.n_configured_regions) ∧
    ((tfm_hal_set_up_static_boundaries P w s).1 = .TFM_HAL_ERROR_GENERIC →
      w.mpc_init_cfg = ARM_DRIVER_OK → w.ppc_init_cfg = ARM_DRIVER_OK →
      TfmEvent.mpu_armv8m_clean ∈ (tfm_hal_set_up_static_boundaries P w s).2.trace ∧
      ∃ k c, k < (static_regions P).length ∧ (static_regions P)[k]? = some c ∧
        w.mpu_armv8m_region_enable c = false ∧
        (∀ b ∈ (static_regions P).take k, w.mpu_armv8m_region_enable b = true) ∧
        (tfm_hal_set_up_static_boundaries P w s).2.mpu =
          write_regions ((static_regions P).take k) (fun _ => none) ∧
        (∀ b ∈ (static_regions P).take k,
          (tfm_hal_set_up_static_boundaries P w s).2.mpu b.region_nr = some b) ∧
        (∀ i, (∀ b ∈ (static_regions P).take k, b.region_nr ≠ i) →
          (tfm_hal_set_up_static_boundaries P w s).2.mpu i = none) ∧
        (tfm_hal_set_up_static_boundaries P w s).2.n_configured_regions =
          (s.n_configured_regions + k) % 4294967296) := by
  unfold tfm_hal_set_up_static_boundaries
  dsimp only
  set X := ((s.emit .sau_and_idau_cfg).emit (.mpc_init_cfg w.mpc_init_cfg)).emit
    (.ppc_init_cfg w.ppc_init_cfg) with hX
  have hXn : X.n_configured_regions = s.n_configured_regions := rfl
  constructor
  · intro h
    by_cases hm : w.mpc_init_cfg = ARM_DRIVER_OK
    · have hp : w.ppc_init_cfg ≠ ARM_DRIVER_OK := by
        rcases h with h | h
        · exact absurd hm h
        · exact h
      simp only [hm, hp, ne_eq, not_true_eq_false, not_false_eq_true, if_true, if_false]
      exact ⟨trivial, rfl, rfl⟩
    · simp only [hm, ne_eq, not_false_eq_true, if_true]
      exact ⟨trivial, rfl, rfl⟩
  · intro herr hm hp
    simp only [hm, hp, ne_eq, not_true_eq_false, if_false] at herr ⊢
    by_cases hP : P.CONFIG_TFM_ENABLE_MEMORY_PROTECT = true
    · simp only [hP, if_true] at herr ⊢
      by_cases he : (enable_static_regions w (static_regions P) (mpu_armv8m_clean X)).1 = true
      · simp [he] at herr
      · simp only [he, Bool.false_eq_true, if_false]
        refine ⟨enable_static_regions_trace w _ _ _ (clean_fields X).2.2.2.2, ?_⟩
        obtain ⟨k, c, hk, hc, hr, ha, hmpu, hcnt⟩ := enable_static_regions_refused w
          (static_regions P) (mpu_armv8m_clean X)
          (by simpa [(clean_fields X).1, hXn] using hn) (by simpa using he)
        rw [(clean_fields X).2.1] at hmpu
        refine ⟨k, c, hk, hc, hr, ha, hmpu, ?_, ?_, by rw [hcnt, (clean_fields X).1, hXn]⟩
        · intro b hb
          rw [hmpu]
          exact write_regions_get _ _
            ((static_regions_numbers P).sublist
              ((List.take_sublist k (static_regions P)).map _)) b hb
        · intro i hi
          rw [hmpu]
          exact write_regions_other _ _ i hi
    · simp [hP] at herr

/-- C15, amended, at two runs: `mpc_init_cfg` fails and region table and counter are
untouched; the driver refuses the third static region, and the veneer region and the
unprivileged code region are in the table and counted. -/
theorem static_setup_error_state_witness :
    ((tfm_hal_set_up_static_boundaries sample_config mpc_fails after_static_setup).1
        = .TFM_HAL_ERROR_GENERIC ∧
      (tfm_hal_set_up_static_boundaries sample_config mpc_fails after_static_setup).2.mpu
        = after_static_setup.mpu ∧
      (tfm_hal_set_up_static_boundaries sample_config mpc_fails
        after_static_setup).2.n_configured_regions =
          after_static_setup.n_configured_regions) ∧
    (TfmEvent.mpu_armv8m_clean ∈
        (tfm_hal_set_up_static_boundaries sample_config ns_stack_refused initial_state).2.trace ∧
      ∃ k c, k < (static_regions sample_config).length ∧
        (static_regions sample_config)[k]? = some c ∧
        ns_stack_refused.mpu_armv8m_region_enable c = false ∧
        (∀ b ∈ (static_regions sample_config).take k,
          ns_stack_refused.mpu_armv8m_region_enable b = true) ∧
        (tfm_hal_set_up_static_boundaries sample_config ns_stack_refused initial_state).2.mpu =
          write_regions ((static_regions sample_config).take k) (fun _ => none) ∧
        (∀ b ∈ (static_regions sample_config).take k,
          (tfm_hal_set_up_static_boundaries sample_config ns_stack_refused
            initial_state).2.mpu b.region_nr = some b) ∧
        (∀ i, (∀ b ∈ (static_regions sample_config).take k, b.region_nr ≠ i) →
          (tfm_hal_set_up_static_boundaries sample_config ns_stack_refused
            initial_state).2.mpu i = none) ∧
        (tfm_hal_set_up_static_boundaries sample_config ns_stack_refused
          initial_state).2.n_configured_regions =
          (initial_state.n_configured_regions + k) % 4294967296) :=
  ⟨(static_setup_error_state sample_config mpc_fails after_static_setup (by decide)).1
      (Or.inl (by decide)),
    (static_setup_error_state sample_config ns_stack_refused initial_state (by decide)).2
      (by decide) (by decide) (by decide)⟩

/-- C16 as stated fails.  The partitions A and B are both unprivileged and both claim the
UART and nothing else of the peripherals; their entry points, stack sizes and data ranges
differ.  Two binds in a row after the static set-up succeed, the second one programming a
further MPU region, and both write the handle `0`: the handles are equal. -/
theorem handles_of_different_layouts_are_equal :
    is_privileged sample_config partition_A = false ∧
    is_privileged sample_config partition_B = false ∧
    partition_A.assets.filter (fun a => a.attr &&& sample_config.ASSET_ATTR_NAMED_MMIO ≠ 0)
      = [uart_asset] ∧
    partition_B.assets.filter (fun a => a.attr &&& sample_config.ASSET_ATTR_NAMED_MMIO ≠ 0)
      = [uart_asset] ∧
    partition_A.stack_size ≠ partition_B.stack_size ∧
    partition_A.entry ≠ partition_B.entry ∧
    partition_A.assets ≠ partition_B.assets ∧
    (tfm_hal_bind_boundaries sample_config sample_drivers (some partition_A) true
      after_static_setup).1 = .TFM_HAL_SUCCESS ∧
    (tfm_hal_bind_boundaries sample_config sample_drivers (some partition_B) true
      (tfm_hal_bind_boundaries sample_config sample_drivers (some partition_A) true
        after_static_setup).2.2).1 = .TFM_HAL_SUCCESS ∧
    (tfm_hal_bind_boundaries sample_config sample_drivers (some partition_A) true
      after_static_setup).2.1 = some 0 ∧
    (tfm_hal_bind_boundaries sample_config sample_drivers (some partition_B) true
      (tfm_hal_bind_boundaries sample_config sample_drivers (some partition_A) true
        after_static_setup).2.2).2.1 = some 0 := by
  decide

/-- The handle that a successful `tfm_hal_bind_boundaries` writes (line 263). -/
theorem bind_success_handle (P : TfmConfig) (w : TfmWorld) (d : partition_load_info_t)
    (s : TfmState) (h : Nat)
    (hok : (tfm_hal_bind_boundaries P w (some d) true s).1 = .TFM_HAL_SUCCESS)
    (hh : (tfm_hal_bind_boundaries P w (some d) true s).2.1 = some h) :
    h = (is_privileged P d).toNat &&& P.HANDLE_ATTR_PRIV_MASK := by
  have hb : (bind_assets P w (is_privileged P d) d.assets s).1 = true := by
    by_contra hc
    simp [tfm_hal_bind_boundaries, hc] at hok
  simp only [tfm_hal_bind_boundaries, hb, if_true, Bool.true_eq_false, if_false,
    Option.some.injEq] at hh
  exact hh.symm

/-- C16, amended.  The handle encodes the privilege only.  For two partition descriptors
A and B, bound one after the other with success: when both are unprivileged, the two
handles are equal (both are 0), whatever peripherals they claim and however their memory
layouts differ; and with bit 0 in `HANDLE_ATTR_PRIV_MASK` the two handles are equal
exactly when the privilege of A and B is equal. -/
theorem handles_encode_privilege_only (P : TfmConfig) (w : TfmWorld)
    (dA dB : partition_load_info_t) (s : TfmState) (hA hB : Nat)
    (hokA : (tfm_hal_bind_boundaries P w (some dA) true s).1 = .TFM_HAL_SUCCESS)
    (hhA : (tfm_hal_bind_boundaries P w (some dA) true s).2.1 = some hA)
    (hokB : (tfm_hal_bind_boundaries P w (some dB) true
      (tfm_hal_bind_boundaries P w (some dA) true s).2.2).1 = .TFM_HAL_SUCCESS)
    (hhB : (tfm_hal_bind_boundaries P w (some dB) true
      (tfm_hal_bind_boundaries P w (some dA) true s).2.2).2.1 = some hB) :
    (is_privileged P dA = false → is_privileged P dB = false →
      hA = 0 ∧ hB = 0 ∧ hA = hB) ∧
    (is_privileged P dA = is_privileged P dB → hA = hB) ∧
    (P.HANDLE_ATTR_PRIV_MASK % 2 = 1 →
      (hA = hB ↔ is_privileged P dA = is_privileged P dB)) := by
  have eA := bind_success_handle P w dA s hA hokA hhA
  have eB := bind_success_handle P w dB _ hB hokB hhB
  refine ⟨?_, ?_, ?_⟩
  · intro pA pB
    rw [pA] at eA
    rw [pB] at eB
    have zA : hA = 0 := by simpa using eA
    have zB : hB = 0 := by simpa using eB
    exact ⟨zA, zB, zA.trans zB.symm⟩
  · intro hp
    rw [eA, eB, hp]
  · intro hmask
    have h1 : (1 : Nat) &&& P.HANDLE_ATTR_PRIV_MASK = 1 := by
      rw [Nat.one_and_eq_mod_two, hmask]
    constructor
    · intro he
      rw [eA, eB] at he
      cases hpA : is_privileged P dA <;> cases hpB : is_privileged P dB <;>
        simp [hpA, hpB, h1] at he ⊢
    · intro hp
      rw [eA, eB, hp]

/-- C16, amended, at the partitions A and B after the static set-up: both binds succeed,
both partitions are unprivileged, their asset lists differ, and both handles are 0. -/
theorem handles_encode_privilege_only_witness :
    (tfm_hal_bind_boundaries sample_config sample_drivers (some partition_A) true
      after_static_setup).1 = .TFM_HAL_SUCCESS ∧
    (tfm_hal_bind_boundaries sample_config sample_drivers (some partition_A) true
      after_static_setup).2.1 = some 0 ∧
    (tfm_hal_bind_boundaries sample_config sample_drivers (some partition_B) true
      (tfm_hal_bind_boundaries sample_config sample_drivers (some partition_A) true
        after_static_setup).2.2).1 = .TFM_HAL_SUCCESS ∧
    (tfm_hal_bind_boundaries sample_config sample_drivers (some partition_B) true
      (tfm_hal_bind_boundaries sample_config sample_drivers (some partition_A) true
        after_static_setup).2.2).2.1 = some 0 ∧
    partition_A.assets ≠ partition_B.assets ∧
    is_privileged sample_config partition_A = false ∧
    is_privileged sample_config partition_B = false ∧
    ((0 : Nat) = 0 ↔
      is_privileged sample_config partition_A = is_privileged sample_config partition_B) :=
  ⟨by decide, by decide, by decide, by decide, by decide, by decide, by decide,
    (handles_encode_privilege_only sample_config sample_drivers partition_A partition_B
      after_static_setup 0 0 (by decide) (by decide) (by decide) (by decide)).2.2
      (by decide)⟩

/-- C17.  At an isolation level other than 1, with bit 0 in `HANDLE_ATTR_PRIV_MASK`: for
every partition descriptor on which `tfm_hal_bind_boundaries` succeeds, the handle it
writes is `1` when the flags of the descriptor have `PARTITION_MODEL_PSA_ROT` set and `0`
otherwise, so the privilege read back from the handle (`handle & HANDLE_ATTR_PRIV_MASK`
not zero) is elevated if and only if the flag is set; and two descriptors that agree on
that flag get the same handle, whatever their other fields, their assets, the drivers and
the state. -/
theorem handle_privilege_follows_psa_rot_flag (P : TfmConfig) (hlvl : P.TFM_LVL ≠ 1)
    (hmask : P.HANDLE_ATTR_PRIV_MASK % 2 = 1)
    (w : TfmWorld) (d : partition_load_info_t) (s : TfmState) (h : Nat)
    (hok : (tfm_hal_bind_boundaries P w (some d) true s).1 = .TFM_HAL_SUCCESS)
    (hh : (tfm_hal_bind_boundaries P w (some d) true s).2.1 = some h) :
    h = (if d.flags &&& P.PARTITION_MODEL_PSA_ROT ≠ 0 then 1 else 0) ∧
    (h &&& P.HANDLE_ATTR_PRIV_MASK ≠ 0 ↔ d.flags &&& P.PARTITION_MODEL_PSA_ROT ≠ 0) ∧
    (∀ (w2 : TfmWorld) (d2 : partition_load_info_t) (s2 : TfmState) (h2 : Nat),
      (tfm_hal_bind_boundaries P w2 (some d2) true s2).1 = .TFM_HAL_SUCCESS →
      (tfm_hal_bind_boundaries P w2 (some d2) true s2).2.1 = some h2 →
      (d2.flags &&& P.PARTITION_MODEL_PSA_ROT ≠ 0 ↔ d.flags &&& P.PARTITION_MODEL_PSA_ROT ≠ 0) →
      h2 = h) := by
  have h1 : (1 : Nat) &&& P.HANDLE_ATTR_PRIV_MASK = 1 := by
    rw [Nat.one_and_eq_mod_two, hmask]
  have key : ∀ (w : TfmWorld) (d : partition_load_info_t) (s : TfmState) (h : Nat),
      (tfm_hal_bind_boundaries P w (some d) true s).1 = .TFM_HAL_SUCCESS →
      (tfm_hal_bind_boundaries P w (some d) true s).2.1 = some h →
      h = (if d.flags &&& P.PARTITION_MODEL_PSA_ROT ≠ 0 then 1 else 0) := by
    intro w d s h hok hh
    simp only [tfm_hal_bind_boundaries] at hok hh
    by_cases hb : (bind_assets P w (is_privileged P d) d.assets s).1 = true
    · simp only [hb, if_true, Bool.true_eq_false, if_false, Option.some.injEq] at hh
      rw [← hh]
      by_cases hf : d.flags &&& P.PARTITION_MODEL_PSA_ROT = 0
      · simp [is_privileged, hlvl, hf]
      · simp [is_privileged, hlvl, hf, h1]
    · simp [hb] at hok
  have hval := key w d s h hok hh
  refine ⟨hval, ?_, ?_⟩
  · rw [hval]
    by_cases hf : d.flags &&& P.PARTITION_MODEL_PSA_ROT = 0
    · simp [hf]
    · simp [hf, h1]
  · intro w2 d2 s2 h2 hok2 hh2 hiff
    rw [hval, key w2 d2 s2 h2 hok2 hh2]
    by_cases hf : d.flags &&& P.PARTITION_MODEL_PSA_ROT = 0
    · have : d2.flags &&& P.PARTITION_MODEL_PSA_ROT = 0 := by
        by_contra hc
        exact (hiff.mp hc) hf
      simp [hf, this]
    · have : d2.flags &&& P.PARTITION_MODEL_PSA_ROT ≠ 0 := hiff.mpr hf
      simp [hf, this]

/-- C17, at the partition A (application root of trust: handle 0) and at a partition with
the `PARTITION_MODEL_PSA_ROT` flag (handle 1). -/
theorem handle_privilege_follows_psa_rot_flag_witness :
    (0 = (if partition_A.flags &&& sample_config.PARTITION_MODEL_PSA_ROT ≠ 0 then 1 else 0) ∧
      ((0 : Nat) &&& sample_config.HANDLE_ATTR_PRIV_MASK ≠ 0 ↔
        partition_A.flags &&& sample_config.PARTITION_MODEL_PSA_ROT ≠ 0)) ∧
    (1 = (if ({ partition_A with flags := 0x300 } : partition_load_info_t).flags
        &&& sample_config.PARTITION_MODEL_PSA_ROT ≠ 0 then 1 else 0) ∧
      ((1 : Nat) &&& sample_config.HANDLE_ATTR_PRIV_MASK ≠ 0 ↔
        ({ partition_A with flags := 0x300 } : partition_load_info_t).flags
          &&& sample_config.PARTITION_MODEL_PSA_ROT ≠ 0)) :=
  ⟨⟨(handle_privilege_follows_psa_rot_flag sample_config (by decide) (by decide)
        sample_drivers partition_A after_static_setup 0 (by decide) (by decide)).1,
      (handle_privilege_follows_psa_rot_flag sample_config (by decide) (by decide)
        sample_drivers partition_A after_static_setup 0 (by decide) (by decide)).2.1⟩,
    ⟨(handle_privilege_follows_psa_rot_flag sample_config (by decide) (by decide)
        sample_drivers { partition_A with flags := 0x300 } after_static_setup 1 (by decide)
        (by decide)).1,
      (handle_privilege_follows_psa_rot_flag sample_config (by decide) (by decide)
        sample_drivers { partition_A with flags := 0x300 } after_static_setup 1 (by decide)
        (by decide)).2.1⟩⟩

/-- C18.  `tfm_hal_update_boundaries` always returns `TFM_HAL_SUCCESS`; its result does not
depend on `p_ldinf`; it changes `CONTROL` only, to a value that depends on the handle and
on the prior `CONTROL` only; and a second call with the same handle writes the same
`CONTROL` value again and leaves the registers as the first call left them. -/
theorem update_boundaries_is_deterministic (P : TfmConfig)
    (p1 p2 : Option partition_load_info_t) (h : Nat) (s : TfmState) :
    tfm_hal_update_boundaries P p1 h s = tfm_hal_update_boundaries P p2 h s ∧
    (tfm_hal_update_boundaries P p1 h s).1 = .TFM_HAL_SUCCESS ∧
    (tfm_hal_update_boundaries P p1 h s).2.CONTROL =
      s.CONTROL / 2 * 2 + (if h &&& P.HANDLE_ATTR_PRIV_MASK ≠ 0 then 0 else 1) ∧
    ((tfm_hal_update_boundaries P p1 h s).2.n_configured_regions = s.n_configured_regions ∧
      (tfm_hal_update_boundaries P p1 h s).2.mpu = s.mpu ∧
      (tfm_hal_update_boundaries P p1 h s).2.mpu_enabled = s.mpu_enabled ∧
      (tfm_hal_update_boundaries P p1 h s).2.ppc = s.ppc) ∧
    ((tfm_hal_update_boundaries P p1 h (tfm_hal_update_boundaries P p1 h s).2).1
        = .TFM_HAL_SUCCESS ∧
      (tfm_hal_update_boundaries P p1 h (tfm_hal_update_boundaries P p1 h s).2).2.CONTROL
        = (tfm_hal_update_boundaries P p1 h s).2.CONTROL ∧
      (tfm_hal_update_boundaries P p1 h
        (tfm_hal_update_boundaries P p1 h s).2).2.n_configured_regions
        = (tfm_hal_update_boundaries P p1 h s).2.n_configured_regions ∧
      (tfm_hal_update_boundaries P p1 h (tfm_hal_update_boundaries P p1 h s).2).2.mpu
        = (tfm_hal_update_boundaries P p1 h s).2.mpu ∧
      (tfm_hal_update_boundaries P p1 h (tfm_hal_update_boundaries P p1 h s).2).2.mpu_enabled
        = (tfm_hal_update_boundaries P p1 h s).2.mpu_enabled ∧
      (tfm_hal_update_boundaries P p1 h (tfm_hal_update_boundaries P p1 h s).2).2.ppc
        = (tfm_hal_update_boundaries P p1 h s).2.ppc ∧
      (tfm_hal_update_boundaries P p1 h (tfm_hal_update_boundaries P p1 h s).2).2.trace
        = (tfm_hal_update_boundaries P p1 h s).2.trace
          ++ [.set_CONTROL (tfm_hal_update_boundaries P p1 h s).2.CONTROL]) := by
  refine ⟨rfl, rfl, ?_, ⟨rfl, rfl, rfl, rfl⟩, ?_⟩
  · by_cases hp : h &&& P.HANDLE_ATTR_PRIV_MASK = 0 <;> simp [tfm_hal_update_boundaries, hp]
  · have hc : (tfm_hal_update_boundaries P p1 h (tfm_hal_update_boundaries P p1 h s).2).2.CONTROL
        = (tfm_hal_update_boundaries P p1 h s).2.CONTROL := by
      by_cases hp : h &&& P.HANDLE_ATTR_PRIV_MASK = 0
      · simp only [tfm_hal_update_boundaries, hp, ne_eq, not_true_eq_false, decide_False,
          Bool.false_eq_true, if_false]
        omega
      · simp only [tfm_hal_update_boundaries, hp, ne_eq, not_false_eq_true, decide_True,
          if_true]
        omega
    refine ⟨rfl, hc, rfl, rfl, rfl, rfl, ?_⟩
    show _ ++ [TfmEvent.set_CONTROL _] = _ ++ [TfmEvent.set_CONTROL _]
    exact congrArg (fun c => _ ++ [TfmEvent.set_CONTROL c]) hc

theorem region_calls_append (t u : List TfmEvent) :
    region_calls (t ++ u) = region_calls t ++ region_calls u := by
  simp [region_calls, List.filterMap_append]

theorem configure_ppc_region_calls (P : TfmConfig) (privileged : Bool) (pd : platform_data_t)
    (s : TfmState) :
    region_calls (configure_ppc P privileged pd s).trace = region_calls s.trace := by
  unfold configure_ppc
  by_cases h : pd.periph_ppc_bank = P.PPC_SP_DO_NOT_CONFIGURE <;> cases privileged <;>
    simp [h, ppc_configure_to_secure, ppc_clr_secure_unpriv, ppc_en_secure_unpriv,
      region_calls, List.filterMap_append]

theorem mmio_regions_length (P : TfmConfig) (l : List asset_desc_t) (n : Nat) :
    (mmio_regions P l n).length = l.length := by
  induction l generalizing n with
  | nil => rfl
  | cons a l ih => simp [mmio_regions, ih]

theorem mmio_regions_get (P : TfmConfig) (l : List asset_desc_t) (n i : Nat)
    (a : asset_desc_t) (hn : n < 4294967296) (h : l[i]? = some a) :
    (mmio_regions P l n)[i]? =
      some (mmio_region_cfg (P.platform_data a.dev_ref) ((n + i) % 4294967296)) := by
  induction l generalizing n i with
  | nil => simp at h
  | cons b l ih =>
    cases i with
    | zero =>
      simp only [List.getElem?_cons_zero, Option.some.injEq] at h
      simp [mmio_regions, h, Nat.mod_eq_of_lt hn]
    | succ i =>
      simp only [List.getElem?_cons_succ] at h
      simp only [mmio_regions, List.getElem?_cons_succ]
      rw [ih ((n + 1) % 4294967296) i (Nat.mod_lt _ (by decide)) h]
      congr 2
      omega

/-- One round of the bind loop for a named MMIO asset of an unprivileged partition at
level 2, when the round does not return: the device is allowed, the driver accepted one
region for it under the number `n_configured_regions`, and the counter went on by one. -/
theorem bind_asset_unprivileged (P : TfmConfig) (w : TfmWorld) (hlvl : P.TFM_LVL = 2)
    (a : asset_desc_t) (s : TfmState) (hnamed : a.attr &&& P.ASSET_ATTR_NAMED_MMIO ≠ 0)
    (hok : (bind_asset P w false a s).1 = true) :
    a.dev_ref ∈ P.partition_named_mmio_list ∧
    region_calls (bind_asset P w false a s).2.trace = region_calls s.trace ++
      [(mmio_region_cfg (P.platform_data a.dev_ref) s.n_configured_regions, true)] ∧
    (bind_asset P w false a s).2.n_configured_regions =
      (s.n_configured_regions + 1) % 4294967296 ∧
    (bind_asset P w false a s).2.mpu = (fun i => if i = s.n_configured_regions then
      some (mmio_region_cfg (P.platform_data a.dev_ref) s.n_configured_regions)
      else s.mpu i) := by
  by_cases h2 : a.dev_ref ∈ P.partition_named_mmio_list
  · obtain ⟨c1, c2, _, _⟩ := configure_ppc_fields P false (P.platform_data a.dev_ref) s
    have hc := configure_ppc_region_calls P false (P.platform_data a.dev_ref) s
    have hb : bind_asset P w false a s =
        mpu_armv8m_region_enable w
          (mmio_region_cfg (P.platform_data a.dev_ref) s.n_configured_regions)
          (incr_n_configured_regions (configure_ppc P false (P.platform_data a.dev_ref) s)) := by
      simp [bind_asset, hnamed, h2, hlvl, c1]
    rw [hb] at hok ⊢
    obtain ⟨r1, r2, _, _, r5, r6⟩ := region_enable_facts w
      (mmio_region_cfg (P.platform_data a.dev_ref) s.n_configured_regions)
      (incr_n_configured_regions (configure_ppc P false (P.platform_data a.dev_ref) s))
    rw [r1] at hok
    refine ⟨h2, ?_, ?_, ?_⟩
    · rw [r6, region_calls_append, hok]
      show region_calls (configure_ppc P false (P.platform_data a.dev_ref) s).trace ++ _ = _
      rw [hc]
      rfl
    · rw [r2]
      show ((configure_ppc P false (P.platform_data a.dev_ref) s).n_configured_regions + 1)
        % 4294967296 = _
      rw [c1]
    · rw [r5, hok]
      show (fun i => if i = _ then _ else
        (configure_ppc P false (P.platform_data a.dev_ref) s).mpu i) = _
      rw [c2]
      rfl
  · rw [bind_asset_disallowed P w false a s hnamed h2] at hok
    simp at hok

/-- The bind loop of an unprivileged partition at level 2, when it runs to its end: every
named MMIO asset is allowed, the driver was called once per named MMIO asset and accepted
each region, and the counter went on by their number. -/
theorem bind_assets_unprivileged (P : TfmConfig) (w : TfmWorld) (hlvl : P.TFM_LVL = 2)
    (l : List asset_desc_t) (s : TfmState) (hn : s.n_configured_regions < 4294967296)
    (hok : (bind_assets P w false l s).1 = true) :
    (∀ a ∈ l, a.attr &&& P.ASSET_ATTR_NAMED_MMIO ≠ 0 →
      a.dev_ref ∈ P.partition_named_mmio_list) ∧
    region_calls (bind_assets P w false l s).2.trace = region_calls s.trace ++
      (mmio_regions P (l.filter fun a => decide (a.attr &&& P.ASSET_ATTR_NAMED_MMIO ≠ 0))
        s.n_configured_regions).map (fun c => (c, true)) ∧
    (bind_assets P w false l s).2.n_configured_regions =
      (s.n_configured_regions +
        (l.filter fun a => decide (a.attr &&& P.ASSET_ATTR_NAMED_MMIO ≠ 0)).length)
        % 4294967296 := by
  induction l generalizing s with
  | nil =>
    refine ⟨fun a ha => (by cases ha), ?_, ?_⟩
    · simp [bind_assets, mmio_regions]
    · simp [bind_assets, Nat.mod_eq_of_lt hn]
  | cons a l ih =>
    have h1 : (bind_asset P w false a s).1 = true := by
      by_contra hc
      simp [bind_assets, hc] at hok
    have hrest : (bind_assets P w false l (bind_asset P w false a s).2).1 = true := by
      simpa [bind_assets, h1] using hok
    have hstep : bind_assets P w false (a :: l) s =
        bind_assets P w false l (bind_asset P w false a s).2 := by
      simp [bind_assets, h1]
    rw [hstep]
    by_cases hnamed : a.attr &&& P.ASSET_ATTR_NAMED_MMIO = 0
    · have hb := bind_asset_not_named P w false a s hnamed
      rw [hb] at hrest ⊢
      obtain ⟨i1, i2, i3⟩ := ih s hn hrest
      refine ⟨?_, ?_, ?_⟩
      · intro b hb2 hbn
        rcases List.mem_cons.mp hb2 with rfl | hb3
        · exact absurd hnamed hbn
        · exact i1 b hb3 hbn
      · simpa [List.filter_cons, hnamed] using i2
      · simpa [List.filter_cons, hnamed] using i3
    · obtain ⟨a1, a2, a3, _⟩ := bind_asset_unprivileged P w hlvl a s hnamed h1
      have hn1 : (bind_asset P w false a s).2.n_configured_regions < 4294967296 := by
        rw [a3]
        exact Nat.mod_lt _ (by decide)
      obtain ⟨i1, i2, i3⟩ := ih (bind_asset P w false a s).2 hn1 hrest
      refine ⟨?_, ?_, ?_⟩
      · intro b hb2 hbn
        rcases List.mem_cons.mp hb2 with rfl | hb3
        · exact a1
        · exact i1 b hb3 hbn
      · rw [i2, a2, a3]
        simp [List.filter_cons, hnamed, mmio_regions]
      · rw [i3, a3]
        simp only [List.filter_cons, hnamed, ne_eq, not_false_eq_true, decide_True, if_true,
          List.length_cons]
        omega

/-- The region table after the bind loop of an unprivileged partition at level 2 that ran
to its end, when the counter does not wrap around: the region of the `i`-th named MMIO
asset stands under the number `n_configured_regions + i`, and the other numbers are as
before. -/
theorem bind_assets_unprivileged_table (P : TfmConfig) (w : TfmWorld) (hlvl : P.TFM_LVL = 2)
    (l : List asset_desc_t) (s : TfmState)
    (hfit : s.n_configured_regions +
      (l.filter fun a => decide (a.attr &&& P.ASSET_ATTR_NAMED_MMIO ≠ 0)).length < 4294967296)
    (hok : (bind_assets P w false l s).1 = true) :
    (∀ i a, (l.filter fun a => decide (a.attr &&& P.ASSET_ATTR_NAMED_MMIO ≠ 0))[i]? = some a →
      (bind_assets P w false l s).2.mpu (s.n_configured_regions + i) =
        some (mmio_region_cfg (P.platform_data a.dev_ref) (s.n_configured_regions + i))) ∧
    (∀ j, j < s.n_configured_regions ∨ s.n_configured_regions +
        (l.filter fun a => decide (a.attr &&& P.ASSET_ATTR_NAMED_MMIO ≠ 0)).length ≤ j →
      (bind_assets P w false l s).2.mpu j = s.mpu j) := by
  induction l generalizing s with
  | nil =>
    refine ⟨fun i a h => ?_, fun j _ => rfl⟩
    simp at h
  | cons a l ih =>
    have h1 : (bind_asset P w false a s).1 = true := by
      by_contra hc
      simp [bind_assets, hc] at hok
    have hrest : (bind_assets P w false l (bind_asset P w false a s).2).1 = true := by
      simpa [bind_assets, h1] using hok
    have hstep : bind_assets P w false (a :: l) s =
        bind_assets P w false l (bind_asset P w false a s).2 := by
      simp [bind_assets, h1]
    rw [hstep]
    by_cases hnamed : a.attr &&& P.ASSET_ATTR_NAMED_MMIO = 0
    · have hb := bind_asset_not_named P w false a s hnamed
      rw [hb] at hrest ⊢
      have hf : ((a :: l).filter fun a => decide (a.attr &&& P.ASSET_ATTR_NAMED_MMIO ≠ 0)) =
          (l.filter fun a => decide (a.attr &&& P.ASSET_ATTR_NAMED_MMIO ≠ 0)) := by
        simp [List.filter_cons, hnamed]
      rw [hf] at hfit ⊢
      exact ih s hfit hrest
    · obtain ⟨_, _, a3, a4⟩ := bind_asset_unprivileged P w hlvl a s hnamed h1
      have hf : ((a :: l).filter fun a => decide (a.attr &&& P.ASSET_ATTR_NAMED_MMIO ≠ 0)) =
          a :: (l.filter fun a => decide (a.attr &&& P.ASSET_ATTR_NAMED_MMIO ≠ 0)) := by
        simp [List.filter_cons, hnamed]
      rw [hf] at hfit ⊢
      simp only [List.length_cons] at hfit ⊢
      have hn1 : (bind_asset P w false a s).2.n_configured_regions =
          s.n_configured_regions + 1 := by
        rw [a3]
        exact Nat.mod_eq_of_lt (by omega)
      obtain ⟨i1, i2⟩ := ih (bind_asset P w false a s).2 (by rw [hn1]; omega) hrest
      rw [hn1] at i1 i2
      refine ⟨?_, ?_⟩
      · intro i b hi
        cases i with
        | zero =>
          simp only [List.getElem?_cons_zero, Option.some.injEq] at hi
          rw [i2 _ (Or.inl (by omega)), a4, ← hi]
          simp
        | succ i =>
          simp only [List.getElem?_cons_succ] at hi
          have := i1 i b hi
          rw [show s.n_configured_regions + (i + 1) = s.n_configured_regions + 1 + i by omega]
          exact this
      · intro j hj
        rw [i2 j (by omega), a4]
        have : j ≠ s.n_configured_regions := by omega
        simp [this]

/-- The bind loop of a privileged partition calls the MPU driver for no region and leaves
the region table and the counter as they are. -/
theorem bind_assets_privileged (P : TfmConfig) (w : TfmWorld) (l : List asset_desc_t)
    (s : TfmState) :
    region_calls (bind_assets P w true l s).2.trace = region_calls s.trace ∧
    (bind_assets P w true l s).2.mpu = s.mpu ∧
    (bind_assets P w true l s).2.n_configured_regions = s.n_configured_regions := by
  induction l generalizing s with
  | nil => exact ⟨rfl, rfl, rfl⟩
  | cons a l ih =>
    have ha : region_calls (bind_asset P w true a s).2.trace = region_calls s.trace ∧
        (bind_asset P w true a s).2.mpu = s.mpu ∧
        (bind_asset P w true a s).2.n_configured_regions = s.n_configured_regions := by
      obtain ⟨c1, c2, _, _⟩ := configure_ppc_fields P true (P.platform_data a.dev_ref) s
      rcases bind_asset_cases P w true a s with h | h | h | ⟨_, _, _, h, _⟩
      · rw [h]; exact ⟨rfl, rfl, rfl⟩
      · rw [h]; exact ⟨rfl, rfl, rfl⟩
      · rw [h]; exact ⟨configure_ppc_region_calls P true _ s, c2, c1⟩
      · simp at h
    simp only [bind_assets]
    by_cases h : (bind_asset P w true a s).1 = true
    · simp only [h, if_true]
      obtain ⟨i1, i2, i3⟩ := ih (bind_asset P w true a s).2
      exact ⟨i1.trans ha.1, i2.trans ha.2.1, i3.trans ha.2.2⟩
    · simp only [h, Bool.false_eq_true, if_false]
      exact ha

/-- C21.  At isolation level 2, when `tfm_hal_bind_boundaries` succeeds, every named MMIO
asset of the descriptor is allowed.  For an unprivileged partition with `k` named MMIO
assets the MPU driver is called exactly `k` times more, once per named MMIO asset in
their order, and accepts every call; the `i`-th call has the region number
`n_configured_regions + i` (a `uint32_t`), the window `periph_start .. periph_limit` of
that peripheral, device memory, read-write for privileged and unprivileged code, not
shared, execute-never; `n_configured_regions` grows by `k`; and when the counter does not
wrap around, these `k` regions stand in the region table under the numbers
`n_configured_regions .. n_configured_regions + k - 1` and the other regions are as before.
For a privileged partition the MPU driver is not called, and the region table and
`n_configured_regions` are unchanged. -/
theorem bind_programs_one_region_per_peripheral (P : TfmConfig) (w : TfmWorld)
    (d : partition_load_info_t) (s : TfmState) (hlvl : P.TFM_LVL = 2)
    (hn : s.n_configured_regions < 4294967296)
    (hok : (tfm_hal_bind_boundaries P w (some d) true s).1 = .TFM_HAL_SUCCESS) :
    (∀ a ∈ named_mmio_assets P d, a.dev_ref ∈ P.partition_named_mmio_list) ∧
    (is_privileged P d = false →
      region_calls (tfm_hal_bind_boundaries P w (some d) true s).2.2.trace =
        region_calls s.trace ++
          (mmio_regions P (named_mmio_assets P d) s.n_configured_regions).map
            (fun c => (c, true)) ∧
      (mmio_regions P (named_mmio_assets P d) s.n_configured_regions).length =
        (named_mmio_assets P d).length ∧
      (∀ (i : Nat) (a : asset_desc_t), (named_mmio_assets P d)[i]? = some a →
        (mmio_regions P (named_mmio_assets P d) s.n_configured_regions)[i]? =
          some ({ region_nr := (s.n_configured_regions + i) % 4294967296
                  region_base := (P.platform_data a.dev_ref).periph_start
                  region_limit := (P.platform_data a.dev_ref).periph_limit
                  region_attridx := .MPU_ARMV8M_MAIR_ATTR_DEVICE_IDX
                  attr_access := .MPU_ARMV8M_AP_RW_PRIV_UNPRIV
                  attr_sh := .MPU_ARMV8M_SH_NONE
                  attr_exec := .MPU_ARMV8M_XN_EXEC_NEVER } : mpu_armv8m_region_cfg_t)) ∧
      (tfm_hal_bind_boundaries P w (some d) true s).2.2.n_configured_regions =
        (s.n_configured_regions + (named_mmio_assets P d).length) % 4294967296 ∧
      (s.n_configured_regions + (named_mmio_assets P d).length < 4294967296 →
        (tfm_hal_bind_boundaries P w (some d) true s).2.2.n_configured_regions =
          s.n_configured_regions + (named_mmio_assets P d).length ∧
        (∀ (i : Nat) (a : asset_desc_t), (named_mmio_assets P d)[i]? = some a →
          (tfm_hal_bind_boundaries P w (some d) true s).2.2.mpu (s.n_configured_regions + i) =
            some (mmio_region_cfg (P.platform_data a.dev_ref) (s.n_configured_regions + i))) ∧
        (∀ j, j < s.n_configured_regions ∨
            s.n_configured_regions + (named_mmio_assets P d).length ≤ j →
          (tfm_hal_bind_boundaries P w (some d) true s).2.2.mpu j = s.mpu j))) ∧
    (is_privileged P d = true →
      region_calls (tfm_hal_bind_boundaries P w (some d) true s).2.2.trace =
        region_calls s.trace ∧
      (tfm_hal_bind_boundaries P w (some d) true s).2.2.mpu = s.mpu ∧
      (tfm_hal_bind_boundaries P w (some d) true s).2.2.n_configured_regions =
        s.n_configured_regions) := by
  have hb : (bind_assets P w (is_privileged P d) d.assets s).1 = true := by
    by_contra hc
    simp [tfm_hal_bind_boundaries, hc] at hok
  have hst : (tfm_hal_bind_boundaries P w (some d) true s).2.2 =
      (bind_assets P w (is_privileged P d) d.assets s).2 := by
    simp [tfm_hal_bind_boundaries, hb]
  rw [hst]
  have hall : ∀ a ∈ named_mmio_assets P d, a.dev_ref ∈ P.partition_named_mmio_list := by
    intro a ha
    obtain ⟨ha1, ha2⟩ := List.mem_filter.mp ha
    have hnamed : a.attr &&& P.ASSET_ATTR_NAMED_MMIO ≠ 0 := by simpa using ha2
    by_contra hnot
    obtain ⟨pre, post, hsplit⟩ := List.append_of_mem ha1
    have key : bind_assets P w (is_privileged P d) d.assets s =
        (false, (bind_assets P w (is_privileged P d) pre s).2) := by
      rw [hsplit, bind_assets_append]
      by_cases h : (bind_assets P w (is_privileged P d) pre s).1 = true
      · simp only [h, if_true, bind_assets,
          bind_asset_disallowed P w (is_privileged P d) a _ hnamed hnot]
        simp
      · simp [h]
    rw [key] at hb
    simp at hb
  refine ⟨hall, ?_, ?_⟩
  · intro hp
    rw [hp] at hb ⊢
    obtain ⟨_, u2, u3⟩ := bind_assets_unprivileged P w hlvl d.assets s hn hb
    refine ⟨u2, mmio_regions_length P _ _, ?_, u3, ?_⟩
    · intro i a hi
      rw [mmio_regions_get P _ _ i a hn hi]
      rfl
    · intro hfit
      obtain ⟨t1, t2⟩ := bind_assets_unprivileged_table P w hlvl d.assets s hfit hb
      refine ⟨?_, t1, t2⟩
      rw [u3]
      exact Nat.mod_eq_of_lt hfit
  · intro hp
    rw [hp]
    exact bind_assets_privileged P w d.assets s

/-- C21, at the partition C after the static set-up: two named MMIO assets, the UART and
the timer, get the regions 6 and 7 and the counter goes from 6 to 8. -/
theorem bind_programs_one_region_per_peripheral_witness :
    region_calls (tfm_hal_bind_boundaries sample_config sample_drivers (some partition_C) true
        after_static_setup).2.2.trace =
      region_calls after_static_setup.trace ++
        (mmio_regions sample_config (named_mmio_assets sample_config partition_C)
          after_static_setup.n_configured_regions).map (fun c => (c, true)) ∧
    (tfm_hal_bind_boundaries sample_config sample_drivers (some partition_C) true
        after_static_setup).2.2.n_configured_regions =
      after_static_setup.n_configured_regions +
        (named_mmio_assets sample_config partition_C).length ∧
    named_mmio_assets sample_config partition_C = [uart_asset, timer_asset] ∧
    after_static_setup.n_configured_regions = 6 :=
  ⟨((bind_programs_one_region_per_peripheral sample_config sample_drivers partition_C
      after_static_setup (by decide) (by decide) (by decide)).2.1 (by decide)).1,
    (((bind_programs_one_region_per_peripheral sample_config sample_drivers partition_C
      after_static_setup (by decide) (by decide) (by decide)).2.1 (by decide)).2.2.2.2
        (by decide)).1,
    by decide, by decide⟩

/-- C22, the failing input.  On the sample build, with `TFM_SP_META_PTR_ENABLE`, the static
set-up succeeds, programs the regions 0, 1, 2, 3, 4 and 7 and leaves
`n_configured_regions = 6`.  The bind of partition A then takes the region number 6 and the
bind of partition B the region number 7, which is `MPU_REGION_SP_META_PTR`: both binds
succeed, and region 7, which held the partition metadata pointer range, holds the window of
the UART afterwards. -/
theorem dynamic_region_overwrites_static_region :
    sample_config.TFM_SP_META_PTR_ENABLE = true ∧
    (tfm_hal_set_up_static_boundaries sample_config sample_drivers initial_state).1
      = .TFM_HAL_SUCCESS ∧
    (region_calls after_static_setup.trace).map (fun c => (c.1.region_nr, c.2)) =
      [(0, true), (1, true), (2, true), (3, true), (4, true), (MPU_REGION_SP_META_PTR, true)] ∧
    after_static_setup.n_configured_regions = 6 ∧
    after_static_setup.mpu MPU_REGION_SP_META_PTR =
      some { region_nr := MPU_REGION_SP_META_PTR
             region_base := sample_config.TFM_SP_META_PTR_RW_Base
             region_limit := sample_config.TFM_SP_META_PTR_RW_Limit
             region_attridx := .MPU_ARMV8M_MAIR_ATTR_DATA_IDX
             attr_access := .MPU_ARMV8M_AP_RW_PRIV_UNPRIV
             attr_sh := .MPU_ARMV8M_SH_NONE
             attr_exec := .MPU_ARMV8M_XN_EXEC_NEVER } ∧
    (tfm_hal_bind_boundaries sample_config sample_drivers (some partition_A) true
      after_static_setup).1 = .TFM_HAL_SUCCESS ∧
    (tfm_hal_bind_boundaries sample_config sample_drivers (some partition_B) true
      (tfm_hal_bind_boundaries sample_config sample_drivers (some partition_A) true
        after_static_setup).2.2).1 = .TFM_HAL_SUCCESS ∧
    (region_calls (tfm_hal_bind_boundaries sample_config sample_drivers (some partition_B) true
      (tfm_hal_bind_boundaries sample_config sample_drivers (some partition_A) true
        after_static_setup).2.2).2.2.trace).map (fun c => (c.1.region_nr, c.2)) =
      [(0, true), (1, true), (2, true), (3, true), (4, true), (7, true), (6, true), (7, true)] ∧
    (tfm_hal_bind_boundaries sample_config sample_drivers (some partition_B) true
      (tfm_hal_bind_boundaries sample_config sample_drivers (some partition_A) true
        after_static_setup).2.2).2.2.mpu MPU_REGION_SP_META_PTR =
      some (mmio_region_cfg (sample_config.platform_data sample_uart_ref) 7) ∧
    (tfm_hal_bind_boundaries sample_config sample_drivers (some partition_B) true
      (tfm_hal_bind_boundaries sample_config sample_drivers (some partition_A) true
        after_static_setup).2.2).2.2.mpu MPU_REGION_SP_META_PTR ≠
      after_static_setup.mpu MPU_REGION_SP_META_PTR := by
  decide

/-- C24.  With bit 0 in `HANDLE_ATTR_PRIV_MASK`: for every partition descriptor on which
`tfm_hal_bind_boundaries` succeeds with the handle `h`, `tfm_hal_update_boundaries` called
with `h`, in whatever state and for whatever `p_ldinf`, returns `TFM_HAL_SUCCESS` and
leaves `CONTROL` with `nPRIV` (bit 0) equal to 0 if the bind took the partition for
privileged and to 1 otherwise, and with all its other bits as before. -/
theorem privilege_round_trip (P : TfmConfig) (hmask : P.HANDLE_ATTR_PRIV_MASK % 2 = 1)
    (w : TfmWorld) (d : partition_load_info_t) (s : TfmState) (h : Nat)
    (hok : (tfm_hal_bind_boundaries P w (some d) true s).1 = .TFM_HAL_SUCCESS)
    (hh : (tfm_hal_bind_boundaries P w (some d) true s).2.1 = some h)
    (p : Option partition_load_info_t) (t : TfmState) :
    (tfm_hal_update_boundaries P p h t).1 = .TFM_HAL_SUCCESS ∧
    (tfm_hal_update_boundaries P p h t).2.CONTROL % 2 =
      (if is_privileged P d then 0 else 1) ∧
    (tfm_hal_update_boundaries P p h t).2.CONTROL / 2 = t.CONTROL / 2 ∧
    (∀ i, 0 < i → (tfm_hal_update_boundaries P p h t).2.CONTROL.testBit i =
      t.CONTROL.testBit i) := by
  have h1 : (1 : Nat) &&& P.HANDLE_ATTR_PRIV_MASK = 1 := by
    rw [Nat.one_and_eq_mod_two, hmask]
  have hb : (bind_assets P w (is_privileged P d) d.assets s).1 = true := by
    by_contra hc
    simp [tfm_hal_bind_boundaries, hc] at hok
  have hval : h = (is_privileged P d).toNat &&& P.HANDLE_ATTR_PRIV_MASK := by
    simp only [tfm_hal_bind_boundaries, hb, if_true, Bool.true_eq_false, if_false,
      Option.some.injEq] at hh
    exact hh.symm
  have hpriv : (h &&& P.HANDLE_ATTR_PRIV_MASK ≠ 0) ↔ is_privileged P d = true := by
    rw [hval]
    cases is_privileged P d
    · simp
    · simp [h1]
  have hc : (tfm_hal_update_boundaries P p h t).2.CONTROL =
      t.CONTROL / 2 * 2 + (if is_privileged P d then 0 else 1) := by
    by_cases hp : is_privileged P d = true
    · have := hpriv.mpr hp
      simp [tfm_hal_update_boundaries, this, hp]
    · have hq : ¬ (h &&& P.HANDLE_ATTR_PRIV_MASK ≠ 0) := fun hx => hp (hpriv.mp hx)
      simp only [ne_eq, not_not] at hq
      simp [tfm_hal_update_boundaries, hq, hp]
  have hdiv : (tfm_hal_update_boundaries P p h t).2.CONTROL / 2 = t.CONTROL / 2 := by
    rw [hc]
    cases is_privileged P d <;> simp
    all_goals omega
  refine ⟨rfl, ?_, hdiv, ?_⟩
  · rw [hc]
    cases is_privileged P d <;> simp
    all_goals omega
  · intro i hi
    obtain ⟨j, rfl⟩ : ∃ j, i = j + 1 := ⟨i - 1, by omega⟩
    rw [Nat.testBit_succ, Nat.testBit_succ, hdiv]

/-- C24, at the partition A (unprivileged: `nPRIV` becomes 1) and at a partition of the PSA
root of trust (privileged: `nPRIV` becomes 0), from `CONTROL = 2`. -/
theorem privilege_round_trip_witness :
    ((tfm_hal_update_boundaries sample_config (some partition_A) 0
        { initial_state with CONTROL := 2 }).2.CONTROL % 2 =
        (if is_privileged sample_config partition_A then 0 else 1) ∧
      is_privileged sample_config partition_A = false) ∧
    ((tfm_hal_update_boundaries sample_config none 1
        { initial_state with CONTROL := 3 }).2.CONTROL % 2 =
        (if is_privileged sample_config { partition_A with flags := 0x300 } then 0 else 1) ∧
      is_privileged sample_config { partition_A with flags := 0x300 } = true) :=
  ⟨⟨(privilege_round_trip sample_config (by decide) sample_drivers partition_A
        after_static_setup 0 (by decide) (by decide) (some partition_A)
        { initial_state with CONTROL := 2 }).2.1, by decide⟩,
    ⟨(privilege_round_trip sample_config (by decide) sample_drivers
        { partition_A with flags := 0x300 } after_static_setup 1 (by decide) (by decide) none
        { initial_state with CONTROL := 3 }).2.1, by decide⟩⟩

theorem adds_safe_regions_refl (s : TfmState) : adds_safe_regions s s :=
  ⟨⟨[], by simp, fun c hc => by cases hc⟩, fun _ => Or.inl rfl⟩

theorem adds_safe_regions_trans (s t u : TfmState) (h1 : adds_safe_regions s t)
    (h2 : adds_safe_regions t u) : adds_safe_regions s u := by
  obtain ⟨⟨n1, e1, w1⟩, m1⟩ := h1
  obtain ⟨⟨n2, e2, w2⟩, m2⟩ := h2
  refine ⟨⟨n1 ++ n2, by rw [e2, e1, List.append_assoc], ?_⟩, ?_⟩
  · intro c hc
    rcases List.mem_append.mp hc with h | h
    · exact w1 c h
    · exact w2 c h
  · intro i
    rcases m2 i with h | h | h
    · rw [h]
      exact m1 i
    · exact Or.inr (Or.inl h)
    · exact Or.inr (Or.inr h)

/-- A step that calls the MPU driver for no region and leaves or empties the region
table. -/
theorem adds_safe_regions_of_same (s t : TfmState)
    (h1 : region_calls t.trace = region_calls s.trace)
    (h2 : t.mpu = s.mpu ∨ t.mpu = fun _ => none) : adds_safe_regions s t := by
  refine ⟨⟨[], by simp [h1], fun c hc => by cases hc⟩, fun i => ?_⟩
  rcases h2 with h | h
  · exact Or.inl (by rw [h])
  · exact Or.inr (Or.inl (by rw [h]))

theorem region_enable_adds_safe (w : TfmWorld) (cfg : mpu_armv8m_region_cfg_t) (s : TfmState)
    (hc : read_only_or_execute_never cfg) :
    adds_safe_regions s (mpu_armv8m_region_enable w cfg s).2 := by
  obtain ⟨_, _, _, _, r5, r6⟩ := region_enable_facts w cfg s
  refine ⟨⟨[(cfg, w.mpu_armv8m_region_enable cfg)], ?_, ?_⟩, fun i => ?_⟩
  · rw [r6, region_calls_append]
    rfl
  · intro c h
    rw [List.mem_singleton.mp h]
    exact hc
  · rw [r5]
    by_cases hw : w.mpu_armv8m_region_enable cfg = true
    · by_cases hi : i = cfg.region_nr
      · exact Or.inr (Or.inr ⟨cfg, by simp [hw, hi], hc⟩)
      · exact Or.inl (by simp [hw, hi])
    · exact Or.inl (by simp [hw])

theorem static_regions_safe (P : TfmConfig) :
    ∀ cfg ∈ static_regions P, read_only_or_execute_never cfg := by
  intro cfg h
  unfold static_regions at h
  by_cases hm : P.TFM_SP_META_PTR_ENABLE = true
  · simp only [hm, if_true, List.cons_append, List.nil_append, List.mem_cons,
      List.mem_singleton, List.not_mem_nil, or_false] at h
    rcases h with rfl | rfl | rfl | rfl | rfl | rfl <;>
      simp [read_only_or_execute_never]
  · simp only [hm, Bool.false_eq_true, if_false, List.append_nil, List.mem_cons,
      List.mem_singleton, List.not_mem_nil, or_false] at h
    rcases h with rfl | rfl | rfl | rfl | rfl <;>
      simp [read_only_or_execute_never]

theorem enable_static_regions_adds_safe (w : TfmWorld) (l : List mpu_armv8m_region_cfg_t)
    (s : TfmState) (hl : ∀ cfg ∈ l, read_only_or_execute_never cfg) :
    adds_safe_regions s (enable_static_regions w l s).2 := by
  induction l generalizing s with
  | nil => exact adds_safe_regions_refl s
  | cons cfg l ih =>
    have h1 := region_enable_adds_safe w cfg s (hl cfg (List.mem_cons_self _ _))
    simp only [enable_static_regions]
    by_cases h : (mpu_armv8m_region_enable w cfg s).1 = true
    · simp only [h, if_true]
      have h2 : adds_safe_regions (mpu_armv8m_region_enable w cfg s).2
          (incr_n_configured_regions (mpu_armv8m_region_enable w cfg s).2) :=
        adds_safe_regions_of_same _ _ rfl (Or.inl rfl)
      exact adds_safe_regions_trans _ _ _ h1 (adds_safe_regions_trans _ _ _ h2
        (ih _ (fun c hc => hl c (List.mem_cons_of_mem _ hc))))
    · simp only [h, Bool.false_eq_true, if_false]
      exact h1

theorem emit_adds_safe (s : TfmState) (e : TfmEvent)
    (he : ∀ cfg ok, e ≠ .mpu_armv8m_region_enable cfg ok) :
    adds_safe_regions s (s.emit e) := by
  refine adds_safe_regions_of_same _ _ ?_ (Or.inl rfl)
  show region_calls (s.trace ++ [e]) = _
  rw [region_calls_append]
  cases e <;> first
    | exact absurd rfl (he _ _)
    | simp [region_calls]

theorem static_setup_adds_safe (P : TfmConfig) (w : TfmWorld) (s : TfmState) :
    adds_safe_regions s (tfm_hal_set_up_static_boundaries P w s).2 := by
  have e1 : adds_safe_regions s (s.emit .sau_and_idau_cfg) :=
    emit_adds_safe _ _ (fun _ _ h => by cases h)
  have e2 : adds_safe_regions s ((s.emit .sau_and_idau_cfg).emit (.mpc_init_cfg w.mpc_init_cfg)) :=
    adds_safe_regions_trans _ _ _ e1 (emit_adds_safe _ _ (fun _ _ h => by cases h))
  have e3 : adds_safe_regions s (((s.emit .sau_and_idau_cfg).emit
      (.mpc_init_cfg w.mpc_init_cfg)).emit (.ppc_init_cfg w.ppc_init_cfg)) :=
    adds_safe_regions_trans _ _ _ e2 (emit_adds_safe _ _ (fun _ _ h => by cases h))
  have e4 : adds_safe_regions s (mpu_armv8m_clean (((s.emit .sau_and_idau_cfg).emit
      (.mpc_init_cfg w.mpc_init_cfg)).emit (.ppc_init_cfg w.ppc_init_cfg))) :=
    adds_safe_regions_trans _ _ _ e3 (adds_safe_regions_of_same _ _
      (by simp [mpu_armv8m_clean, region_calls, List.filterMap_append])
      (Or.inr rfl))
  have e5 := adds_safe_regions_trans _ _ _ e4
    (enable_static_regions_adds_safe w (static_regions P) _ (static_regions_safe P))
  unfold tfm_hal_set_up_static_boundaries
  dsimp only
  split_ifs
  · exact e2
  · exact e3
  · exact adds_safe_regions_trans _ _ _ e5 (adds_safe_regions_of_same _ _
      (by simp [mpu_armv8m_enable, region_calls, List.filterMap_append]) (Or.inl rfl))
  · exact e5
  · exact e3

theorem bind_asset_adds_safe (P : TfmConfig) (w : TfmWorld) (privileged : Bool)
    (a : asset_desc_t) (s : TfmState) :
    adds_safe_regions s (bind_asset P w privileged a s).2 := by
  obtain ⟨_, c2, _, _⟩ := configure_ppc_fields P privileged (P.platform_data a.dev_ref) s
  have hc : adds_safe_regions s (configure_ppc P privileged (P.platform_data a.dev_ref) s) :=
    adds_safe_regions_of_same _ _ (configure_ppc_region_calls P privileged _ s) (Or.inl c2)
  rcases bind_asset_cases P w privileged a s with h | h | h | ⟨_, _, _, _, h⟩
  · rw [h]; exact adds_safe_regions_refl s
  · rw [h]; exact adds_safe_regions_refl s
  · rw [h]; exact hc
  · rw [h]
    refine adds_safe_regions_trans _ _ _ hc (adds_safe_regions_trans _ _ _
      (adds_safe_regions_of_same _ (incr_n_configured_regions _) rfl (Or.inl rfl))
      (region_enable_adds_safe w _ _ (Or.inr rfl)))

theorem bind_assets_adds_safe (P : TfmConfig) (w : TfmWorld) (privileged : Bool)
    (l : List asset_desc_t) (s : TfmState) :
    adds_safe_regions s (bind_assets P w privileged l s).2 := by
  induction l generalizing s with
  | nil => exact adds_safe_regions_refl s
  | cons a l ih =>
    simp only [bind_assets]
    by_cases h : (bind_asset P w privileged a s).1 = true
    · simp only [h, if_true]
      exact adds_safe_regions_trans _ _ _ (bind_asset_adds_safe P w privileged a s) (ih _)
    · simp only [h, Bool.false_eq_true, if_false]
      exact bind_asset_adds_safe P w privileged a s

theorem bind_adds_safe (P : TfmConfig) (w : TfmWorld) (p : Option partition_load_info_t)
    (b : Bool) (s : TfmState) :
    adds_safe_regions s (tfm_hal_bind_boundaries P w p b s).2.2 := by
  cases p with
  | none => exact adds_safe_regions_refl s
  | some d =>
    cases b with
    | false => exact adds_safe_regions_refl s
    | true =>
      simp only [tfm_hal_bind_boundaries, Bool.true_eq_false, if_false]
      split_ifs <;> exact bind_assets_adds_safe P w _ d.assets s

theorem run_ops_adds_safe (P : TfmConfig) (w : TfmWorld) (ops : List Op) (s : TfmState) :
    adds_safe_regions s (run_ops P w ops s) := by
  induction ops generalizing s with
  | nil => exact adds_safe_regions_refl s
  | cons op ops ih =>
    cases op with
    | set_up_static_boundaries =>
      exact adds_safe_regions_trans _ _ _ (static_setup_adds_safe P w s) (ih _)
    | bind_boundaries d =>
      exact adds_safe_regions_trans _ _ _ (bind_adds_safe P w (some d) true s) (ih _)

/-- C23.  No region configuration that `tfm_hal_set_up_static_boundaries` or
`tfm_hal_bind_boundaries` passes to `mpu_armv8m_region_enable` is both writable and
executable: from every state, for all drivers and every descriptor, each call of the
driver that the function adds has read-only access (`MPU_ARMV8M_AP_RO_PRIV_UNPRIV`) or is
execute-never (`MPU_ARMV8M_XN_EXEC_NEVER`), and each entry of the region table afterwards
is the entry from before, or empty, or read-only or execute-never.  So after every
sequence of calls from the initial state, every call of the driver and every entry of the
region table is read-only or execute-never. -/
theorem no_region_writable_and_executable (P : TfmConfig) (w : TfmWorld) (s : TfmState)
    (p : Option partition_load_info_t) (b : Bool) (ops : List Op) :
    ((∃ new, region_calls (tfm_hal_set_up_static_boundaries P w s).2.trace =
        region_calls s.trace ++ new ∧
        ∀ c ∈ new, c.1.attr_access = .MPU_ARMV8M_AP_RO_PRIV_UNPRIV ∨
          c.1.attr_exec = .MPU_ARMV8M_XN_EXEC_NEVER) ∧
      ∀ i, (tfm_hal_set_up_static_boundaries P w s).2.mpu i = s.mpu i ∨
        (tfm_hal_set_up_static_boundaries P w s).2.mpu i = none ∨
        ∃ cfg, (tfm_hal_set_up_static_boundaries P w s).2.mpu i = some cfg ∧
          (cfg.attr_access = .MPU_ARMV8M_AP_RO_PRIV_UNPRIV ∨
            cfg.attr_exec = .MPU_ARMV8M_XN_EXEC_NEVER)) ∧
    ((∃ new, region_calls (tfm_hal_bind_boundaries P w p b s).2.2.trace =
        region_calls s.trace ++ new ∧
        ∀ c ∈ new, c.1.attr_access = .MPU_ARMV8M_AP_RO_PRIV_UNPRIV ∨
          c.1.attr_exec = .MPU_ARMV8M_XN_EXEC_NEVER) ∧
      ∀ i, (tfm_hal_bind_boundaries P w p b s).2.2.mpu i = s.mpu i ∨
        (tfm_hal_bind_boundaries P w p b s).2.2.mpu i = none ∨
        ∃ cfg, (tfm_hal_bind_boundaries P w p b s).2.2.mpu i = some cfg ∧
          (cfg.attr_access = .MPU_ARMV8M_AP_RO_PRIV_UNPRIV ∨
            cfg.attr_exec = .MPU_ARMV8M_XN_EXEC_NEVER)) ∧
    (∀ c ∈ region_calls (run_ops P w ops initial_state).trace,
      c.1.attr_access = .MPU_ARMV8M_AP_RO_PRIV_UNPRIV ∨
        c.1.attr_exec = .MPU_ARMV8M_XN_EXEC_NEVER) ∧
    (∀ i cfg, (run_ops P w ops initial_state).mpu i = some cfg →
      cfg.attr_access = .MPU_ARMV8M_AP_RO_PRIV_UNPRIV ∨
        cfg.attr_exec = .MPU_ARMV8M_XN_EXEC_NEVER) := by
  refine ⟨static_setup_adds_safe P w s, bind_adds_safe P w p b s, ?_, ?_⟩
  · obtain ⟨⟨new, e, hw⟩, _⟩ := run_ops_adds_safe P w ops initial_state
    intro c hc
    rw [e] at hc
    exact hw c (by simpa [initial_state, region_calls] using hc)
  · obtain ⟨_, hm⟩ := run_ops_adds_safe P w ops initial_state
    intro i cfg hi
    rcases hm i with h | h | ⟨cfg2, h, hw⟩
    · rw [h] at hi
      simp [initial_state] at hi
    · rw [h] at hi
      cases hi
    · rw [h] at hi
      cases hi
      exact hw

end TfmIsolation

/-! # Theorems about `soilMoisture_sensor_publish.c` -/

namespace SoilMoisture

theorem round_half_even_error (x : ℚ) : |(round_half_even x : ℚ) - x| ≤ 1 / 2 := by
  have h1 := Int.floor_le x
  have h2 := Int.lt_floor_add_one x
  unfold round_half_even
  split_ifs <;> push_cast <;> rw [abs_le] <;> constructor <;> linarith

theorem round_half_even_intCast (k : ℤ) : round_half_even (k : ℚ) = k := by
  simp [round_half_even]

theorem float_of_rat_zero : float_of_rat 0 = 0 := by
  simp [float_of_rat]

/-- Rounding to `float` changes a number of magnitude `1 / 8` or more by at most the
fraction `2^-24` of its magnitude. -/
theorem float_of_rat_error (x : ℚ) (hx : 1 / 8 ≤ |x|) :
    |float_of_rat x - x| ≤ |x| / 16777216 := by
  have hpos : 0 < |x| := by linarith
  have hx0 : x ≠ 0 := abs_pos.mp hpos
  have hL : (-3 : ℤ) ≤ Int.log 2 |x| := by
    apply (Int.zpow_le_iff_le_log (by norm_num) hpos).mp
    norm_num
    linarith
  have he : max (Int.log 2 |x| - 23) (-149) = Int.log 2 |x| - 23 := max_eq_left (by omega)
  have hle : (2 : ℚ) ^ (Int.log 2 |x|) ≤ |x| := by
    simpa using Int.zpow_log_le_self (b := 2) (by norm_num) hpos
  unfold float_of_rat
  rw [if_neg hx0, he]
  have hp : (0 : ℚ) < 2 ^ (Int.log 2 |x| - 23) := zpow_pos (by norm_num) _
  have hr := round_half_even_error (x / 2 ^ (Int.log 2 |x| - 23))
  have hfac : (round_half_even (x / 2 ^ (Int.log 2 |x| - 23)) : ℚ) * 2 ^ (Int.log 2 |x| - 23) - x
      = ((round_half_even (x / 2 ^ (Int.log 2 |x| - 23)) : ℚ) - x / 2 ^ (Int.log 2 |x| - 23))
        * 2 ^ (Int.log 2 |x| - 23) := by
    field_simp
  have h2e : (2 : ℚ) ^ (Int.log 2 |x| - 23) = 2 ^ (Int.log 2 |x|) / 8388608 := by
    rw [zpow_sub₀ (by norm_num)]
    norm_num
  rw [hfac, abs_mul, abs_of_pos hp]
  calc |(round_half_even (x / 2 ^ (Int.log 2 |x| - 23)) : ℚ) - x / 2 ^ (Int.log 2 |x| - 23)|
        * 2 ^ (Int.log 2 |x| - 23)
      ≤ 1 / 2 * 2 ^ (Int.log 2 |x| - 23) := mul_le_mul_of_nonneg_right hr hp.le
    _ = 2 ^ (Int.log 2 |x|) / 16777216 := by rw [h2e]; ring
    _ ≤ |x| / 16777216 := by linarith

/-- The integers of magnitude below `2^24` are values of type `float`. -/
theorem float_of_rat_intCast (n : ℤ) (hn : |n| < 16777216) : float_of_rat (n : ℚ) = n := by
  by_cases h0 : n = 0
  · rw [h0]
    simp [float_of_rat]
  · have hq0 : (n : ℚ) ≠ 0 := by exact_mod_cast h0
    have hpos : (0 : ℚ) < |(n : ℚ)| := abs_pos.mpr hq0
    have h1 : (1 : ℚ) ≤ |(n : ℚ)| := by
      have : (1 : ℤ) ≤ |n| := Int.one_le_abs h0
      exact_mod_cast this
    have hlt : |(n : ℚ)| < 16777216 := by exact_mod_cast hn
    have hL0 : (0 : ℤ) ≤ Int.log 2 |(n : ℚ)| := by
      apply (Int.zpow_le_iff_le_log (by norm_num) hpos).mp
      simpa using h1
    have hL1 : Int.log 2 |(n : ℚ)| < 24 := by
      apply (Int.lt_zpow_iff_log_lt (by norm_num) hpos).mp
      norm_num
      exact hlt
    have he : max (Int.log 2 |(n : ℚ)| - 23) (-149) = Int.log 2 |(n : ℚ)| - 23 :=
      max_eq_left (by omega)
    obtain ⟨m, hm⟩ : ∃ m : ℕ, (m : ℤ) = 23 - Int.log 2 |(n : ℚ)| :=
      ⟨(23 - Int.log 2 |(n : ℚ)|).toNat, Int.toNat_of_nonneg (by omega)⟩
    have hexp : Int.log 2 |(n : ℚ)| - 23 = -(m : ℤ) := by omega
    unfold float_of_rat
    rw [if_neg hq0, he, hexp, zpow_neg, zpow_natCast]
    have hpw : (0 : ℚ) < 2 ^ m := pow_pos (by norm_num) m
    have hdiv : (n : ℚ) / (2 ^ m)⁻¹ = ((n * 2 ^ m : ℤ) : ℚ) := by
      push_cast
      field_simp
    rw [hdiv, round_half_even_intCast]
    push_cast
    field_simp

theorem float_of_rat_of_int (x : ℚ) (n : ℤ) (hx : x = n) (hn : |n| < 16777216) :
    float_of_rat x = x := by
  rw [hx]
  exact float_of_rat_intCast n hn

/-- Lines 256-266 with the exact operations done: the quotient is the only operation
that rounds. -/
theorem soil_moisture_eq (u : Nat) (hu : u ≤ 65535) :
    soil_moisture u =
      (if (if float_of_rat (100 * (1750 - (u : ℚ)) / 750) < 0 then 0
          else float_of_rat (100 * (1750 - (u : ℚ)) / 750)) > 100 then 100
        else (if float_of_rat (100 * (1750 - (u : ℚ)) / 750) < 0 then 0
          else float_of_rat (100 * (1750 - (u : ℚ)) / 750))) := by
  have h0 : float_of_rat 0 = 0 := float_of_rat_zero
  have h100 : float_of_rat 100 = 100 := float_of_rat_of_int 100 100 (by norm_num) (by decide)
  have hlow : MOIST_SESNOR_LOW_MOISTURE = 1750 :=
    float_of_rat_of_int 1750 1750 (by norm_num) (by decide)
  have hhigh : MOIST_SESNOR_HIGH_MOISTURE = 1000 :=
    float_of_rat_of_int 1000 1000 (by norm_num) (by decide)
  have hu1 : float_of_rat (u : ℚ) = u :=
    float_of_rat_of_int u u (by push_cast; rfl) (by rw [abs_lt]; constructor <;> omega)
  have hsub : float_sub 1750 (u : ℚ) = 1750 - u :=
    float_of_rat_of_int _ (1750 - (u : ℤ)) (by push_cast; rfl)
      (by rw [abs_lt]; constructor <;> omega)
  have hmul : float_mul 100 (1750 - (u : ℚ)) = 100 * (1750 - u) :=
    float_of_rat_of_int _ (100 * (1750 - (u : ℤ))) (by push_cast; rfl)
      (by rw [abs_lt]; constructor <;> omega)
  have hden : float_sub 1750 1000 = 750 :=
    (float_of_rat_of_int (1750 - 1000) 750 (by norm_num) (by decide)).trans (by norm_num)
  unfold soil_moisture
  simp only [h0, h100, hlow, hhigh, hu1, hsub, hmul, hden, float_div]

/-- The rounded quotient of line 256 is within `1 / 1000` of the exact one. -/
theorem quotient_error (u : Nat) (hu : u ≤ 65535) :
    |float_of_rat (100 * (1750 - (u : ℚ)) / 750) - 100 * (1750 - (u : ℚ)) / 750| ≤
      |100 * (1750 - (u : ℚ)) / 750| / 16777216 ∧
    |float_of_rat (100 * (1750 - (u : ℚ)) / 750) - 100 * (1750 - (u : ℚ)) / 750| ≤ 1 / 1000 := by
  have huq : (u : ℚ) ≤ 65535 := by exact_mod_cast hu
  have hu0 : (0 : ℚ) ≤ u := Nat.cast_nonneg u
  have hb : |100 * (1750 - (u : ℚ)) / 750| ≤ 8505 := by
    rw [abs_le]
    constructor <;> linarith
  by_cases h : u = 1750
  · subst h
    norm_num [float_of_rat_zero]
  · have hge : 1 / 8 ≤ |100 * (1750 - (u : ℚ)) / 750| := by
      rcases Nat.lt_or_gt_of_ne h with h1 | h1
      · have : (u : ℚ) + 1 ≤ 1750 := by exact_mod_cast h1
        rw [abs_of_nonneg (by linarith)]
        linarith
      · have : (1750 : ℚ) + 1 ≤ u := by exact_mod_cast h1
        rw [abs_of_nonpos (by linarith)]
        linarith
    have he := float_of_rat_error _ hge
    exact ⟨he, by linarith⟩

/-- Where the rounded quotient of line 256 stands with respect to 0, 70 and 100, and that
it falls when the converted value grows. -/
theorem quotient_facts (u : Nat) (hu : u ≤ 65535) :
    (1750 < u → float_of_rat (100 * (1750 - (u : ℚ)) / 750) < 0) ∧
    (u = 1750 → float_of_rat (100 * (1750 - (u : ℚ)) / 750) = 0) ∧
    (u < 1750 → 0 < float_of_rat (100 * (1750 - (u : ℚ)) / 750)) ∧
    (u < 1000 → 100 < float_of_rat (100 * (1750 - (u : ℚ)) / 750)) ∧
    (u = 1000 → float_of_rat (100 * (1750 - (u : ℚ)) / 750) = 100) ∧
    (1000 < u → float_of_rat (100 * (1750 - (u : ℚ)) / 750) < 100) ∧
    (u < 1225 → 70 < float_of_rat (100 * (1750 - (u : ℚ)) / 750)) ∧
    (1225 ≤ u → float_of_rat (100 * (1750 - (u : ℚ)) / 750) ≤ 70) ∧
    (∀ v : Nat, v < u →
      float_of_rat (100 * (1750 - (u : ℚ)) / 750) <
        float_of_rat (100 * (1750 - (v : ℚ)) / 750)) := by
  obtain ⟨_, he⟩ := quotient_error u hu
  rw [abs_le] at he
  obtain ⟨he1, he2⟩ := he
  refine ⟨?_, ?_, ?_, ?_, ?_, ?_, ?_, ?_, ?_⟩
  · intro h
    have : (1750 : ℚ) + 1 ≤ u := by exact_mod_cast h
    linarith
  · intro h
    subst h
    norm_num [float_of_rat_zero]
  · intro h
    have : (u : ℚ) + 1 ≤ 1750 := by exact_mod_cast h
    linarith
  · intro h
    have : (u : ℚ) + 1 ≤ 1000 := by exact_mod_cast h
    linarith
  · intro h
    subst h
    exact float_of_rat_of_int _ 100 (by norm_num) (by decide) |>.trans (by norm_num)
  · intro h
    have : (1000 : ℚ) + 1 ≤ u := by exact_mod_cast h
    linarith
  · intro h
    have : (u : ℚ) + 1 ≤ 1225 := by exact_mod_cast h
    linarith
  · intro h
    rcases Nat.eq_or_lt_of_le h with h1 | h1
    · subst h1
      exact le_of_eq (float_of_rat_of_int _ 70 (by norm_num) (by decide) |>.trans (by norm_num))
    · have : (1225 : ℚ) + 1 ≤ u := by exact_mod_cast h1
      linarith
  · intro v hv
    obtain ⟨_, hv3⟩ := quotient_error v (by omega)
    rw [abs_le] at hv3
    have : (v : ℚ) + 1 ≤ u := by exact_mod_cast hv
    linarith [hv3.1, hv3.2]

/-- The three ranges of the converted value `u`: clamped to 100, the rounded quotient,
clamped to 0. -/
theorem soil_moisture_cases (u : Nat) (hu : u ≤ 65535) :
    (u ≤ 1000 → soil_moisture u = 100) ∧
    (1750 ≤ u → soil_moisture u = 0) ∧
    (1000 < u → u < 1750 →
      soil_moisture u = float_of_rat (100 * (1750 - (u : ℚ)) / 750) ∧
      0 < float_of_rat (100 * (1750 - (u : ℚ)) / 750) ∧
      float_of_rat (100 * (1750 - (u : ℚ)) / 750) < 100) := by
  obtain ⟨f1, f2, f3, f4, f5, f6, _, _, _⟩ := quotient_facts u hu
  rw [soil_moisture_eq u hu]
  refine ⟨?_, ?_, ?_⟩
  · intro h
    rcases Nat.eq_or_lt_of_le h with h1 | h1
    · have := f5 h1
      rw [this]
      norm_num
    · have := f4 h1
      have hin : (if float_of_rat (100 * (1750 - (u : ℚ)) / 750) < 0 then 0
          else float_of_rat (100 * (1750 - (u : ℚ)) / 750)) =
          float_of_rat (100 * (1750 - (u : ℚ)) / 750) := if_neg (by linarith)
      rw [hin, if_pos this]
  · intro h
    rcases Nat.eq_or_lt_of_le h with h1 | h1
    · have := f2 h1.symm
      rw [this]
      norm_num
    · have := f1 h1
      have hin : (if float_of_rat (100 * (1750 - (u : ℚ)) / 750) < 0 then (0 : ℚ)
          else float_of_rat (100 * (1750 - (u : ℚ)) / 750)) = 0 := if_pos this
      rw [hin]
      norm_num
  · intro h1 h2
    have a := f3 h2
    have b := f6 h1
    have hin : (if float_of_rat (100 * (1750 - (u : ℚ)) / 750) < 0 then 0
        else float_of_rat (100 * (1750 - (u : ℚ)) / 750)) =
        float_of_rat (100 * (1750 - (u : ℚ)) / 750) := if_neg (by linarith)
    rw [hin, if_neg (by linarith)]
    exact ⟨rfl, a, b⟩

/-- The stored value falls, or stays, when the converted value grows. -/
theorem soil_moisture_antitone (u v : Nat) (huv : u ≤ v) (hv : v ≤ 65535) :
    soil_moisture v ≤ soil_moisture u := by
  obtain ⟨u1, u2, u3⟩ := soil_moisture_cases u (by omega)
  obtain ⟨v1, v2, v3⟩ := soil_moisture_cases v hv
  obtain ⟨_, _, _, _, _, _, _, _, vm⟩ := quotient_facts v hv
  by_cases hv0 : 1750 ≤ v
  · rw [v2 hv0]
    by_cases hu0 : 1750 ≤ u
    · rw [u2 hu0]
    · by_cases hu1 : u ≤ 1000
      · rw [u1 hu1]
        norm_num
      · obtain ⟨e, p, _⟩ := u3 (by omega) (by omega)
        rw [e]
        exact p.le
  · by_cases hv1 : v ≤ 1000
    · rw [v1 hv1, u1 (by omega)]
    · obtain ⟨e, _, q⟩ := v3 (by omega) (by omega)
      rw [e]
      by_cases hu1 : u ≤ 1000
      · rw [u1 hu1]
        exact q.le
      · obtain ⟨e2, _, _⟩ := u3 (by omega) (by omega)
        rw [e2]
        rcases Nat.eq_or_lt_of_le huv with h | h
        · rw [h]
        · exact (vm u h).le

theorem converted_data_facts (v : Nat) :
    converted_data v ≤ 65535 ∧ converted_data v % 2 = 0 := by
  refine ⟨?_, ?_⟩
  · unfold converted_data
    omega
  · unfold converted_data
    rw [Nat.mod_mod_of_dvd _ (by decide : 2 ∣ 65536)]
    have h := Nat.testBit_zero ((v % 4294967296) &&& 0xFFFFFFFE)
    rw [Nat.testBit_and] at h
    have h2 : Nat.testBit 0xFFFFFFFE 0 = false := by decide
    rw [h2, Bool.and_false] at h
    have := Nat.mod_two_eq_zero_or_one ((v % 4294967296) &&& 0xFFFFFFFE)
    rcases this with h3 | h3
    · exact h3
    · simp [h3] at h

theorem poll_for_conversion_relay (w : AdcWorld) (fuel j : Nat) (s t : SensorState)
    (h : poll_for_conversion w fuel j s = some t) :
    t.RELAY_1 = s.RELAY_1 ∧ relay_writes t.trace = relay_writes s.trace := by
  induction fuel generalizing j s with
  | zero => simp [poll_for_conversion] at h
  | succ fuel ih =>
    simp only [poll_for_conversion] at h
    split_ifs at h with hc
    · obtain ⟨a, b⟩ := ih _ _ h
      exact ⟨a, b.trans (by simp [SensorState.emit, relay_writes, List.filterMap_append])⟩
    · cases h
      exact ⟨rfl, by simp [SensorState.emit, relay_writes, List.filterMap_append]⟩

/-- The loop of lines 245-248 ends when the call number `k` returns `HAL_OK` and the fuel
reaches that far. -/
theorem poll_for_conversion_ends (w : AdcWorld) (k : Nat)
    (hdone : w.HAL_ADC_PollForConversion k = HAL_OK) (fuel j : Nat) (s : SensorState)
    (hj : j ≤ k) (hfuel : k - j < fuel) :
    ∃ t, poll_for_conversion w fuel j s = some t := by
  induction fuel generalizing j s with
  | zero => omega
  | succ fuel ih =>
    simp only [poll_for_conversion]
    split_ifs with hc
    · have hne : j ≠ k := fun h => hc (h ▸ hdone)
      exact ih (j + 1) _ (by omega) (by omega)
    · exact ⟨_, rfl⟩

/-- The stored value against the exact linear map: it is the `float` for the clamped
map, within the fraction `2^-24` of it, between 0 and 100, and above 70 exactly for
converted values below 1225. -/
theorem soil_moisture_facts (u : Nat) (hu : u ≤ 65535) :
    soil_moisture u = float_of_rat (max 0 (min 100 (100 * (1750 - (u : ℚ)) / 750))) ∧
    |soil_moisture u - max 0 (min 100 (100 * (1750 - (u : ℚ)) / 750))| ≤
      max 0 (min 100 (100 * (1750 - (u : ℚ)) / 750)) / 16777216 ∧
    0 ≤ soil_moisture u ∧ soil_moisture u ≤ 100 ∧
    (soil_moisture u > 70 ↔ u < 1225) := by
  obtain ⟨c1, c2, c3⟩ := soil_moisture_cases u hu
  obtain ⟨_, _, _, _, _, _, g1, g2, _⟩ := quotient_facts u hu
  obtain ⟨e1, _⟩ := quotient_error u hu
  have h100 : float_of_rat 100 = 100 := float_of_rat_of_int 100 100 (by norm_num) (by decide)
  by_cases h1 : u ≤ 1000
  · have hq : (100 : ℚ) ≤ 100 * (1750 - (u : ℚ)) / 750 := by
      have : (u : ℚ) ≤ 1000 := by exact_mod_cast h1
      linarith
    rw [c1 h1, min_eq_left hq, max_eq_right (by norm_num : (0 : ℚ) ≤ 100), h100]
    refine ⟨rfl, by norm_num, by norm_num, le_refl _, ?_⟩
    constructor
    · intro _
      omega
    · intro _
      norm_num
  · by_cases h2 : 1750 ≤ u
    · have hq : 100 * (1750 - (u : ℚ)) / 750 ≤ 0 := by
        have : (1750 : ℚ) ≤ u := by exact_mod_cast h2
        linarith
      rw [c2 h2, min_eq_right (by linarith), max_eq_left hq, float_of_rat_zero]
      refine ⟨rfl, by norm_num, le_refl _, by norm_num, ?_⟩
      constructor
      · intro h
        norm_num at h
      · intro h
        omega
    · obtain ⟨e, p, q⟩ := c3 (by omega) (by omega)
      have hq1 : 0 < 100 * (1750 - (u : ℚ)) / 750 := by
        have : (u : ℚ) + 1 ≤ 1750 := by exact_mod_cast (by omega : u + 1 ≤ 1750)
        linarith
      have hq2 : 100 * (1750 - (u : ℚ)) / 750 < 100 := by
        have : (1000 : ℚ) + 1 ≤ u := by exact_mod_cast (by omega : 1000 + 1 ≤ u)
        linarith
      rw [e, min_eq_right hq2.le, max_eq_right hq1.le]
      refine ⟨rfl, ?_, p.le, q.le, ?_⟩
      · rw [abs_of_pos hq1] at e1
        exact e1
      · constructor
        · intro h
          by_contra hc
          have := g2 (by omega)
          linarith
        · intro h
          exact g1 h

/-- C25.  When `HAL_ADC_Start` returns `HAL_OK` and the conversion ends (some call of
`HAL_ADC_PollForConversion` returns `HAL_OK`, the fuel reaching that far),
`xUpdateSensorData` returns `pdTRUE`.  With `a` the converted value (the ADC value with
its lowest bit cleared, in 16 bits), the stored `SoilMoisture` is the `float` for the
linear map `100 * (1750 - a) / 750` clamped to the interval from 0 to 100, within the
fraction `2^-24` of it; it is between 0 and 100, is 100 for `a <= 1000`, is 0 for
`a >= 1750`, and does not grow when `a` grows.  It is greater than 70 exactly when
`a < 1225`, and exactly then the function writes the relay pin, with `GPIO_PIN_RESET`;
it never writes `GPIO_PIN_SET`. -/
theorem soil_moisture_is_clamped_linear_map (w : AdcWorld) (fuel k : Nat)
    (pxData : MoistSensorData_t) (s : SensorState)
    (hstart : w.HAL_ADC_Start = HAL_OK)
    (hdone : w.HAL_ADC_PollForConversion k = HAL_OK) (hfuel : k < fuel) :
    ∃ data t, xUpdateSensorData w fuel pxData s = some (pdTRUE, data, t) ∧
      converted_data w.HAL_ADC_GetValue ≤ 65535 ∧
      converted_data w.HAL_ADC_GetValue % 2 = 0 ∧
      data.ADC_Reading = to_int16 (converted_data w.HAL_ADC_GetValue) ∧
      data.SoilMoisture = soil_moisture (converted_data w.HAL_ADC_GetValue) ∧
      data.SoilMoisture = float_of_rat (max 0 (min 100
        (100 * (1750 - (converted_data w.HAL_ADC_GetValue : ℚ)) / 750))) ∧
      |data.SoilMoisture - max 0 (min 100
          (100 * (1750 - (converted_data w.HAL_ADC_GetValue : ℚ)) / 750))| ≤
        max 0 (min 100
          (100 * (1750 - (converted_data w.HAL_ADC_GetValue : ℚ)) / 750)) / 16777216 ∧
      0 ≤ data.SoilMoisture ∧ data.SoilMoisture ≤ 100 ∧
      (converted_data w.HAL_ADC_GetValue ≤ 1000 → data.SoilMoisture = 100) ∧
      (1750 ≤ converted_data w.HAL_ADC_GetValue → data.SoilMoisture = 0) ∧
      (∀ u v : Nat, u ≤ v → v ≤ 65535 → soil_moisture v ≤ soil_moisture u) ∧
      (data.SoilMoisture > 70 ↔ converted_data w.HAL_ADC_GetValue < 1225) ∧
      relay_writes t.trace = relay_writes s.trace ++
        (if converted_data w.HAL_ADC_GetValue < 1225 then [.GPIO_PIN_RESET] else []) ∧
      t.RELAY_1 = (if converted_data w.HAL_ADC_GetValue < 1225 then .GPIO_PIN_RESET
        else s.RELAY_1) := by
  obtain ⟨hu, heven⟩ := converted_data_facts w.HAL_ADC_GetValue
  obtain ⟨m1, m2, m3, m4, m5⟩ := soil_moisture_facts _ hu
  obtain ⟨c1, c2, _⟩ := soil_moisture_cases _ hu
  obtain ⟨t0, ht0⟩ := poll_for_conversion_ends w k hdone fuel 0
    (s.emit (.HAL_ADC_Start w.HAL_ADC_Start)) (Nat.zero_le k) (by omega)
  obtain ⟨r1, r2⟩ := poll_for_conversion_relay w fuel 0 _ t0 ht0
  have r3 : relay_writes t0.trace = relay_writes s.trace := by
    rw [r2]
    simp [SensorState.emit, relay_writes, List.filterMap_append]
  have r4 : t0.RELAY_1 = s.RELAY_1 := r1
  have h70 : float_of_rat 70 = 70 := float_of_rat_of_int 70 70 (by norm_num) (by decide)
  have hrun : xUpdateSensorData w fuel pxData s = some (pdTRUE,
      { SoilMoisture := soil_moisture (converted_data w.HAL_ADC_GetValue)
        ADC_Reading := to_int16 (converted_data w.HAL_ADC_GetValue) },
      if converted_data w.HAL_ADC_GetValue < 1225 then
        HAL_GPIO_WritePin .GPIO_PIN_RESET (t0.emit (.HAL_ADC_GetValue w.HAL_ADC_GetValue))
      else t0.emit (.HAL_ADC_GetValue w.HAL_ADC_GetValue)) := by
    have ht1 := ht0
    rw [hstart] at ht1
    unfold xUpdateSensorData
    simp only [hstart, if_true, ht1, h70]
    by_cases hlt : converted_data w.HAL_ADC_GetValue < 1225
    · rw [if_pos (m5.mpr hlt), if_pos hlt]
    · rw [if_neg (fun h => hlt (m5.mp h)), if_neg hlt]
  refine ⟨_, _, hrun, hu, heven, rfl, rfl, m1, m2, m3, m4, c1, c2,
    fun u v huv hv => soil_moisture_antitone u v huv hv, m5, ?_, ?_⟩
  · by_cases hlt : converted_data w.HAL_ADC_GetValue < 1225
    · simp only [hlt, if_true]
      simp [HAL_GPIO_WritePin, SensorState.emit, relay_writes, List.filterMap_append] at r3 ⊢
      exact r3
    · simp only [hlt, if_false]
      simp [SensorState.emit, relay_writes, List.filterMap_append] at r3 ⊢
      exact r3
  · by_cases hlt : converted_data w.HAL_ADC_GetValue < 1225
    · simp only [hlt, if_true]
      rfl
    · simp only [hlt, if_false]
      exact r4

/-- C25, at a conversion that ends at the second poll with the ADC value 1003, read as
`a = 1002`, the relay being on before: the stored value is the `float` for `1496 / 15`,
it is greater than 70, and the relay is switched off. -/
theorem soil_moisture_is_clamped_linear_map_witness :
    (sample_adc 1003).HAL_ADC_Start = HAL_OK ∧
    (sample_adc 1003).HAL_ADC_PollForConversion 1 = HAL_OK ∧
    converted_data (sample_adc 1003).HAL_ADC_GetValue = 1002 ∧
    ∃ data t, xUpdateSensorData (sample_adc 1003) 2 { SoilMoisture := 0, ADC_Reading := 0 }
        relay_on = some (pdTRUE, data, t) ∧
      data.SoilMoisture = float_of_rat (max 0 (min 100
        (100 * (1750 - (converted_data (sample_adc 1003).HAL_ADC_GetValue : ℚ)) / 750))) ∧
      0 ≤ data.SoilMoisture ∧ data.SoilMoisture ≤ 100 ∧
      (data.SoilMoisture > 70 ↔ converted_data (sample_adc 1003).HAL_ADC_GetValue < 1225) ∧
      t.RELAY_1 = (if converted_data (sample_adc 1003).HAL_ADC_GetValue < 1225 then
        .GPIO_PIN_RESET else relay_on.RELAY_1) :=
  ⟨by decide, by decide, by decide,
    (soil_moisture_is_clamped_linear_map (sample_adc 1003) 2 1
      { SoilMoisture := 0, ADC_Reading := 0 } relay_on (by decide) (by decide)
      (by decide)).elim fun data h => h.elim fun t ht =>
        ⟨data, t, ht.1, ht.2.2.2.2.2.1, ht.2.2.2.2.2.2.2.1, ht.2.2.2.2.2.2.2.2.1,
          ht.2.2.2.2.2.2.2.2.2.2.2.2.1, ht.2.2.2.2.2.2.2.2.2.2.2.2.2.2⟩⟩

end SoilMoisture
